import Mathlib

/-!
The protocol engine of `bnet.c` (pidgin-libbnet)

A shallow embedding of the stream reassembly (`bnet_read_input`,
`bnls_read_input`) and of the logon handshake handlers of `src/bnet.c`,
with the properties of the natural-language specification stated and
proved (or refuted) over it.

Conventions of the embedding.

* A byte is a `Fin 256`; the valid part of a read buffer (`inbuf[0 .. inbufused)`)
  is a `List Byte`, so `inbufused` is the length of that list.  Pointers into
  the buffer (`this_start`) are kept as their offset from `inbuf`.
* `guint16` values are natural numbers reduced modulo `2^16` where the C code
  can overflow (`inbuftouse += this_len`).
* `bnet.h` is not among the sources.  Its numeric constants are fields of
  `BnetConsts`, a parameter of every handler; its enumerations are inductive
  types with the constructor names of the C enumerators.
* A handler's observable behaviour is the list of host calls it makes, in
  program order (`Effect`).
-/

namespace Bnet

/-! ## Stream reassembly -/

/-- Element type of the read buffers (`guint8`). -/
abbrev Byte := Fin 256

/-- One call `bnet_parse_packet(bnet, this_id, this_start, this_len)` (or
`bnls_parse_packet`); the pointer `this_start` is its offset from `inbuf`. -/
structure ParseCall where
  packet_id : Byte
  packet_start : Nat
  packet_len : Nat
deriving DecidableEq

/-- The bytes a parser is handed: `packet_len` bytes from `packet_start`, as far
as they are buffered. -/
def ParseCall.bytes (inbuf : List Byte) (c : ParseCall) : List Byte :=
  (inbuf.drop c.packet_start).take c.packet_len

/-- The `guint16` load of `*((guint16 *)(void *)(p))` at offset `off`, on the little-endian
hosts the plugin is built for. -/
def read_u16 (inbuf : List Byte) (off : Nat) : Nat :=
  (inbuf.getD off 0).val + 256 * (inbuf.getD (off + 1) 0).val

/-- The `while` loop of `bnet_read_input` (bnet.c:1009-1021).  The arguments after the
fuel are the loop variables `this_start` (as an offset) and `inbuftouse`; the result
is the list of `bnet_parse_packet` calls made and the final `this_start`.  `none`
means the loop did not finish within the fuel. -/
def bnet_read_loop (BNET_IDENT_FLAG : Byte) (inbuf : List Byte) :
    Nat → Nat → Nat → Option (List ParseCall × Nat)
  | 0, _, _ => none
  | fuel + 1, this_start, inbuftouse =>
    if this_start + 4 ≤ inbuf.length then
      let this_hdr := inbuf.getD (this_start + 0) 0
      let this_id := inbuf.getD (this_start + 1) 0
      let this_len := read_u16 inbuf (this_start + 2)
      let inbuftouse := (inbuftouse + this_len) % 65536
      if this_hdr = BNET_IDENT_FLAG then
        if inbuftouse ≤ inbuf.length then
          match bnet_read_loop BNET_IDENT_FLAG inbuf fuel (this_start + this_len) inbuftouse with
          | some (calls, stop) => some (⟨this_id, this_start, this_len⟩ :: calls, stop)
          | none => none
        else some ([], this_start)
      else some ([], this_start)
    else some ([], this_start)

/-- The `while` loop of `bnls_read_input` (bnet.c:316-325): a 3-byte header, the length
first, and no sentinel byte. -/
def bnls_read_loop (inbuf : List Byte) : Nat → Nat → Nat → Option (List ParseCall × Nat)
  | 0, _, _ => none
  | fuel + 1, this_start, inbuftouse =>
    if this_start + 3 ≤ inbuf.length then
      let this_id := inbuf.getD (this_start + 2) 0
      let this_len := read_u16 inbuf (this_start + 0)
      let inbuftouse := (inbuftouse + this_len) % 65536
      if inbuftouse ≤ inbuf.length then
        match bnls_read_loop inbuf fuel (this_start + this_len) inbuftouse with
        | some (calls, stop) => some (⟨this_id, this_start, this_len⟩ :: calls, stop)
        | none => none
      else some ([], this_start)
    else some ([], this_start)

/-- How a call of `bnet_read_input` / `bnls_read_input` ends.

* `returned calls inbuf`: the parser calls made, and the buffer left for the next read.
* `overrun calls this_start`: the loop left `this_start` beyond `inbuf + inbufused`.  The C
  code then subtracts more than `inbufused` from `inbufused` and `memmove`s from beyond
  the buffered bytes; what the buffer holds afterwards is not determined by the bytes
  received. -/
inductive ReadOutcome where
  | returned (calls : List ParseCall) (inbuf : List Byte)
  | overrun (calls : List ParseCall) (this_start : Nat)
deriving DecidableEq

/-- The compaction after the loop (bnet.c:1023-1028 and 327-332), for the buffered bytes
`buf` and the loop result. -/
def compact (buf : List Byte) (calls : List ParseCall) (this_start : Nat) : ReadOutcome :=
  if this_start ≠ buf.length then
    if this_start ≤ buf.length then .returned calls (buf.drop this_start)
    else .overrun calls this_start
  else .returned calls []

/-- The function `bnet_read_input(bnet, len)` (bnet.c:997-1029).  `inbuf` is the buffer content
before the read, `chunk` the `len` bytes `read` stored behind it. -/
def bnet_read_input (BNET_IDENT_FLAG : Byte) (fuel : Nat) (inbuf chunk : List Byte) :
    Option ReadOutcome :=
  let buf := inbuf ++ chunk
  match bnet_read_loop BNET_IDENT_FLAG buf fuel 0 0 with
  | some (calls, this_start) => some (compact buf calls this_start)
  | none => none

/-- The function `bnls_read_input(bnet, len)` (bnet.c:304-333). -/
def bnls_read_input (fuel : Nat) (inbuf chunk : List Byte) : Option ReadOutcome :=
  let buf := inbuf ++ chunk
  match bnls_read_loop buf fuel 0 0 with
  | some (calls, this_start) => some (compact buf calls this_start)
  | none => none

/-- A well-formed chat-protocol frame: at least the 4-byte header, the sentinel in byte 0,
and the little-endian `u16` of bytes 2-3 equal to the total length. -/
def WellFormedFrame (FLAG : Byte) (f : List Byte) : Prop :=
  4 ≤ f.length ∧ f.getD 0 0 = FLAG ∧ read_u16 f 2 = f.length

instance (FLAG : Byte) (f : List Byte) : Decidable (WellFormedFrame FLAG f) := by
  unfold WellFormedFrame; infer_instance

/-- The parser calls that dispatch the frames `fs` laid out back to back from offset `off`:
the id is byte 1 of each frame, the length its total length. -/
def frame_calls : Nat → List (List Byte) → List ParseCall
  | _, [] => []
  | off, f :: fs => ⟨f.getD 1 0, off, f.length⟩ :: frame_calls (off + f.length) fs

/-- The read callback run once per chunk, each call continuing with the buffer the previous one
left.  The result lists, for every `bnet_parse_packet` call, the id and the bytes handed over,
and gives the buffer after the last chunk. -/
def bnet_read_chunks (FLAG : Byte) (fuel : Nat) :
    List Byte → List (List Byte) → Option (List (Byte × List Byte) × List Byte)
  | inbuf, [] => some ([], inbuf)
  | inbuf, chunk :: chunks =>
    match bnet_read_input FLAG fuel inbuf chunk with
    | some (.returned calls inbuf') =>
      match bnet_read_chunks FLAG fuel inbuf' chunks with
      | some (frames, final) =>
        some (calls.map (fun c => (c.packet_id, c.bytes (inbuf ++ chunk))) ++ frames, final)
      | none => none
    | _ => none

/-! ## Host calls -/

/-- The two sockets of a session: `bnet->sbnet` (chat server) and `bnet->sbnls` (relay). -/
inductive Socket where
  | sbnet
  | sbnls
deriving DecidableEq

/-- The `PurpleConnectionError` reasons `bnet.c` reports. -/
inductive PurpleConnectionError where
  | NETWORK_ERROR
  | INVALID_SETTINGS
  | AUTHENTICATION_FAILED
deriving DecidableEq

/-- The progress steps passed to `purple_connection_update_progress`. -/
inductive BnetStep where
  | BNET_STEP_BNLS
  | BNET_STEP_CONNECTING
  | BNET_STEP_CREV
  | BNET_STEP_LOGON
  | BNET_STEP_FINAL
deriving DecidableEq

/-- Message identifiers of the frames `bnet.c` sends. -/
inductive PacketID where
  | BNET_SID_NULL
  | BNET_SID_ENTERCHAT
  | BNET_SID_GETCHANNELLIST
  | BNET_SID_JOINCHANNEL
  | BNET_SID_CHATCOMMAND
  | BNET_SID_LEAVECHAT
  | BNET_SID_LOGONRESPONSE2
  | BNET_SID_CREATEACCOUNT2
  | BNET_SID_PING
  | BNET_SID_READUSERDATA
  | BNET_SID_WRITEUSERDATA
  | BNET_SID_AUTH_INFO
  | BNET_SID_AUTH_CHECK
  | BNET_SID_AUTH_ACCOUNTLOGON
  | BNET_SID_AUTH_ACCOUNTLOGONPROOF
  | BNET_SID_FRIENDSLIST
  | BNET_BNLS_CHOOSENLSREVISION
  | BNET_BNLS_LOGONCHALLENGE
  | BNET_BNLS_LOGONPROOF
  | BNET_BNLS_VERSIONCHECKEX2
  | BNET_BNLS_REQUESTVERSIONBYTE
deriving DecidableEq

/-- One `bnet_packet_insert` of a frame under construction. -/
inductive Field where
  | byte (v : Nat)
  | dword (v : Nat)
  | qword (v : Nat)
  | blob (bytes : List Byte)
  | cstring (s : String)
deriving DecidableEq

/-- The `PurpleMessageFlags` values `bnet.c` passes. -/
inductive PurpleMessageFlags where
  | PURPLE_MESSAGE_SEND
  | PURPLE_MESSAGE_RECV
  | PURPLE_MESSAGE_SYSTEM
  | PURPLE_MESSAGE_AUTO_RESP
  | PURPLE_MESSAGE_ERROR
deriving DecidableEq

/-- The status identifiers `BNET_STATUS_ONLINE`, `BNET_STATUS_AWAY`, `BNET_STATUS_DND` and
`BNET_STATUS_OFFLINE`. -/
inductive BnetStatus where
  | BNET_STATUS_ONLINE
  | BNET_STATUS_AWAY
  | BNET_STATUS_DND
  | BNET_STATUS_OFFLINE
deriving DecidableEq

/-- One entry of a `PurpleNotifyUserInfo`: a label with its value, or a section break. -/
inductive UserInfoEntry where
  | pair (label value : String)
  | section_break
deriving DecidableEq

/-- A call out of `bnet.c` that the host, a server or the packet parser observes.  The
constructors after `parse_packet` are the libpurple calls of the same name; text that the C
code passes through `purple_markup_escape_text` is recorded unescaped, and the buddy flags and
the tooltip text of a chat user are recorded as the channel flags, statistics and ping they are
computed from. -/
inductive Effect where
  | connection_error (reason : PurpleConnectionError) (description : String)
  | update_progress (text : String) (step : BnetStep)
  | packet_send (sock : Socket) (id : PacketID) (payload : List Field)
  | parse_packet (call : ParseCall)
  | input_remove (sock : Socket)
  | close (sock : Socket)
  | connection_set_state_connected
  | timeout_add_seconds (interval : Nat)
  | conv_chat_user_set_flags (who : String) (flags : Nat)
  | conv_chat_add_user (who stats : String) (flags ping : Nat) (new_arrival : Bool)
  | conv_chat_remove_user (who : String)
  | conv_chat_write (text : String) (msgflags : PurpleMessageFlags)
  | conv_im_write (text : String) (msgflags : PurpleMessageFlags)
  | serv_got_chat_left (id : Nat)
  | serv_got_joined_chat (id : Nat) (name : String)
  | serv_got_im (who text : String) (msgflags : PurpleMessageFlags)
  | serv_got_chat_in (id : Nat) (who : String) (msgflags : PurpleMessageFlags) (text : String)
  | serv_got_join_chat_failed
  | notify_userinfo (who : String) (info : List UserInfoEntry)
  | notify_error (title primary : String) (secondary : Option String)
  | notify_info (title primary : String)
  | conv_present_error (who what : String)
  | prpl_got_user_status (who : String) (status : BnetStatus) (message : Option String)
  | prpl_got_user_status_deactive (who : String) (status : BnetStatus)
  | blist_add_buddy (name : String)
  | profile_show_write_dialog (psex page ploc pdescr : Option String)
deriving DecidableEq

/-- The frames an effect list sends: socket and message id, in order. -/
def sent : List Effect → List (Socket × PacketID)
  | [] => []
  | .packet_send sock id _ :: rest => (sock, id) :: sent rest
  | _ :: rest => sent rest

/-- The connection errors an effect list reports, in order. -/
def errors : List Effect → List (PurpleConnectionError × String)
  | [] => []
  | .connection_error reason description :: rest => (reason, description) :: errors rest
  | _ :: rest => errors rest

/-! ## The read callback -/

/-- What `read` gave `bnet_input_cb` (bnet.c:977-992). -/
inductive ReadResult where
  | eagain
  | failed (strerror : String)
  | closed
  | data (chunk : List Byte)

/-- Result of one run of `bnet_input_cb`: the calls made, and the read buffer afterwards
(`none` after an overrun, see `ReadOutcome.overrun`). -/
structure InputOutcome where
  effects : List Effect
  inbuf : Option (List Byte)
deriving DecidableEq

/-- The function `bnet_input_cb` (bnet.c:964-995) for a live session (`bnet != NULL`, magic intact). -/
def bnet_input_cb (BNET_IDENT_FLAG : Byte) (fuel : Nat) (inbuf : List Byte) :
    ReadResult → Option InputOutcome
  | .eagain => some ⟨[], some inbuf⟩
  | .failed strerror =>
    some ⟨[.connection_error .NETWORK_ERROR ("Lost connection with server: " ++ strerror ++ "\n")],
      some inbuf⟩
  | .closed =>
    some ⟨[.connection_error .NETWORK_ERROR "Server closed the connection\n"], some inbuf⟩
  | .data chunk =>
    match bnet_read_input BNET_IDENT_FLAG fuel inbuf chunk with
    | some (.returned calls inbuf') => some ⟨calls.map .parse_packet, some inbuf'⟩
    | some (.overrun calls _) => some ⟨calls.map .parse_packet, none⟩
    | none => none

/-! ## Logon handshake -/

/-- The numeric constants of `bnet.h` the handlers use. -/
structure BnetConsts where
  BNET_SUCCESS : Nat
  BNET_AUTH_CHECK_VERERROR_MASK : Nat
  BNET_AUTH_CHECK_KEYERROR_MASK : Nat
  BNET_AUTH_CHECK_VERCODEERROR_MASK : Nat
  BNET_AUTH_CHECK_ERROR_MASK : Nat
  BNET_AUTH_CHECK_KEYNUMBER_MASK : Nat
  BNET_AUTH_CHECK_VERERROR_INVALID : Nat
  BNET_AUTH_CHECK_VERERROR_OLD : Nat
  BNET_AUTH_CHECK_VERERROR_NEW : Nat
  BNET_AUTH_CHECK_KEYERROR_INVALID : Nat
  BNET_AUTH_CHECK_KEYERROR_INUSE : Nat
  BNET_AUTH_CHECK_KEYERROR_BANNED : Nat
  BNET_AUTH_CHECK_KEYERROR_BADPRODUCT : Nat
  BNET_AUTH_ACCOUNT_DNE : Nat
  BNET_AUTH_ACCOUNT_BADPW : Nat
  BNET_AUTH_ACCOUNT_REQUPGRADE : Nat
  BNET_AUTH_ACCOUNT_CLOSED : Nat
  BNET_AUTH_ACCOUNT_REQEMAIL : Nat
  BNET_AUTH_ACCOUNT_ERROR : Nat
  BNET_LOGONRESP2_DNE : Nat
  BNET_LOGONRESP2_BADPW : Nat
  BNET_LOGONRESP2_CLOSED : Nat
  BNET_CHANNELJOIN_FIRSTJOIN : Nat
  BNET_CHANNELJOIN_D2FIRST : Nat
  BNET_GAME_TYPE_STAR : Nat
  BNET_GAME_TYPE_SEXP : Nat
  BNET_GAME_TYPE_W2BN : Nat
  BNET_GAME_TYPE_D2DV : Nat
  BNET_GAME_TYPE_D2XP : Nat
  BNET_GAME_TYPE_WAR3 : Nat
  BNET_GAME_TYPE_W3XP : Nat
  BNET_GAME_TYPE_JSTR : Nat
  BNET_GAME_TYPE_DRTL : Nat
  BNET_GAME_TYPE_DSHR : Nat
  BNET_GAME_TYPE_SSHR : Nat
  BNET_PRODUCT_D2DV : Nat
  BNET_PRODUCT_D2XP : Nat
  BNET_PRODUCT_STAR : Nat
  BNET_PRODUCT_SEXP : Nat
  BNET_PRODUCT_W2BN : Nat
  BNET_PRODUCT_WAR3 : Nat
  BNET_PRODUCT_W3XP : Nat
  BNET_PRODUCT_DRTL : Nat
  BNET_PRODUCT_DSHR : Nat
  BNET_PRODUCT_SSHR : Nat
  BNET_PRODUCT_JSTR : Nat
  BNET_PRODUCT_CHAT : Nat
  BNET_FRIEND_LOCATION_OFFLINE : Nat
  BNET_FRIEND_STATUS_AWAY : Nat
  BNET_FRIEND_STATUS_DND : Nat

/-- The values the service's public protocol documentation gives the constants; an assignment
at which the theorems below are instantiated. -/
def protocolConsts : BnetConsts where
  BNET_SUCCESS := 0
  BNET_AUTH_CHECK_VERERROR_MASK := 0x100
  BNET_AUTH_CHECK_KEYERROR_MASK := 0x200
  BNET_AUTH_CHECK_VERCODEERROR_MASK := 0x0FF
  BNET_AUTH_CHECK_ERROR_MASK := 0x00F
  BNET_AUTH_CHECK_KEYNUMBER_MASK := 0x0F0
  BNET_AUTH_CHECK_VERERROR_INVALID := 1
  BNET_AUTH_CHECK_VERERROR_OLD := 0
  BNET_AUTH_CHECK_VERERROR_NEW := 2
  BNET_AUTH_CHECK_KEYERROR_INVALID := 0
  BNET_AUTH_CHECK_KEYERROR_INUSE := 1
  BNET_AUTH_CHECK_KEYERROR_BANNED := 2
  BNET_AUTH_CHECK_KEYERROR_BADPRODUCT := 3
  BNET_AUTH_ACCOUNT_DNE := 1
  BNET_AUTH_ACCOUNT_BADPW := 2
  BNET_AUTH_ACCOUNT_REQUPGRADE := 5
  BNET_AUTH_ACCOUNT_CLOSED := 6
  BNET_AUTH_ACCOUNT_REQEMAIL := 14
  BNET_AUTH_ACCOUNT_ERROR := 15
  BNET_LOGONRESP2_DNE := 1
  BNET_LOGONRESP2_BADPW := 2
  BNET_LOGONRESP2_CLOSED := 6
  BNET_CHANNELJOIN_FIRSTJOIN := 1
  BNET_CHANNELJOIN_D2FIRST := 4
  BNET_GAME_TYPE_STAR := 1
  BNET_GAME_TYPE_SEXP := 2
  BNET_GAME_TYPE_W2BN := 3
  BNET_GAME_TYPE_D2DV := 4
  BNET_GAME_TYPE_D2XP := 5
  BNET_GAME_TYPE_WAR3 := 7
  BNET_GAME_TYPE_W3XP := 8
  BNET_GAME_TYPE_JSTR := 6
  BNET_GAME_TYPE_DRTL := 9
  BNET_GAME_TYPE_DSHR := 10
  BNET_GAME_TYPE_SSHR := 11
  BNET_PRODUCT_D2DV := 0x44324456
  BNET_PRODUCT_D2XP := 0x44325850
  BNET_PRODUCT_STAR := 0x53544152
  BNET_PRODUCT_SEXP := 0x53455850
  BNET_PRODUCT_W2BN := 0x5732424E
  BNET_PRODUCT_WAR3 := 0x57415233
  BNET_PRODUCT_W3XP := 0x57335850
  BNET_PRODUCT_DRTL := 0x4452544C
  BNET_PRODUCT_DSHR := 0x44534852
  BNET_PRODUCT_SSHR := 0x53534852
  BNET_PRODUCT_JSTR := 0x4A535452
  BNET_PRODUCT_CHAT := 0x43484154
  BNET_FRIEND_LOCATION_OFFLINE := 0
  BNET_FRIEND_STATUS_AWAY := 4
  BNET_FRIEND_STATUS_DND := 2

/-- The digest of `sha1.c` (`sha1_reset`, `sha1_input`..., `sha1_digest` over the concatenated
input), which is not among the sources: a parameter of the functions that hash. -/
abbrev Sha1 := List Byte → List Byte

/-- A member of the current channel (`BnetChannelUser`). -/
structure BnetChannelUser where
  username : String
  stats_data : String
  flags : Nat
  ping : Nat
  hidden : Bool
deriving DecidableEq

/-- A friends-list record (`BnetFriendInfo`).  `buddy` is the position of the record's
`PurpleBuddy` in the host's buddy list. -/
structure BnetFriendInfo where
  account : String
  status : Nat
  location : Nat
  product : Nat
  location_name : String
  stored_status : Option String
  automated_lookup : Bool
  buddy : Option Nat
deriving DecidableEq

/-- A buddy of the host's buddy list (`PurpleBuddy`): its name, and its protocol data, the
address of a `BnetFriendInfo`. -/
structure PurpleBuddy where
  name : String
  proto_data : Option Nat
deriving DecidableEq

/-- A pending user-data request (`BnetUserDataRequest`). -/
structure BnetUserDataRequest where
  cookie : Nat
  request_type : Nat
  username : String
  userdata_keys : List String
  product : Nat
deriving DecidableEq

/-- The fields of `BnetConnectionData` the modelled functions read or write.  `password` is
`purple_account_get_password(bnet->account)`.  `last_command_conv` is `none` for `NULL` and
otherwise tells whether the conversation has IM data.  `userdata_requests` holds the pending
requests themselves: each is allocated once and appended once, so that the pointers in the C
list are distinct and a request is identified by its position.

The last two fields are not fields of the C structure but the memory the session reaches
through pointers: `friend_heap` holds the allocated `BnetFriendInfo` objects, an object's
address being its position (`none` once freed), so that `friends_list` is a list of addresses;
`blist` is the host's buddy list for the account. -/
structure BnetConnectionData where
  username : String
  password : List Byte
  product_id : Nat
  game : Nat
  nls_revision : Nat
  client_cookie : Nat
  server_cookie : Nat
  udp_cookie : Nat
  create_if_dne : Bool
  version_code : Nat
  crev_complete : Bool
  d2_star : String
  unique_username : String
  is_online : Bool
  first_join : Bool
  ka_tick : Nat
  channel_id : Nat
  channel_name : String
  channel_flags : Nat
  channel_users : List BnetChannelUser
  is_away : Bool
  is_dnd : Bool
  setting_away_status : Bool
  setting_dnd_status : Bool
  away_msg : Option String
  dnd_msg : Option String
  lookup_user : Option String
  lookup_info : Option (List UserInfoEntry)
  last_sent_to : Option String
  awaiting_whisper_confirm : Bool
  last_command_conv : Option Bool
  welcome_msgs : List String
  userdata_requests : List BnetUserDataRequest
  writing_profile : Bool
  friends_list : List Nat
  friend_heap : List (Option BnetFriendInfo)
  blist : List PurpleBuddy
deriving DecidableEq

/-- The four bytes of a `guint32` in memory (little-endian host). -/
def le32 (v : Nat) : List Byte :=
  [Fin.ofNat v, Fin.ofNat (v / 256), Fin.ofNat (v / 65536), Fin.ofNat (v / 16777216)]

/-- The function `bnls_send_CHOOSENLSREVISION` (bnet.c:157-168). -/
def bnls_send_CHOOSENLSREVISION (bnet : BnetConnectionData) : List Effect :=
  [.packet_send .sbnls .BNET_BNLS_CHOOSENLSREVISION [.dword bnet.nls_revision]]

/-- The function `bnls_send_LOGONPROOF` (bnet.c:189-200). -/
def bnls_send_LOGONPROOF (s_and_B : List Byte) : List Effect :=
  [.packet_send .sbnls .BNET_BNLS_LOGONPROOF [.blob s_and_B]]

/-- The function `bnls_send_VERSIONCHECKEX2` (bnet.c:202-222). -/
def bnls_send_VERSIONCHECKEX2 (bnet : BnetConnectionData) (mpq_ft : Nat)
    (mpq_fn checksum_formula : String) : List Effect :=
  [.packet_send .sbnls .BNET_BNLS_VERSIONCHECKEX2
    [.dword bnet.game, .dword 0, .dword 0, .qword mpq_ft, .cstring mpq_fn,
      .cstring checksum_formula]]

/-- The function `bnet_send_ENTERCHAT` (bnet.c:508-521). -/
def bnet_send_ENTERCHAT (bnet : BnetConnectionData) : List Effect :=
  [.packet_send .sbnet .BNET_SID_ENTERCHAT [.cstring bnet.username, .byte 0]]

/-- The function `bnet_send_GETCHANNELLIST` (bnet.c:523-534). -/
def bnet_send_GETCHANNELLIST (bnet : BnetConnectionData) : List Effect :=
  [.packet_send .sbnet .BNET_SID_GETCHANNELLIST [.dword bnet.product_id]]

/-- The function `bnet_send_JOINCHANNEL` (bnet.c:536-550). -/
def bnet_send_JOINCHANNEL (channel_flags : Nat) (channel : String) : List Effect :=
  [.packet_send .sbnet .BNET_SID_JOINCHANNEL [.dword channel_flags, .cstring channel]]

/-- The function `bnet_send_LOGONRESPONSE2` (bnet.c:595-626): the password digest, hashed again
with both cookies. -/
def bnet_send_LOGONRESPONSE2 (xsha1 : Sha1) (bnet : BnetConnectionData) : List Effect :=
  let h1 := xsha1 bnet.password
  let h2 := xsha1 (le32 bnet.client_cookie ++ le32 bnet.server_cookie ++ h1)
  [.packet_send .sbnet .BNET_SID_LOGONRESPONSE2
    [.dword bnet.client_cookie, .dword bnet.server_cookie, .blob h2, .cstring bnet.username]]

/-- The function `bnet_send_CREATEACCOUNT2` (bnet.c:628-652). -/
def bnet_send_CREATEACCOUNT2 (xsha1 : Sha1) (bnet : BnetConnectionData) : List Effect :=
  let h1 := xsha1 bnet.password
  [.packet_send .sbnet .BNET_SID_CREATEACCOUNT2 [.blob h1, .cstring bnet.username]]

/-- The function `bnet_account_logon` (bnet.c:908-915). -/
def bnet_account_logon (xsha1 : Sha1) (bnet : BnetConnectionData) : List Effect :=
  if bnet.nls_revision = 0 then bnet_send_LOGONRESPONSE2 xsha1 bnet
  else bnls_send_CHOOSENLSREVISION bnet

/-- The function `bnet_enter_chat` (bnet.c:917-924). -/
def bnet_enter_chat (K : BnetConsts) (bnet : BnetConnectionData) : List Effect :=
  bnet_send_ENTERCHAT bnet ++ bnet_send_GETCHANNELLIST bnet ++
    bnet_send_JOINCHANNEL (K.BNET_CHANNELJOIN_FIRSTJOIN ||| K.BNET_CHANNELJOIN_D2FIRST) "Pidgin"

/-- The function `bnet_recv_AUTH_INFO` (bnet.c:1995-2015); the arguments after `bnet` are the
fields the handler reads from the packet, in order. -/
def bnet_recv_AUTH_INFO (bnet : BnetConnectionData) (login_type server_cookie udp_cookie : Nat)
    (mpq_ft : Nat) (mpq_fn checksum_formula : String) : BnetConnectionData × List Effect :=
  let bnet := { bnet with
    nls_revision := login_type, server_cookie := server_cookie, udp_cookie := udp_cookie }
  (bnet, bnls_send_VERSIONCHECKEX2 bnet mpq_ft mpq_fn checksum_formula)

/-- The classification `tmp` that `bnet_recv_AUTH_CHECK` computes for a result other than
`BNET_SUCCESS` (bnet.c:2041-2081); each `switch` is the chain of its cases in source order. -/
def auth_check_reason (K : BnetConsts) (result : Nat) : String :=
  if result &&& K.BNET_AUTH_CHECK_VERERROR_MASK ≠ 0 then
    let code := result &&& K.BNET_AUTH_CHECK_ERROR_MASK
    if code = K.BNET_AUTH_CHECK_VERERROR_INVALID then "Version invalid"
    else if code = K.BNET_AUTH_CHECK_VERERROR_OLD then "Old version"
    else if code = K.BNET_AUTH_CHECK_VERERROR_NEW then "New version"
    else "Version invalid"
  else if result &&& K.BNET_AUTH_CHECK_KEYERROR_MASK ≠ 0 then
    let keynum := (result &&& K.BNET_AUTH_CHECK_KEYNUMBER_MASK) >>> 4
    let code := result &&& K.BNET_AUTH_CHECK_ERROR_MASK
    let tmp :=
      if code = K.BNET_AUTH_CHECK_KEYERROR_INVALID then "CD-key invalid"
      else if code = K.BNET_AUTH_CHECK_KEYERROR_INUSE then "CD-key is in use"
      else if code = K.BNET_AUTH_CHECK_KEYERROR_BANNED then "CD-key is banned"
      else if code = K.BNET_AUTH_CHECK_KEYERROR_BADPRODUCT then "CD-key is for another game"
      else "CD-key invalid"
    (if keynum = 1 then "Expansion " else "") ++ tmp
  else if result &&& K.BNET_AUTH_CHECK_VERCODEERROR_MASK ≠ 0 then "Version code invalid"
  else "Authorization failed"

/-- The function `bnet_recv_AUTH_CHECK` (bnet.c:2017-2094) for the packet fields `result` and
`extra_info`. -/
def bnet_recv_AUTH_CHECK (K : BnetConsts) (xsha1 : Sha1) (bnet : BnetConnectionData)
    (result : Nat) (extra_info : String) : List Effect :=
  if result = K.BNET_SUCCESS then
    .update_progress "Authenticating" .BNET_STEP_LOGON :: bnet_account_logon xsha1 bnet
  else
    let tmp := auth_check_reason K result
    let tmpe := " (" ++ extra_info ++ ")."
    let tmpf := tmp ++ (if extra_info.length > 0 then tmpe else ".")
    [.connection_error .AUTHENTICATION_FAILED tmpf]

/-- The function `bnet_recv_AUTH_ACCOUNTLOGON` (bnet.c:2096-2137); `s_and_B` is the 64-byte field
read when the result is `BNET_SUCCESS`. -/
def bnet_recv_AUTH_ACCOUNTLOGON (K : BnetConsts) (result : Nat) (s_and_B : List Byte) :
    List Effect :=
  if result = K.BNET_SUCCESS then bnls_send_LOGONPROOF s_and_B
  else if result = K.BNET_AUTH_ACCOUNT_DNE then
    [.connection_error .AUTHENTICATION_FAILED "Account does not exist"]
  else if result = K.BNET_AUTH_ACCOUNT_REQUPGRADE then
    [.connection_error .AUTHENTICATION_FAILED "Account requires upgrade"]
  else [.connection_error .AUTHENTICATION_FAILED "Account logon failure"]

/-- The two identical `case` bodies of the logon handlers that log in (bnet.c:2147-2152,
2171-2176, 2194-2199). -/
def logged_in (K : BnetConsts) (bnet : BnetConnectionData) : List Effect :=
  (if bnet.create_if_dne then [.update_progress "Entering chat" .BNET_STEP_FINAL] else []) ++
    bnet_enter_chat K bnet

/-- The function `bnet_recv_AUTH_ACCOUNTLOGONPROOF` (bnet.c:2139-2184).  The `switch` has no
`default`. -/
def bnet_recv_AUTH_ACCOUNTLOGONPROOF (K : BnetConsts) (bnet : BnetConnectionData)
    (result : Nat) : List Effect :=
  if result = K.BNET_SUCCESS then logged_in K bnet
  else if result = K.BNET_AUTH_ACCOUNT_BADPW then
    [.connection_error .AUTHENTICATION_FAILED "Password incorrect"]
  else if result = K.BNET_AUTH_ACCOUNT_CLOSED then
    [.connection_error .AUTHENTICATION_FAILED "Account closed"]
  else if result = K.BNET_AUTH_ACCOUNT_REQEMAIL then logged_in K bnet
  else if result = K.BNET_AUTH_ACCOUNT_ERROR then
    [.connection_error .AUTHENTICATION_FAILED "Account logon failure"]
  else []

/-- The function `bnet_recv_LOGONRESPONSE2` (bnet.c:2186-2237). -/
def bnet_recv_LOGONRESPONSE2 (K : BnetConsts) (xsha1 : Sha1) (bnet : BnetConnectionData)
    (result : Nat) : List Effect :=
  if result = K.BNET_SUCCESS then logged_in K bnet
  else if result = K.BNET_LOGONRESP2_DNE then
    if bnet.create_if_dne then bnet_send_CREATEACCOUNT2 xsha1 bnet
    else [.connection_error .AUTHENTICATION_FAILED "Account does not exist"]
  else if result = K.BNET_LOGONRESP2_BADPW then
    [.connection_error .AUTHENTICATION_FAILED "Password incorrect"]
  else if result = K.BNET_LOGONRESP2_CLOSED then
    [.connection_error .AUTHENTICATION_FAILED "Account closed"]
  else [.connection_error .AUTHENTICATION_FAILED "Account logon failure"]

/-- A session record as `bnet_connect` leaves it, at which the theorems below are instantiated
(with the identity as the stand-in digest). -/
def sampleSession : BnetConnectionData where
  username := "Ribose"
  password := [112, 119]
  product_id := 0x53544152
  game := 1
  nls_revision := 0
  client_cookie := 7
  server_cookie := 9
  udp_cookie := 0
  create_if_dne := false
  version_code := 0
  crev_complete := false
  d2_star := ""
  unique_username := "Ribose"
  is_online := false
  first_join := false
  ka_tick := 0
  channel_id := 0
  channel_name := ""
  channel_flags := 0
  channel_users := []
  is_away := false
  is_dnd := false
  setting_away_status := false
  setting_dnd_status := false
  away_msg := none
  dnd_msg := none
  lookup_user := none
  lookup_info := none
  last_sent_to := none
  awaiting_whisper_confirm := false
  last_command_conv := none
  welcome_msgs := []
  userdata_requests := []
  writing_profile := false
  friends_list := []
  friend_heap := []
  blist := []

/-! ## The relay's version check -/

/-- A decoded CD-key as it is put on the wire (`BnetKey`, keydecode.h:82-88). -/
structure BnetKey where
  length : Nat
  product_value : Nat
  public_value : Nat
  private_value : Nat
  key_hash : List Byte
deriving DecidableEq

/-- The account settings `bnet_send_AUTH_CHECK` reads with `purple_account_get_string`. -/
structure AccountSettings where
  key_owner : String
  key1 : String
  key2 : String
deriving DecidableEq

/-- The function `bnet_key_decode` (declared in keydecode.h:113-115, defined outside the sources):
from the key count, the two cookies and the two key strings, whether the keys decode, and the
two entries of `keys`. -/
abbrev KeyDecode := Nat → Nat → Nat → String → String → Bool × BnetKey × BnetKey

/-- The bytes of a `BnetKey` in memory (little-endian host): what
`bnet_packet_insert(pkt, &keys[i], sizeof(BnetKey))` copies. -/
def BnetKey.bytes (k : BnetKey) : List Byte :=
  le32 k.length ++ le32 k.product_value ++ le32 k.public_value ++ le32 k.private_value ++
    k.key_hash

/-- The `switch (bnet->game)` of `bnet_send_AUTH_CHECK` (bnet.c:809-824): how many CD-keys the
product needs. -/
def auth_check_key_count (K : BnetConsts) (game : Nat) : Nat :=
  if game = K.BNET_GAME_TYPE_STAR ∨ game = K.BNET_GAME_TYPE_SEXP ∨
      game = K.BNET_GAME_TYPE_W2BN ∨ game = K.BNET_GAME_TYPE_D2DV ∨
      game = K.BNET_GAME_TYPE_WAR3 then 1
  else if game = K.BNET_GAME_TYPE_D2XP ∨ game = K.BNET_GAME_TYPE_W3XP then 2
  else 0

/-- The function `bnet_send_AUTH_CHECK` (bnet.c:784-865).  `random` is the value of
`g_random_int()`. -/
def bnet_send_AUTH_CHECK (K : BnetConsts) (key_decode : KeyDecode) (settings : AccountSettings)
    (random : Nat) (bnet : BnetConnectionData) (exe_version exe_checksum : Nat)
    (exe_info : String) : BnetConnectionData × List Effect :=
  let key_owner := if settings.key_owner.length = 0 then bnet.username else settings.key_owner
  let bnet := { bnet with client_cookie := random }
  let key_count := auth_check_key_count K bnet.game
  let key_spawn := 0
  let decoded := key_decode key_count bnet.client_cookie bnet.server_cookie settings.key1
    settings.key2
  let keys := [decoded.2.1, decoded.2.2]
  (bnet,
    if !decoded.1 then
      let exp := if decoded.2.1.length > 0 then "expansion " else ""
      [.connection_error .INVALID_SETTINGS
        ("The provided " ++ exp ++ "CD-key could not be decoded.")]
    else
      [.packet_send .sbnet .BNET_SID_AUTH_CHECK
        ([.dword bnet.client_cookie, .dword exe_version, .dword exe_checksum, .dword key_count,
            .dword key_spawn] ++
          (keys.take key_count).map (fun k => Field.blob k.bytes) ++
          [.cstring exe_info, .cstring key_owner])])

/-- The function `bnls_recv_VERSIONCHECKEX2` (bnet.c:392-413); the arguments after `bnet` are the
packet fields in order, those after `success` being read only when `success == TRUE`. -/
def bnls_recv_VERSIONCHECKEX2 (K : BnetConsts) (key_decode : KeyDecode)
    (settings : AccountSettings) (random : Nat) (bnet : BnetConnectionData)
    (success exe_version exe_checksum : Nat) (exe_info : String) (cookie version_code : Nat) :
    BnetConnectionData × List Effect :=
  let _ := cookie
  let bnet := { bnet with crev_complete := true }
  if success = 1 then
    let bnet := { bnet with version_code := version_code }
    bnet_send_AUTH_CHECK K key_decode settings random bnet exe_version exe_checksum exe_info
  else (bnet, [])

/-- The function `bnls_input_cb` (bnet.c:257-302) for a live connection (`gc != NULL`): the calls
made, and the relay read buffer afterwards. -/
def bnls_input_cb (fuel : Nat) (bnet : BnetConnectionData) (inbuf : List Byte) :
    ReadResult → Option InputOutcome
  | .eagain => some ⟨[], some inbuf⟩
  | .failed strerror =>
    some ⟨.input_remove .sbnls ::
      (if bnet.crev_complete = false then
        [.connection_error .NETWORK_ERROR
          ("Lost connection with BNLS server: " ++ strerror ++ "\n")]
      else [.close .sbnls]), some inbuf⟩
  | .closed =>
    some ⟨.input_remove .sbnls ::
      (if bnet.crev_complete = false then
        [.connection_error .NETWORK_ERROR "BNLS server closed the connection\n"]
      else [.close .sbnls]), some inbuf⟩
  | .data chunk =>
    match bnls_read_input fuel inbuf chunk with
    | some (.returned calls inbuf') => some ⟨calls.map .parse_packet, some inbuf'⟩
    | some (.overrun calls _) => some ⟨calls.map .parse_packet, none⟩
    | none => none

/-- Account settings and a key decoder at which the theorems below are instantiated: no keys
configured, and a decoder that accepts exactly an empty key list. -/
def sampleSettings : AccountSettings where
  key_owner := ""
  key1 := ""
  key2 := ""

/-- A stand-in for `bnet_key_decode`: zero keys decode, anything else does not. -/
def sampleKeyDecode : KeyDecode :=
  fun key_count _ _ _ _ => (key_count = 0, ⟨0, 0, 0, 0, []⟩, ⟨0, 0, 0, 0, []⟩)

/-- A stand-in for `bnet_key_decode` that accepts every key: each entry holds the length of
its key text and fixed values. -/
def acceptingKeyDecode : KeyDecode :=
  fun _ _ _ key1 key2 => (true, ⟨key1.length, 1, 2, 3, [4]⟩, ⟨key2.length, 5, 6, 7, [8]⟩)

/-- Account settings with one configured key and a key owner. -/
def sampleKeySettings : AccountSettings where
  key_owner := "Owner"
  key1 := "2222222222222"
  key2 := ""

/-! ## Names, hashing and patterns -/

/-- The function `bnet_normalize` (bnet.c:4028-4037): `g_ascii_strdown`, for a name that fits the
64-byte static buffer. -/
def bnet_normalize (s : String) : String :=
  ⟨s.data.map Char.toLower⟩

/-- The function `bnet_is_d2` (bnet.c:4108-4112). -/
def bnet_is_d2 (K : BnetConsts) (bnet : BnetConnectionData) : Bool :=
  bnet.product_id = K.BNET_PRODUCT_D2DV || bnet.product_id = K.BNET_PRODUCT_D2XP

/-- The function `bnet_d2_normalize` (bnet.c:4039-4074) for the account of the session `bnet`: on
a Diablo II product, what follows the first `*` among the first 30 characters, without its
last character when the `*` is preceded by `(` and is not among the first two characters. -/
def bnet_d2_normalize (K : BnetConsts) (bnet : BnetConnectionData) (s : String) : String :=
  if bnet_is_d2 K bnet then
    let d2_star := (s.data.take 30).findIdx (fun c => c = '*')
    if d2_star < (s.data.take 30).length then
      let d2norm := s.data.drop (d2_star + 1)
      if d2_star > 1 ∧ s.data.getD (d2_star - 1) ' ' = '(' then ⟨d2norm.dropLast⟩
      else ⟨d2norm⟩
    else s
  else s

/-- The hash GLib documents for `g_str_hash`: start at 5381, then `hash * 33 + c` for every
character, in 32 bits.  The handlers take the hash as a parameter; this is the instance the
counterexamples use. -/
def g_str_hash (s : String) : Nat :=
  s.data.foldl (fun h c => (h * 33 + c.toNat) % 4294967296) 5381

/-- The fragment of regular expressions the patterns of `bnet_recv_CHATEVENT` are written in. -/
inductive Regex where
  | lit (s : String)
  | nonspace_plus
  | any_plus
  | seq (a b : Regex)
  | alt (a b : Regex)
  | group (r : Regex)

/-- Number of capturing groups. -/
def Regex.groups : Regex → Nat
  | .lit _ => 0
  | .nonspace_plus => 0
  | .any_plus => 0
  | .seq a b => a.groups + b.groups
  | .alt a b => a.groups + b.groups
  | .group r => r.groups + 1

/-- The ways a greedy `+` over the `n` leading characters it may consume can match: longest
first, at least one character. -/
def greedy_splits : Nat → List Char → List (List Char × List (Option String))
  | 0, _ => []
  | n + 1, inp => (inp.drop (n + 1), []) :: greedy_splits n inp

/-- What `\S` matches: any character but space, tab, line feed, vertical tab, form feed and
carriage return. -/
def is_nonspace (c : Char) : Bool :=
  !(c.toNat = 32 || c.toNat = 9 || c.toNat = 10 || c.toNat = 11 || c.toNat = 12 || c.toNat = 13)

/-- What `.` matches: any character but the line feed. -/
def is_not_newline (c : Char) : Bool :=
  !(c.toNat = 10)

/-- All the ways `r` matches at the start of `inp`, in the order a backtracking matcher tries
them: for each, the input left over and the text of every capturing group (`none` for a group
that took no part). -/
def Regex.run : Regex → List Char → List (List Char × List (Option String))
  | .lit s, inp => if s.data.isPrefixOf inp then [(inp.drop s.data.length, [])] else []
  | .nonspace_plus, inp => greedy_splits (inp.takeWhile is_nonspace).length inp
  | .any_plus, inp => greedy_splits (inp.takeWhile is_not_newline).length inp
  | .seq a b, inp =>
    (a.run inp).flatMap (fun m1 => (b.run m1.1).map (fun m2 => (m2.1, m1.2 ++ m2.2)))
  | .alt a b, inp =>
    (a.run inp).map (fun m => (m.1, m.2 ++ List.replicate b.groups none)) ++
      (b.run inp).map (fun m => (m.1, List.replicate a.groups none ++ m.2))
  | .group r, inp =>
    (r.run inp).map (fun m => (m.1, some ⟨inp.take (inp.length - m.1.length)⟩ :: m.2))

/-- The unanchored search of `g_regex_match`: the captures of the first match at the leftmost
position that has one. -/
def Regex.search (r : Regex) : List Char → Option (List (Option String))
  | [] => (r.run []).head?.map (fun m => m.2)
  | c :: rest =>
    match r.run (c :: rest) with
    | m :: _ => some m.2
    | [] => r.search rest

/-- The call `g_match_info_fetch(mi, n)`: the text of group `n`, empty for a group that took no
part in the match. -/
def match_info_fetch (captures : List (Option String)) (n : Nat) : String :=
  (captures.getD (n - 1) none).getD ""

/-- A sequence of patterns. -/
def Regex.seqs : List Regex → Regex
  | [] => .lit ""
  | [r] => r
  | r :: rs => .seq r (Regex.seqs rs)

/-- The pattern `(?:You are |)(\S+)(?:,| is) using (.+) in (.+)\.` (bnet.c:1336). -/
def regex_whois : Regex :=
  .seqs [.alt (.lit "You are ") (.lit ""), .group .nonspace_plus, .alt (.lit ",") (.lit " is"),
    .lit " using ", .group .any_plus, .lit " in ", .group .any_plus, .lit "."]

/-- The pattern `(?:You are|(\S+) is) away \((.+)\)` (bnet.c:1390). -/
def regex_whois_away : Regex :=
  .seqs [.alt (.lit "You are") (.seq (.group .nonspace_plus) (.lit " is")), .lit " away (",
    .group .any_plus, .lit ")"]

/-- The pattern `(?:You are|(\S+) is) refusing messages \((.+)\)` (bnet.c:1468). -/
def regex_whois_dnd : Regex :=
  .seqs [.alt (.lit "You are") (.seq (.group .nonspace_plus) (.lit " is")),
    .lit " refusing messages (", .group .any_plus, .lit ")"]

/-- The pattern `You are (still|now|no longer) marked as (?:being |)away\.` (bnet.c:1529). -/
def regex_away_state : Regex :=
  .seqs [.lit "You are ", .group (.alt (.lit "still") (.alt (.lit "now") (.lit "no longer"))),
    .lit " marked as ", .alt (.lit "being ") (.lit ""), .lit "away."]

/-- The pattern `Do Not Disturb mode (engaged|cancelled)\.` (bnet.c:1568). -/
def regex_dnd_state : Regex :=
  .seqs [.lit "Do Not Disturb mode ", .group (.alt (.lit "engaged") (.lit "cancelled")),
    .lit "."]

/-- The pattern `(\S+) is unavailable \((.+)\)` (bnet.c:1591). -/
def regex_unavailable : Regex :=
  .seqs [.group .nonspace_plus, .lit " is unavailable (", .group .any_plus, .lit ")"]

/-- The pattern of bnet.c:1194 for the actor `who_n`, whose name `g_regex_escape_string` makes
literal: `Your friend NAME (?:has entered Battle\.net|has exited Battle\.net|entered a (?:.+)
game called (?:.+))\.` -/
def regex_mutual_friend (who_n : String) : Regex :=
  .seqs [.lit "Your friend ", .lit who_n, .lit " ",
    .alt (.lit "has entered Battle.net") (.alt (.lit "has exited Battle.net")
      (.seqs [.lit "entered a ", .any_plus, .lit " game called ", .any_plus])),
    .lit "."]


/-! ## Chat events -/

/-- The event identifiers of `BnetChatEventID`; `other` is any value `bnet_recv_CHATEVENT` has no
`case` for. -/
inductive BnetChatEventID where
  | BNET_EID_SHOWUSER
  | BNET_EID_JOIN
  | BNET_EID_LEAVE
  | BNET_EID_WHISPER
  | BNET_EID_TALK
  | BNET_EID_BROADCAST
  | BNET_EID_CHANNEL
  | BNET_EID_USERFLAGS
  | BNET_EID_WHISPERSENT
  | BNET_EID_CHANNELFULL
  | BNET_EID_CHANNELDOESNOTEXIST
  | BNET_EID_CHANNELRESTRICTED
  | BNET_EID_INFO
  | BNET_EID_ERROR
  | BNET_EID_EMOTE
  | other
deriving DecidableEq

/-- The packet fields `bnet_recv_CHATEVENT` uses (bnet.c:1092-1099). -/
structure ChatEvent where
  id : BnetChatEventID
  flags : Nat
  ping : Nat
  who : String
  what : String
deriving DecidableEq

/-- The host's active status as `bnet_set_status` reads it: `name` tells which status identifier
`purple_status_get_name` compares equal to, if any. -/
structure PurpleStatus where
  is_online : Bool
  is_available : Bool
  name : Option BnetStatus
  message : Option String

/-- What the host answers while one chat event is handled.
* `conv_chat`: `purple_find_chat(gc, bnet->channel_id)` finds a conversation that has chat data;
* `status`: the active status of the account;
* `hidemutual`: the account setting of that name;
* `im_conv who`: `purple_find_conversation_with_account` finds an IM conversation with `who`
  that has IM data;
* `present_error who`: the result of `purple_conv_present_error` for `who`. -/
structure HostView where
  conv_chat : Bool
  status : PurpleStatus
  hidemutual : Bool
  im_conv : String → Bool
  present_error : String → Bool

/-- The function `bnet_send_FRIENDSLIST` (bnet.c:896-906). -/
def bnet_send_FRIENDSLIST : List Effect :=
  [.packet_send .sbnet .BNET_SID_FRIENDSLIST []]

/-- The function `bnet_send_CHATCOMMAND` (bnet.c:570-581). -/
def bnet_send_CHATCOMMAND (command : String) : List Effect :=
  [.packet_send .sbnet .BNET_SID_CHATCOMMAND [.cstring command]]

/-- The function `bnet_whois_user` (bnet.c:2906-2912). -/
def bnet_whois_user (bnet : BnetConnectionData) (who : String) : List Effect :=
  bnet_send_CHATCOMMAND ("/whois " ++ bnet.d2_star ++ who)

/-- The message `bnet_set_away` and `bnet_set_dnd` send (bnet.c:3982-3986, 4006-4010). -/
def status_message (message : Option String) : String :=
  match message with
  | none => "Not available"
  | some m => if m.length = 0 then "Not available" else m

/-- The function `bnet_set_away` (bnet.c:3980-4002). -/
def bnet_set_away (bnet : BnetConnectionData) (new_state : Bool) (message : Option String) :
    BnetConnectionData × List Effect :=
  let msg := status_message message
  let bnet := { bnet with setting_away_status := true }
  if new_state then
    ({ bnet with away_msg := some msg }, bnet_send_CHATCOMMAND ("/away " ++ msg))
  else ({ bnet with away_msg := none }, bnet_send_CHATCOMMAND "/away")

/-- The function `bnet_set_dnd` (bnet.c:4004-4026). -/
def bnet_set_dnd (bnet : BnetConnectionData) (new_state : Bool) (message : Option String) :
    BnetConnectionData × List Effect :=
  let msg := status_message message
  let bnet := { bnet with setting_dnd_status := true }
  if new_state then
    ({ bnet with dnd_msg := some msg }, bnet_send_CHATCOMMAND ("/dnd " ++ msg))
  else ({ bnet with dnd_msg := none }, bnet_send_CHATCOMMAND "/dnd")

/-- The function `bnet_set_status` (bnet.c:3948-3978). -/
def bnet_set_status (bnet : BnetConnectionData) (status : PurpleStatus) :
    BnetConnectionData × List Effect :=
  if status.is_online then
    if status.is_available then
      let r1 := if bnet.is_away then bnet_set_away bnet false none else (bnet, [])
      let r2 := if r1.1.is_dnd then bnet_set_dnd r1.1 false none else (r1.1, [])
      (r2.1, r1.2 ++ r2.2)
    else if status.name = some .BNET_STATUS_AWAY then
      let r1 := if bnet.is_dnd then bnet_set_dnd bnet false none else (bnet, [])
      let r2 := bnet_set_away r1.1 true status.message
      (r2.1, r1.2 ++ r2.2)
    else if status.name = some .BNET_STATUS_DND then
      let r1 := if bnet.is_away then bnet_set_away bnet false none else (bnet, [])
      let r2 := bnet_set_dnd r1.1 true status.message
      (r2.1, r1.2 ++ r2.2)
    else (bnet, [])
  else (bnet, [])

/-- The function `bnet_channel_user_compare` (bnet.c:2470-2490) for a member with a name and a
name to look for: 0 when the two names are equal after `bnet_normalize`; any other `strcmp`
result is given as 1. -/
def bnet_channel_user_compare (bcu : BnetChannelUser) (usr : String) : Int :=
  if bnet_normalize bcu.username = bnet_normalize usr then 0 else 1

/-- The call `g_list_find_custom(bnet->channel_users, who_n, bnet_channel_user_compare)`: the
position of the first member the comparison gives 0 for, `none` for `NULL`. -/
def find_channel_user : List BnetChannelUser → String → Option Nat
  | [], _ => none
  | bcu :: rest, who_n =>
    if bnet_channel_user_compare bcu who_n = 0 then some 0
    else (find_channel_user rest who_n).map (fun i => i + 1)

/-- The update of a member found in the list (bnet.c:1116-1120 and 1283-1287). -/
def update_channel_user (bcu : BnetChannelUser) (flags ping : Nat) (what : String) :
    BnetChannelUser :=
  { bcu with flags := flags, ping := ping,
             stats_data := if what.length > 0 then what else bcu.stats_data }

/-- The member a show-user or join event creates (bnet.c:1128-1134 and 1152-1157). -/
def new_channel_user (who_n what : String) (flags ping : Nat) : BnetChannelUser :=
  { username := who_n, stats_data := what, flags := flags, ping := ping, hidden := false }

/-- The statements before the `switch` that run on the first event of a session
(bnet.c:1070-1085). -/
def chatevent_online (host : HostView) (bnet : BnetConnectionData) :
    BnetConnectionData × List Effect :=
  if !bnet.is_online then
    let bnet := { bnet with is_online := true, first_join := true }
    let r := bnet_set_status bnet host.status
    (r.1, [.connection_set_state_connected, .timeout_add_seconds 30] ++ bnet_send_FRIENDSLIST ++
      r.2)
  else (bnet, [])

/-- Whether `chat` is not `NULL` (bnet.c:1087-1090). -/
def chatevent_chat (host : HostView) (bnet : BnetConnectionData) : Bool :=
  !bnet.first_join && bnet.channel_id != 0 && host.conv_chat

/-- The case `BNET_EID_SHOWUSER` (bnet.c:1104-1144). -/
def chatevent_SHOWUSER (bnet : BnetConnectionData) (chat : Bool) (who_n : String)
    (flags ping : Nat) (what : String) : BnetConnectionData × List Effect :=
  match find_channel_user bnet.channel_users who_n with
  | some li =>
    match bnet.channel_users.get? li with
    | some bcu =>
      ({ bnet with channel_users :=
          bnet.channel_users.set li (update_channel_user bcu flags ping what) },
        if chat then [.conv_chat_user_set_flags who_n flags] else [])
    | none => (bnet, [])
  | none =>
    let bcu := new_channel_user who_n what flags ping
    ({ bnet with channel_users := bnet.channel_users ++ [bcu] },
      if chat then [.conv_chat_add_user who_n bcu.stats_data flags ping false] else [])

/-- The case `BNET_EID_JOIN` (bnet.c:1145-1166). -/
def chatevent_JOIN (bnet : BnetConnectionData) (chat : Bool) (who_n : String)
    (flags ping : Nat) (what : String) : BnetConnectionData × List Effect :=
  let bcu := new_channel_user who_n what flags ping
  ({ bnet with channel_users := bnet.channel_users ++ [bcu] },
    if chat then [.conv_chat_add_user who_n bcu.stats_data flags ping true] else [])

/-- The case `BNET_EID_LEAVE` (bnet.c:1167-1179). -/
def chatevent_LEAVE (bnet : BnetConnectionData) (chat : Bool) (who_n : String) :
    BnetConnectionData × List Effect :=
  if chat then
    let bnet :=
      match find_channel_user bnet.channel_users who_n with
      | some li => { bnet with channel_users := bnet.channel_users.eraseIdx li }
      | none => bnet
    (bnet, [.conv_chat_remove_user who_n])
  else (bnet, [])

/-- The case `BNET_EID_CHANNEL` (bnet.c:1234-1274); `str_hash` is `g_str_hash`. -/
def chatevent_CHANNEL (str_hash : String → Nat) (bnet : BnetConnectionData) (chat : Bool)
    (flags : Nat) (what : String) : BnetConnectionData × List Effect :=
  let this_firstjoin := bnet.first_join
  let left : List Effect :=
    if bnet.first_join then []
    else if bnet.channel_id ≠ 0 then
      (if chat then
        [.conv_chat_write
          "You have left this chat. Battle.net only allows being in one channel at any time."
          .PURPLE_MESSAGE_SYSTEM]
      else []) ++ [.serv_got_chat_left bnet.channel_id]
    else []
  let bnet := if bnet.first_join then { bnet with first_join := false } else bnet
  let bnet := { bnet with channel_users := [] }
  let norm := bnet_normalize what
  let chat_id := str_hash norm
  let this_firstjoin :=
    if norm.length ≥ 6 ∧ norm.data.take 5 = ['c', 'l', 'a', 'n', ' '] then false
    else this_firstjoin
  let bnet := { bnet with channel_id := chat_id, channel_name := what, channel_flags := flags }
  (bnet, left ++ if !this_firstjoin then [.serv_got_joined_chat chat_id what] else [])

/-- The case `BNET_EID_USERFLAGS` (bnet.c:1275-1293). -/
def chatevent_USERFLAGS (bnet : BnetConnectionData) (chat : Bool) (who_n : String)
    (flags ping : Nat) (what : String) : BnetConnectionData × List Effect :=
  if chat then
    let bnet :=
      match find_channel_user bnet.channel_users who_n with
      | some li =>
        match bnet.channel_users.get? li with
        | some bcu =>
          { bnet with channel_users :=
              bnet.channel_users.set li (update_channel_user bcu flags ping what) }
        | none => bnet
      | none => bnet
    (bnet, [.conv_chat_user_set_flags who_n flags])
  else (bnet, [])


/-- The call `purple_find_buddy(bnet->account, name)`: the position in the host's buddy list of
the first buddy whose name equals `name` after the account's normalization. -/
def purple_find_buddy : List PurpleBuddy → String → Option Nat
  | [], _ => none
  | b :: rest, name =>
    if bnet_normalize b.name = bnet_normalize name then some 0
    else (purple_find_buddy rest name).map (fun i => i + 1)

/-- The `BnetFriendInfo` that `purple_buddy_get_protocol_data` gives for the buddy at position
`b`, with its address; `none` for `NULL`. -/
def buddy_friend_info (bnet : BnetConnectionData) (b : Nat) : Option (Nat × BnetFriendInfo) :=
  match bnet.blist.get? b with
  | some buddy =>
    match buddy.proto_data with
    | some a =>
      match bnet.friend_heap.get? a with
      | some (some bfi) => some (a, bfi)
      | _ => none
    | none => none
  | none => none

/-- The lookup result under construction after `purple_notify_user_info_new` or, when there is
one already, `purple_notify_user_info_add_section_break` (bnet.c:1363-1367). -/
def lookup_info_section (info : Option (List UserInfoEntry)) : List UserInfoEntry :=
  match info with
  | none => []
  | some entries => entries ++ [.section_break]

/-- The state of one pass over an informational or error text: the session, the local `handled`,
and the host calls made so far. -/
structure InfoPass where
  bnet : BnetConnectionData
  handled : Bool
  effects : List Effect

/-- The classifier "WHOIS RESPONSE" (bnet.c:1335-1379). -/
def info_whois (K : BnetConsts) (what : String) (p : InfoPass) : InfoPass :=
  match regex_whois.search what.data with
  | none => p
  | some mi =>
    let whois_user := match_info_fetch mi 1
    let whois_product := match_info_fetch mi 2
    let whois_location := match_info_fetch mi 3
    let whois_user_n := bnet_d2_normalize K p.bnet whois_user
    let handled :=
      match purple_find_buddy p.bnet.blist whois_user_n with
      | some b =>
        match buddy_friend_info p.bnet b with
        | some (_, bfi) => if bfi.automated_lookup then true else p.handled
        | none => p.handled
      | none => p.handled
    if !handled && p.bnet.lookup_user.isSome then
      let info := lookup_info_section p.bnet.lookup_info ++
        [.pair "Current location" whois_location, .pair "Current product" whois_product]
      { bnet := { p.bnet with lookup_info := some info }, handled := true,
        effects := p.effects ++ [.notify_userinfo whois_user_n info] }
    else { p with handled := handled }

/-- The part of the two WHOIS status classifiers that updates a buddy (bnet.c:1408-1421 and
1486-1499). -/
def info_buddy_status (p : InfoPass) (user_n : String) (status : BnetStatus) (msg : String) :
    InfoPass :=
  match purple_find_buddy p.bnet.blist user_n with
  | some b =>
    let p :=
      match buddy_friend_info p.bnet b with
      | some (a, bfi) =>
        let bfi' := { bfi with stored_status := some msg, automated_lookup := false }
        { p with
          bnet := { p.bnet with friend_heap := p.bnet.friend_heap.set a (some bfi') },
          handled := p.handled || bfi.automated_lookup }
      | none => p
    { p with effects := p.effects ++ [.prpl_got_user_status user_n status (some msg)] }
  | none => p

/-- The part of the two WHOIS status classifiers that answers a pending lookup (bnet.c:1423-1436
and 1501-1514). -/
def info_lookup_answer (K : BnetConsts) (p : InfoPass) (user_n label msg : String) : InfoPass :=
  if !p.handled && p.bnet.lookup_user.isSome then
    let info := lookup_info_section p.bnet.lookup_info ++ [.pair label msg]
    { bnet := { p.bnet with lookup_info := some info }, handled := true,
      effects := p.effects ++ [.notify_userinfo (bnet_d2_normalize K p.bnet user_n) info] }
  else p

/-- The part of the away classifier that shows the reason as an automatic response in the IM
conversation with the last whisper's recipient (bnet.c:1438-1455). -/
def info_auto_response (host : HostView) (p : InfoPass) (away_user_n away_msg : String) :
    InfoPass :=
  if !p.handled then
    match p.bnet.last_sent_to with
    | some last_sent_to =>
      let p :=
        if host.im_conv last_sent_to then
          { p with handled := true, effects := p.effects ++
              [.serv_got_im away_user_n ("Away (" ++ away_msg ++ ")")
                .PURPLE_MESSAGE_AUTO_RESP] }
        else p
      { p with bnet := { p.bnet with awaiting_whisper_confirm := false } }
    | none => p
  else p

/-- The classifier "WHOIS AWAY RESPONSE / WHISPER AWAY RESPONSE" (bnet.c:1389-1459). -/
def info_whois_away (K : BnetConsts) (host : HostView) (what : String) (p : InfoPass) :
    InfoPass :=
  match regex_whois_away.search what.data with
  | none => p
  | some mi =>
    let away_user := match_info_fetch mi 1
    let away_msg := match_info_fetch mi 2
    let away_user := if away_user.length = 0 then p.bnet.unique_username else away_user
    let away_user_n := bnet_d2_normalize K p.bnet away_user
    let p := info_buddy_status p away_user_n .BNET_STATUS_AWAY away_msg
    let p := info_lookup_answer K p away_user_n "Away" away_msg
    info_auto_response host p away_user_n away_msg

/-- The classifier "WHOIS DND RESPONSE" (bnet.c:1467-1518). -/
def info_whois_dnd (K : BnetConsts) (what : String) (p : InfoPass) : InfoPass :=
  match regex_whois_dnd.search what.data with
  | none => p
  | some mi =>
    let dnd_user := match_info_fetch mi 1
    let dnd_msg := match_info_fetch mi 2
    let dnd_user := if dnd_user.length = 0 then p.bnet.unique_username else dnd_user
    let dnd_user_n := bnet_d2_normalize K p.bnet dnd_user
    let p := info_buddy_status p dnd_user_n .BNET_STATUS_DND dnd_msg
    info_lookup_answer K p dnd_user_n "Do Not Disturb" dnd_msg

/-- The classifier "AWAY RESPONSE / STILL AWAY WARNING" (bnet.c:1528-1559). -/
def info_away_state (host : HostView) (what : String) (p : InfoPass) : InfoPass :=
  match regex_away_state.search what.data with
  | none => p
  | some mi =>
    let away_state_string := match_info_fetch mi 1
    if away_state_string = "still" then
      match p.bnet.last_sent_to with
      | some last_sent_to =>
        if host.im_conv last_sent_to then
          { p with handled := true,
                   effects := p.effects ++ [.conv_im_write what .PURPLE_MESSAGE_SYSTEM] }
        else p
      | none => p
    else
      let p := { p with bnet := { p.bnet with is_away := decide (away_state_string = "now") } }
      if p.bnet.setting_away_status then
        { p with handled := true, bnet := { p.bnet with setting_away_status := false } }
      else p

/-- The classifier "DND RESPONSE" (bnet.c:1567-1582). -/
def info_dnd_state (what : String) (p : InfoPass) : InfoPass :=
  match regex_dnd_state.search what.data with
  | none => p
  | some mi =>
    let dnd_state_string := match_info_fetch mi 1
    let p := { p with bnet := { p.bnet with is_dnd := decide (dnd_state_string = "engaged") } }
    if p.bnet.setting_dnd_status then
      { p with handled := true, bnet := { p.bnet with setting_dnd_status := false } }
    else p

/-- The report of a whisper that did not arrive (bnet.c:1596-1604 and 1657-1665). -/
def whisper_failed (host : HostView) (p : InfoPass) (last_sent_to title what : String) :
    InfoPass :=
  { bnet := { p.bnet with awaiting_whisper_confirm := false }, handled := true,
    effects := p.effects ++ [.conv_present_error last_sent_to what] ++
      if !host.present_error last_sent_to then
        [.notify_error title what (some (last_sent_to ++ " did not receive your whisper."))]
      else [] }

/-- The classifier "WHISPER DND ERROR" (bnet.c:1590-1605). -/
def info_unavailable (host : HostView) (what : String) (p : InfoPass) : InfoPass :=
  match regex_unavailable.search what.data with
  | none => p
  | some _ =>
    match p.bnet.last_sent_to with
    | some last_sent_to => whisper_failed host p last_sent_to "Do not disturb" what
    | none => p

/-- The display of a text no classifier handled (bnet.c:1613-1629 and, with `is_error`,
1671-1687). -/
def show_unhandled (chat is_error : Bool) (what : String) (p : InfoPass) : InfoPass :=
  let msgflags : PurpleMessageFlags :=
    if is_error then .PURPLE_MESSAGE_ERROR else .PURPLE_MESSAGE_SYSTEM
  if !p.handled then
    match p.bnet.last_command_conv with
    | some has_im =>
      if has_im then { p with effects := p.effects ++ [.conv_im_write what msgflags] }
      else if chat then { p with effects := p.effects ++ [.conv_chat_write what msgflags] }
      else { p with effects := p.effects ++
        [.notify_info (if is_error then "Error" else "Information") what] }
    | none =>
      if chat then { p with effects := p.effects ++ [.conv_chat_write what msgflags] }
      else if is_error then { p with effects := p.effects ++ [.notify_error "Error" what none] }
      else { p with bnet := { p.bnet with welcome_msgs := p.bnet.welcome_msgs ++ [what] } }
  else p

/-- The six classifiers of the case `BNET_EID_INFO` in source order (bnet.c:1333-1609), before
the display of an unhandled text. -/
def info_classify (K : BnetConsts) (host : HostView) (what : String) (p : InfoPass) : InfoPass :=
  info_unavailable host what
    (info_dnd_state what
      (info_away_state host what
        (info_whois_dnd K what
          (info_whois_away K host what
            (info_whois K what p)))))

/-- The case `BNET_EID_INFO` (bnet.c:1321-1632). -/
def chatevent_INFO (K : BnetConsts) (host : HostView) (bnet : BnetConnectionData) (chat : Bool)
    (what : String) : BnetConnectionData × List Effect :=
  if what.length > 0 then
    let p := show_unhandled chat false what (info_classify K host what ⟨bnet, false, []⟩)
    (p.bnet, p.effects)
  else (bnet, [])

/-- The case `BNET_EID_ERROR` (bnet.c:1633-1689). -/
def chatevent_ERROR (K : BnetConsts) (host : HostView) (bnet : BnetConnectionData) (chat : Bool)
    (what : String) : BnetConnectionData × List Effect :=
  let p : InfoPass := ⟨bnet, false, []⟩
  let p :=
    if what = "That user is not logged on." then
      let p :=
        match p.bnet.lookup_user with
        | some lookup_user =>
          let info := lookup_info_section p.bnet.lookup_info ++
            [.pair "Current location" "offline"]
          { bnet := { p.bnet with lookup_info := some info }, handled := true,
            effects := p.effects ++
              [.notify_userinfo (bnet_d2_normalize K p.bnet lookup_user) info] }
        | none => p
      if !p.handled then
        match p.bnet.last_sent_to with
        | some last_sent_to => whisper_failed host p last_sent_to "Not logged in" what
        | none => p
      else p
    else p
  let p := show_unhandled chat true what p
  (p.bnet, p.effects)

/-- The case `BNET_EID_WHISPER` (bnet.c:1180-1222). -/
def chatevent_WHISPER (host : HostView) (bnet : BnetConnectionData) (who_n what : String) :
    BnetConnectionData × List Effect :=
  let prpl_level_ignore :=
    decide (what.length > 0) && ((regex_mutual_friend who_n).search what.data).isSome &&
      host.hidemutual
  (bnet, if !prpl_level_ignore then [.serv_got_im who_n what .PURPLE_MESSAGE_RECV] else [])

/-- The function `bnet_recv_CHATEVENT` (bnet.c:1055-1709) for the packet fields `ev`; `str_hash`
is `g_str_hash`. -/
def bnet_recv_CHATEVENT (K : BnetConsts) (str_hash : String → Nat) (host : HostView)
    (bnet : BnetConnectionData) (ev : ChatEvent) : BnetConnectionData × List Effect :=
  let r0 := chatevent_online host bnet
  let bnet := r0.1
  let chat := chatevent_chat host bnet
  let who_n := bnet_d2_normalize K bnet ev.who
  let r : BnetConnectionData × List Effect :=
    match ev.id with
    | .BNET_EID_SHOWUSER => chatevent_SHOWUSER bnet chat who_n ev.flags ev.ping ev.what
    | .BNET_EID_JOIN => chatevent_JOIN bnet chat who_n ev.flags ev.ping ev.what
    | .BNET_EID_LEAVE => chatevent_LEAVE bnet chat who_n
    | .BNET_EID_WHISPER => chatevent_WHISPER host bnet who_n ev.what
    | .BNET_EID_TALK =>
      (bnet, [.serv_got_chat_in bnet.channel_id who_n .PURPLE_MESSAGE_RECV ev.what])
    | .BNET_EID_BROADCAST => (bnet, [])
    | .BNET_EID_CHANNEL => chatevent_CHANNEL str_hash bnet chat ev.flags ev.what
    | .BNET_EID_USERFLAGS => chatevent_USERFLAGS bnet chat who_n ev.flags ev.ping ev.what
    | .BNET_EID_WHISPERSENT =>
      (if bnet.last_sent_to.isSome then { bnet with awaiting_whisper_confirm := false }
        else bnet, [])
    | .BNET_EID_CHANNELFULL => (bnet, [.serv_got_join_chat_failed])
    | .BNET_EID_CHANNELDOESNOTEXIST => (bnet, [.serv_got_join_chat_failed])
    | .BNET_EID_CHANNELRESTRICTED => (bnet, [.serv_got_join_chat_failed])
    | .BNET_EID_INFO => chatevent_INFO K host bnet chat ev.what
    | .BNET_EID_ERROR => chatevent_ERROR K host bnet chat ev.what
    | .BNET_EID_EMOTE =>
      (bnet, [.serv_got_chat_in bnet.channel_id who_n
        (if bnet.unique_username = who_n then .PURPLE_MESSAGE_SEND else .PURPLE_MESSAGE_RECV)
        ("/me " ++ if ev.what.length = 0 then " " else ev.what)])
    | .other => (bnet, [])
  (r.1, r0.2 ++ r.2)

/-- The events of a list handled one after the other, each with the host's answers at that
time; the host calls are collected in order. -/
def bnet_recv_CHATEVENTs (K : BnetConsts) (str_hash : String → Nat) (bnet : BnetConnectionData) :
    List (HostView × ChatEvent) → BnetConnectionData × List Effect
  | [] => (bnet, [])
  | (host, ev) :: rest =>
    let r := bnet_recv_CHATEVENT K str_hash host bnet ev
    let rs := bnet_recv_CHATEVENTs K str_hash r.1 rest
    (rs.1, r.2 ++ rs.2)

/-- A host that is online and available, has the "hidemutual" setting on, and answers `chat` to
whether the channel's conversation is open; it has no IM conversation and presents no error
itself. -/
def sampleHost (chat : Bool) : HostView where
  conv_chat := chat
  status := { is_online := true, is_available := true, name := none, message := none }
  hidemutual := true
  im_conv := fun _ => false
  present_error := fun _ => false


/-- The "left" and "joined" notifications among the host calls, in order. -/
def chat_notifications : List Effect → List Effect
  | [] => []
  | .serv_got_chat_left id :: rest => .serv_got_chat_left id :: chat_notifications rest
  | .serv_got_joined_chat id name :: rest =>
    .serv_got_joined_chat id name :: chat_notifications rest
  | _ :: rest => chat_notifications rest

/-- No two members have the same normalized username. -/
def unique_members (users : List BnetChannelUser) : Prop :=
  (users.map (fun m => bnet_normalize m.username)).Nodup

/-- The five kinds of event that concern the membership list. -/
def roster_event (id : BnetChatEventID) : Prop :=
  id = .BNET_EID_SHOWUSER ∨ id = .BNET_EID_JOIN ∨ id = .BNET_EID_LEAVE ∨
    id = .BNET_EID_USERFLAGS ∨ id = .BNET_EID_CHANNEL

/-- Every event of the list is of one of the five membership kinds, and every join event names
a user who, when the event arrives, matches no member. -/
def joins_fresh (K : BnetConsts) (str_hash : String → Nat) :
    BnetConnectionData → List (HostView × ChatEvent) → Prop
  | _, [] => True
  | bnet, (host, ev) :: rest =>
    roster_event ev.id ∧
    (ev.id = .BNET_EID_JOIN →
      find_channel_user bnet.channel_users (bnet_d2_normalize K bnet ev.who) = none) ∧
    joins_fresh K str_hash (bnet_recv_CHATEVENT K str_hash host bnet ev).1 rest


/-- The number of replies among the host calls: the calls of `purple_notify_userinfo` (the
answer to a lookup) and of `serv_got_im` (the automatic response). -/
def reply_count : List Effect → Nat
  | [] => 0
  | .notify_userinfo _ _ :: rest => reply_count rest + 1
  | .serv_got_im _ _ _ :: rest => reply_count rest + 1
  | _ :: rest => reply_count rest

/-- A pass has replied at most once, and if it has, `handled` is set. -/
def replied_once (p : InfoPass) : Prop :=
  reply_count p.effects = 0 ∨ (reply_count p.effects = 1 ∧ p.handled = true)


/-! ## Friends list -/

/-- A pointer as the list functions of GLib receive it: `NULL`, the address of a
`BnetFriendInfo`, or the link (`GList *`) of a list at a position. -/
inductive GPointer where
  | null
  | friend (addr : Nat)
  | link (pos : Nat)
deriving DecidableEq

/-- The call `g_list_length(list)`. -/
def g_list_length (list : List Nat) : Nat := list.length

/-- The call `g_list_nth(list, n)`: the link at position `n`, `NULL` off the end. -/
def g_list_nth (list : List Nat) (n : Nat) : GPointer :=
  if n < list.length then .link n else .null

/-- The call `g_list_nth_data(list, n)`: the data of the link at position `n`, `none` for the
`NULL` it gives off the end. -/
def g_list_nth_data (list : List Nat) (n : Nat) : Option Nat := list.get? n

/-- The call `g_list_remove(list, data)`: the list without the first element whose data equals
`data`.  The elements of `friends_list` hold addresses of `BnetFriendInfo` objects, which
neither `NULL` nor the address of a link equals. -/
def g_list_remove (list : List Nat) (data : GPointer) : List Nat :=
  match data with
  | .friend a => list.erase a
  | .null => list
  | .link _ => list

/-- The call `g_list_insert(list, data, position)` for a position that is not negative: the
element is added at the end when the position is larger than the length. -/
def g_list_insert (list : List Nat) (data : Nat) (position : Nat) : List Nat :=
  list.take position ++ data :: list.drop position

/-- The call `g_list_remove_link(list, llink)`: the list without that link. -/
def g_list_remove_link (list : List Nat) (llink : GPointer) : List Nat :=
  match llink with
  | .link pos => list.eraseIdx pos
  | .null => list
  | .friend _ => list

/-- The call `purple_buddy_set_protocol_data(buddy, data)` for the buddy at position `buddy`. -/
def purple_buddy_set_protocol_data :
    List PurpleBuddy → Nat → Option Nat → List PurpleBuddy
  | [], _, _ => []
  | b :: rest, 0, data => { b with proto_data := data } :: rest
  | b :: rest, n + 1, data => b :: purple_buddy_set_protocol_data rest n data

/-- The fields of one friend as a friends packet carries them. -/
structure FriendFields where
  account : String
  status : Nat
  location : Nat
  product : Nat
  location_name : String
deriving DecidableEq

/-- The status calls of `bnet_friend_update` for a record (bnet.c:2732-2761) and the value of
`whoising` after them. -/
def friend_status_calls (K : BnetConsts) (bfi : BnetFriendInfo) : List Effect × Bool :=
  if bfi.location = K.BNET_FRIEND_LOCATION_OFFLINE then
    ([.prpl_got_user_status_deactive bfi.account .BNET_STATUS_AWAY,
      .prpl_got_user_status_deactive bfi.account .BNET_STATUS_DND,
      .prpl_got_user_status bfi.account .BNET_STATUS_OFFLINE none], false)
  else
    let away := decide (Nat.land bfi.status K.BNET_FRIEND_STATUS_AWAY ≠ 0)
    let dnd := decide (Nat.land bfi.status K.BNET_FRIEND_STATUS_DND ≠ 0)
    ([.prpl_got_user_status bfi.account .BNET_STATUS_ONLINE none,
      if away then .prpl_got_user_status bfi.account .BNET_STATUS_AWAY none
      else .prpl_got_user_status_deactive bfi.account .BNET_STATUS_AWAY,
      if dnd then .prpl_got_user_status bfi.account .BNET_STATUS_DND none
      else .prpl_got_user_status_deactive bfi.account .BNET_STATUS_DND],
     away || dnd)

/-- The function `bnet_friend_update` (bnet.c:2705-2768) for the record at address `bfi`; `none`
when that address holds no record. -/
def bnet_friend_update (K : BnetConsts) (bnet : BnetConnectionData) (index : Nat) (bfi : Nat)
    (replace : Bool) : Option (BnetConnectionData × List Effect) :=
  match bnet.friend_heap.get? bfi with
  | some (some info) =>
    let found := purple_find_buddy bnet.blist info.account
    let buddy := found.getD bnet.blist.length
    let blist := if found.isNone then bnet.blist ++ [⟨info.account, none⟩] else bnet.blist
    let added : List Effect := if found.isNone then [.blist_add_buddy info.account] else []
    let blist := purple_buddy_set_protocol_data blist buddy (some bfi)
    let friends_list :=
      if replace then g_list_remove bnet.friends_list (g_list_nth bnet.friends_list index)
      else bnet.friends_list
    let friends_list := g_list_insert friends_list bfi index
    let calls := friend_status_calls K info
    let automated_lookup := if calls.2 then true else info.automated_lookup
    let info := { info with buddy := some buddy, automated_lookup := automated_lookup }
    let bnet := { bnet with blist := blist, friends_list := friends_list,
                            friend_heap := bnet.friend_heap.set bfi (some info) }
    some (bnet, added ++ calls.1 ++ if calls.2 then bnet_whois_user bnet info.account else [])
  | _ => none

/-- A record as `g_new0` and the packet reads of the friends handlers leave it. -/
def new_friend_info (f : FriendFields) : BnetFriendInfo :=
  ⟨f.account, f.status, f.location, f.product, f.location_name, none, false, none⟩

/-- The loop of `bnet_recv_FRIENDSLIST` (bnet.c:2293-2303) with `count` entries still to come,
the array of records being at address `base`. -/
def bnet_recv_FRIENDSLIST_loop (K : BnetConsts) (base : Nat) :
    Nat → Nat → BnetConnectionData → Option (BnetConnectionData × List Effect)
  | 0, _, bnet => some (bnet, [])
  | count + 1, idx, bnet =>
    match bnet_friend_update K bnet idx (base + idx) false with
    | none => none
    | some r =>
      match bnet_recv_FRIENDSLIST_loop K base count (idx + 1) r.1 with
      | none => none
      | some rs => some (rs.1, r.2 ++ rs.2)

/-- The function `bnet_recv_FRIENDSLIST` (bnet.c:2284-2305) for a packet whose count byte is
the length of `entries`.  The array of records is allocated at the end of the heap; its
records are given here with the fields the loop reads into them. -/
def bnet_recv_FRIENDSLIST (K : BnetConsts) (bnet : BnetConnectionData)
    (entries : List FriendFields) : Option (BnetConnectionData × List Effect) :=
  bnet_recv_FRIENDSLIST_loop K bnet.friend_heap.length entries.length 0
    { bnet with friend_heap := bnet.friend_heap ++ entries.map (fun f => some (new_friend_info f)) }

/-- The function `bnet_recv_FRIENDSUPDATE` (bnet.c:2307-2318); `none` when `g_list_nth_data`
gives `NULL`, or an address that holds no record, which the function then writes through. -/
def bnet_recv_FRIENDSUPDATE (K : BnetConsts) (bnet : BnetConnectionData) (index : Nat)
    (status location product : Nat) (location_name : String) :
    Option (BnetConnectionData × List Effect) :=
  match g_list_nth_data bnet.friends_list index with
  | some bfi =>
    match bnet.friend_heap.get? bfi with
    | some (some info) =>
      let info := { info with status := status, location := location, product := product,
                              location_name := location_name }
      bnet_friend_update K { bnet with friend_heap := bnet.friend_heap.set bfi (some info) }
        index bfi true
    | _ => none
  | none => none

/-- The function `bnet_recv_FRIENDSADD` (bnet.c:2320-2332). -/
def bnet_recv_FRIENDSADD (K : BnetConsts) (bnet : BnetConnectionData) (f : FriendFields) :
    Option (BnetConnectionData × List Effect) :=
  let bfi := bnet.friend_heap.length
  let index := g_list_length bnet.friends_list % 256
  bnet_friend_update K { bnet with friend_heap := bnet.friend_heap ++ [some (new_friend_info f)] }
    index bfi false

/-- The function `bnet_recv_FRIENDSREMOVE` (bnet.c:2334-2344); `none` when `g_list_nth_data`
gives `NULL`, or an address that holds no record, which the function then reads through. -/
def bnet_recv_FRIENDSREMOVE (bnet : BnetConnectionData) (index : Nat) :
    Option BnetConnectionData :=
  match g_list_nth_data bnet.friends_list index with
  | some bfi =>
    match bnet.friend_heap.get? bfi with
    | some (some info) =>
      let blist :=
        match info.buddy with
        | some buddy => purple_buddy_set_protocol_data bnet.blist buddy none
        | none => bnet.blist
      let friends_list :=
        g_list_remove bnet.friends_list (g_list_nth bnet.friends_list index)
      some { bnet with blist := blist, friend_heap := bnet.friend_heap.set bfi none,
                       friends_list := friends_list }
    | _ => none
  | none => none

/-- The function `bnet_recv_FRIENDSPOSITION` (bnet.c:2346-2354); `none` when `g_list_nth` gives
`NULL`, which the function then reads through. -/
def bnet_recv_FRIENDSPOSITION (bnet : BnetConnectionData) (old_index new_index : Nat) :
    Option BnetConnectionData :=
  match bnet.friends_list.get? old_index with
  | some data =>
    let friends_list := g_list_remove_link bnet.friends_list
      (g_list_nth bnet.friends_list old_index)
    some { bnet with friends_list := g_list_insert friends_list data new_index }
  | none => none

/-- A session with the friends "Alice", "Bob" and "Carol", in that order, all offline. -/
def sampleFriends : BnetConnectionData :=
  { sampleSession with
    friends_list := [0, 1, 2]
    friend_heap := [some ⟨"Alice", 0, 0, 0, "", none, false, some 0⟩,
      some ⟨"Bob", 0, 0, 0, "", none, false, some 1⟩,
      some ⟨"Carol", 0, 0, 0, "", none, false, some 2⟩]
    blist := [⟨"Alice", some 0⟩, ⟨"Bob", some 1⟩, ⟨"Carol", some 2⟩] }


/-! ## The keepalive timer -/

/-- The function `bnet_send_NULL` (bnet.c:496-506). -/
def bnet_send_NULL : List Effect :=
  [.packet_send .sbnet .BNET_SID_NULL []]

/-- The function `bnet_keepalive_timer` (bnet.c:926-944): the session after the call, the frames
sent, and the return value.

Modelled from the spec: the counter `ka_tick` is declared in `bnet.h`, which is not among the
sources; it is taken to be 32 bits wide, so that `ka_tick++` is the successor for all counts
below 2^31 whether the type is signed or not. -/
def bnet_keepalive_timer (bnet : BnetConnectionData) : BnetConnectionData × List Effect × Bool :=
  let bnet := { bnet with ka_tick := (bnet.ka_tick + 1) % 2 ^ 32 }
  (bnet,
    (if bnet.ka_tick % 16 = 0 then bnet_send_NULL else []) ++
      (if bnet.ka_tick % 2 = 0 then bnet_send_FRIENDSLIST else []),
    true)

/-- The session after `n` calls of `bnet_keepalive_timer`. -/
def keepalive_ticks : Nat → BnetConnectionData → BnetConnectionData
  | 0, bnet => bnet
  | n + 1, bnet => (bnet_keepalive_timer (keepalive_ticks n bnet)).1


/-- The friends of `sampleFriends` with "Bob" online in a channel and marked away: the away bit
of his stored status is set. -/
def sampleAwayFriends : BnetConnectionData :=
  { sampleFriends with
    friend_heap := [some ⟨"Alice", 0, 0, 0, "", none, false, some 0⟩,
      some ⟨"Bob", 4, 1, 0, "chat", some "lunch", false, some 1⟩,
      some ⟨"Carol", 0, 0, 0, "", none, false, some 2⟩] }

/-- Whether a host call sends a frame. -/
def is_packet_send : Effect → Bool
  | .packet_send _ _ _ => true
  | _ => false

/-- The frames among the host calls, in order. -/
def frames (effects : List Effect) : List Effect :=
  effects.filter is_packet_send


/-! ## Time formatting -/

/-- The call `g_ascii_strtod(nptr, &endptr)` with its result converted to `guint32`: the number,
and the text from `endptr` on.  A library function, a parameter of the functions that parse. -/
abbrev Strtod := String → Nat × String

/-- A stand-in for `g_ascii_strtod` on texts that begin with decimal digits, at which the
theorems below are instantiated. -/
def sampleStrtod : Strtod := fun s =>
  let digits := s.data.takeWhile Char.isDigit
  (digits.foldl (fun n c => 10 * n + (c.toNat - 48)) 0 % 2 ^ 32, ⟨s.data.drop digits.length⟩)

/-- What `bnet_format_strsec` returns: the literal "now", or the text `g_strdup_printf` makes of
the format "%d%s%02d:%02d:%02d" and these arguments. -/
inductive StrsecText where
  | now
  | printed (days : Nat) (days_str : String) (hrs mins secs : Nat)
deriving DecidableEq

/-- The function `bnet_format_strsec` (bnet.c:2683-2703). -/
def bnet_format_strsec (strtod : Strtod) (secs_str : String) : StrsecText :=
  let secs := (strtod secs_str).1 % 2 ^ 32
  let mins := secs / 60
  let hrs := mins / 60
  let days := hrs / 24
  let secs := secs % 60
  let mins := mins % 60
  let hrs := hrs % 24
  if secs_str.length = 0 ∨ secs = 0 then .now
  else
    let days_str := if days = 0 then "" else if days = 1 then " day, " else " days, "
    .printed days days_str hrs mins secs

/-- Modelled from the spec: the month numbers `MO_JAN` .. `MO_DEC` of `bnet.h`, which is not
among the sources; months are numbered from `MO_JAN = 0`. -/
def MO_JAN : Nat := 0

/-- The month number of February. -/
def MO_FEB : Nat := 1

/-- The month number of March. -/
def MO_MAR : Nat := 2

/-- The month number of April. -/
def MO_APR : Nat := 3

/-- The month number of May. -/
def MO_MAY : Nat := 4

/-- The month number of June. -/
def MO_JUN : Nat := 5

/-- The month number of July. -/
def MO_JUL : Nat := 6

/-- The month number of August. -/
def MO_AUG : Nat := 7

/-- The month number of September. -/
def MO_SEP : Nat := 8

/-- The month number of October. -/
def MO_OCT : Nat := 9

/-- The month number of November. -/
def MO_NOV : Nat := 10

/-- The month number of December. -/
def MO_DEC : Nat := 11

/-- Modelled from the spec: the constants `FT_SECOND` .. `FT_DAY` of `bnet.h`, the number of
100 ns units in a second, a minute, an hour and a day. -/
def FT_SECOND : Nat := 10000000

/-- The number of 100 ns units in a minute. -/
def FT_MINUTE : Nat := 60 * FT_SECOND

/-- The number of 100 ns units in an hour. -/
def FT_HOUR : Nat := 60 * FT_MINUTE

/-- The number of 100 ns units in a day. -/
def FT_DAY : Nat := 24 * FT_HOUR

/-- The `while (TRUE)` loop of `bnet_format_strftime` (bnet.c:2630-2678) on the `guint32`
variables `day`, `mo` and `yr`; the result is their values at the label `end`.  `none` means
the loop did not finish within the fuel. -/
def strftime_loop : Nat → Nat → Nat → Nat → Option (Nat × Nat × Nat)
  | 0, _, _, _ => none
  | fuel + 1, day, mo, yr =>
    if mo = MO_JAN then
      let yr := (yr + 1) % 2 ^ 32
      if day ≤ 31 then some (day, mo, yr)
      else strftime_loop fuel (day - 31) ((mo + 1) % 2 ^ 32) yr
    else if mo = MO_FEB then
      let daysinf := 28 + (if yr % 4 ≠ 0 then 0 else 1)
      if day ≤ daysinf then some (day, mo, yr)
      else strftime_loop fuel (day - daysinf) ((mo + 1) % 2 ^ 32) yr
    else if mo = MO_MAR ∨ mo = MO_MAY ∨ mo = MO_JUL ∨ mo = MO_AUG ∨ mo = MO_OCT then
      if day ≤ 31 then some (day, mo, yr)
      else strftime_loop fuel (day - 31) ((mo + 1) % 2 ^ 32) yr
    else if mo = MO_APR ∨ mo = MO_JUN ∨ mo = MO_SEP ∨ mo = MO_NOV then
      if day ≤ 30 then some (day, mo, yr)
      else strftime_loop fuel (day - 30) ((mo + 1) % 2 ^ 32) yr
    else if mo = MO_DEC then
      if day ≤ 31 then some (day, mo, yr)
      else strftime_loop fuel (day - 31) (((MO_JAN + 2 ^ 32 - 1) % 2 ^ 32 + 1) % 2 ^ 32) yr
    else strftime_loop fuel day ((mo + 1) % 2 ^ 32) yr

/-- What `bnet_format_strftime` returns: the literal "(never)", or the text `g_strdup_printf`
makes of the format "%04d/%02d/%02d at %02d:%02d:%02d" and these arguments. -/
inductive StrftimeText where
  | never
  | printed (yr mo day hr min sec : Nat)
deriving DecidableEq

/-- The function `bnet_format_strftime` (bnet.c:2602-2681).  The loop is given one iteration
more than the day count, which is enough for it to finish.  The result is `none` when the
number parsed first ends the text, so that `space_loc + 1` is beyond the terminator. -/
def bnet_format_strftime (strtod : Strtod) (ftime_str : String) : Option StrftimeText :=
  if ftime_str.length = 0 then some .never
  else
    let high := strtod ftime_str
    let dwHighDateTime := high.1 % 2 ^ 32
    let space_loc := high.2
    if space_loc.length = 0 then none
    else
      let dwLowDateTime := (strtod ⟨space_loc.data.drop 1⟩).1 % 2 ^ 32
      let comb := dwHighDateTime * 2 ^ 32 + dwLowDateTime
      let sec := (comb / FT_SECOND) % 60
      let min := (comb / FT_MINUTE) % 60
      let hr := (comb / FT_HOUR) % 24
      let day := ((comb / FT_DAY) + 2) % 2 ^ 32
      match strftime_loop (day + 1) day MO_JAN 1600 with
      | some (day, mo, yr) => some (.printed yr (mo + 1) (day + 1) hr min sec)
      | none => none

/-- The number of days the loop of `bnet_format_strftime` gives the month `mo` when the loop
variable `yr` has the value `yr`: February has 29 days when `yr` is a multiple of 4. -/
def strftime_month_days (mo yr : Nat) : Nat :=
  if mo = MO_FEB then 28 + (if yr % 4 ≠ 0 then 0 else 1)
  else if mo = MO_APR ∨ mo = MO_JUN ∨ mo = MO_SEP ∨ mo = MO_NOV then 30
  else 31

/-- The number of days of month `mo` (1 to 12) of the year `yr` in the Gregorian calendar. -/
def days_in_month (mo yr : Nat) : Nat :=
  if mo = 2 then (if yr % 4 = 0 ∧ (yr % 100 ≠ 0 ∨ yr % 400 = 0) then 29 else 28)
  else if mo = 4 ∨ mo = 6 ∨ mo = 9 ∨ mo = 11 then 30
  else 31

/-- The number of days the loop of `bnet_format_strftime` gives the year for which its variable
`yr` has the value `yr`. -/
def strftime_year_days (yr : Nat) : Nat :=
  337 + strftime_month_days MO_FEB yr

/-- The number of days the loop gives the `k` years that follow the value `yr`. -/
def strftime_years_days : Nat → Nat → Nat
  | _, 0 => 0
  | yr, k + 1 => strftime_year_days (yr + 1) + strftime_years_days (yr + 1) k


/-! ## Account names -/

/-- The terminator of a C string. -/
def NUL : Char := Char.ofNat 0

/-- The call `strlen(s)` on a buffer of characters: the number of characters before the first
terminator. -/
def strlen : List Char → Nat
  | [] => 0
  | c :: rest => if c = NUL then 0 else strlen rest + 1

/-- The call `g_strstr_len(out, strlen(out), "#")`: the offset of the first '#' before the
terminator, `none` for `NULL`. -/
def find_pound : List Char → Option Nat
  | [] => none
  | c :: rest =>
    if c = NUL then none
    else if c = '#' then some 0
    else (find_pound rest).map (fun k => k + 1)

/-- The `for` loop of `bnet_account_normalize` (bnet.c:4086-4099) on the buffer from
`poundloc` on; the arguments after it are `i`, `j` and `is_gateway`, and the result is the
buffer, `i` and `j` after the loop.  `none` means the loop did not finish within the fuel. -/
def account_normalize_loop : Nat → List Char → Nat → Nat → Bool → Option (List Char × Nat × Nat)
  | 0, _, _, _, _ => none
  | fuel + 1, poundloc, i, j, is_gateway =>
    if i < strlen poundloc then
      let is_gateway := if poundloc.getD i NUL = '@' then true else is_gateway
      if is_gateway then
        account_normalize_loop fuel (poundloc.set j (poundloc.getD i NUL)) (i + 1) (j + 1)
          is_gateway
      else account_normalize_loop fuel poundloc (i + 1) j is_gateway
    else some (poundloc, i, j)

/-- The function `bnet_account_normalize` (bnet.c:4076-4106) for a name without a terminator
inside.  The loop is given as many iterations as the buffer from `poundloc` on has
characters, which is enough for it to finish.  The result is `none` when the text does not fit
the 64 bytes of the static buffer `o`. -/
def bnet_account_normalize (inp : String) : Option String :=
  let out := inp.data ++ [NUL]
  let out :=
    match find_pound out with
    | some k =>
      let poundloc := out.drop k
      match account_normalize_loop poundloc.length poundloc 0 0 false with
      | some (poundloc, i, j) => some (out.take k ++ poundloc.set j (poundloc.getD i NUL))
      | none => none
    | none => some out
  match out with
  | some out => if strlen out + 1 ≤ 64 then some ⟨out.take (strlen out)⟩ else none
  | none => none


/-! ## Outgoing messages -/

/-- The constants the two functions that send a message use: `BNET_MSG_MAXSIZE` and
`BNET_EBADCHARS` of `bnet.h`, which is not among the sources, and `ENOTCONN` and `E2BIG` of
`errno.h`. -/
structure MessageConsts where
  BNET_MSG_MAXSIZE : Nat
  BNET_EBADCHARS : Int
  ENOTCONN : Int
  E2BIG : Int

/-- An assignment of the constants at which the theorems below are instantiated. -/
def sampleMessageConsts : MessageConsts where
  BNET_MSG_MAXSIZE := 224
  BNET_EBADCHARS := 255
  ENOTCONN := 107
  E2BIG := 7

/-- The test `strpbrk(message, "\t\v\r\n") != NULL`: the message holds a tab, a vertical tab, a
carriage return or a line feed. -/
def has_bad_chars (message : String) : Bool :=
  message.data.any (fun c =>
    c = Char.ofNat 9 || c = Char.ofNat 11 || c = Char.ofNat 13 || c = Char.ofNat 10)

/-- The function `bnet_send_whisper` (bnet.c:2846-2876): the session after the call, the host
calls, and the return value.  `unescape` is `purple_unescape_text`; `strlen(msg_nohtml)` is the
number of bytes of the text, `utf8ByteSize`. -/
def bnet_send_whisper (M : MessageConsts) (unescape : String → String)
    (bnet : BnetConnectionData) (who message : String) :
    BnetConnectionData × List Effect × Int :=
  if !bnet.is_online then (bnet, [], -M.ENOTCONN)
  else if has_bad_chars message then (bnet, [], -M.BNET_EBADCHARS)
  else
    let msg_nohtml := unescape message
    if msg_nohtml.utf8ByteSize > M.BNET_MSG_MAXSIZE then (bnet, [], -M.E2BIG)
    else
      ({ bnet with last_sent_to := some who, awaiting_whisper_confirm := true },
        bnet_send_CHATCOMMAND ("/w " ++ bnet.d2_star ++ who ++ " " ++ msg_nohtml),
        msg_nohtml.utf8ByteSize)

/-- The function `bnet_chat_im` (bnet.c:3622-3662).  `unescape` is `purple_unescape_text` and
`escape` is `purple_markup_escape_text`; `strlen(msg_nohtml)` is the number of bytes of the
text, `utf8ByteSize`; `cmd_do_command` gives, for the text after the first character of the
message, whether `purple_cmd_do_command` returns `PURPLE_CMD_STATUS_NOT_FOUND`, and the error
text it stores. -/
def bnet_chat_im (M : MessageConsts) (unescape escape : String → String) (host : HostView)
    (cmd_do_command : String → Bool × Option String) (bnet : BnetConnectionData)
    (message : String) : BnetConnectionData × List Effect × Int :=
  if !bnet.is_online then (bnet, [], -M.ENOTCONN)
  else if has_bad_chars message then (bnet, [], -M.BNET_EBADCHARS)
  else
    let msg_nohtml := unescape message
    if msg_nohtml.utf8ByteSize > M.BNET_MSG_MAXSIZE then (bnet, [], -M.E2BIG)
    else if msg_nohtml.data.head? = some '/' then
      if host.conv_chat then
        let r := cmd_do_command ⟨message.data.drop 1⟩
        (bnet,
          (if r.1 then bnet_send_CHATCOMMAND msg_nohtml else []) ++
            (match r.2 with
              | some e => [.serv_got_chat_in bnet.channel_id "" .PURPLE_MESSAGE_ERROR e]
              | none => []),
          0)
      else (bnet, [], 0)
    else
      (bnet,
        bnet_send_CHATCOMMAND msg_nohtml ++
          [.serv_got_chat_in bnet.channel_id bnet.username .PURPLE_MESSAGE_SEND
            (escape msg_nohtml)],
        msg_nohtml.utf8ByteSize)

/-- The session `sampleSession` once it is online. -/
def sampleOnline : BnetConnectionData :=
  { sampleSession with is_online := true }


/-! ## User data -/

/-- Modelled from the spec: the constants of `bnet.h`, which is not among the sources, that the
user-data functions use.  The request-purpose flags and the record bits are bit masks.  The
request texts, which hold one key per line, are given as the lists of their lines, and the two
record texts as the lines of the text `g_strdup_printf` makes of the format for a product text
and a ladder number. -/
structure UserDataConsts where
  BNET_READUSERDATA_REQUEST_PROFILE : Nat
  BNET_READUSERDATA_REQUEST_SYSTEM : Nat
  BNET_READUSERDATA_REQUEST_RECORD : Nat
  BNET_RECORD_NONE : Nat
  BNET_RECORD_NORMAL : Nat
  BNET_RECORD_LADDER : Nat
  BNET_RECORD_IRONMAN : Nat
  BNET_USERDATA_PROFILE_REQUEST : List String
  BNET_USERDATA_SYSTEM_REQUEST : List String
  BNET_USERDATA_RECORD_REQUEST : String → Nat → List String
  BNET_USERDATA_RECORD_LADDER_REQUEST : String → Nat → List String

/-- An assignment of the constants, with the keys `bnet_recv_READUSERDATA` looks up, at which
the theorems below are instantiated. -/
def sampleUserDataConsts : UserDataConsts where
  BNET_READUSERDATA_REQUEST_PROFILE := 1
  BNET_READUSERDATA_REQUEST_SYSTEM := 2
  BNET_READUSERDATA_REQUEST_RECORD := 4
  BNET_RECORD_NONE := 0
  BNET_RECORD_NORMAL := 1
  BNET_RECORD_LADDER := 2
  BNET_RECORD_IRONMAN := 8
  BNET_USERDATA_PROFILE_REQUEST :=
    ["profile\\sex", "profile\\age", "profile\\location", "profile\\description"]
  BNET_USERDATA_SYSTEM_REQUEST :=
    ["System\\Account Created", "System\\Last Logoff", "System\\Last Logon",
      "System\\Time Logged"]
  BNET_USERDATA_RECORD_REQUEST := fun p n =>
    ["wins", "losses", "disconnects", "last game", "last game result"].map
      (fun k => "Record\\" ++ p ++ "\\" ++ toString n ++ "\\" ++ k)
  BNET_USERDATA_RECORD_LADDER_REQUEST := fun p n =>
    ["wins", "losses", "disconnects", "last game", "last game result",
      "rating", "high rating", "high rank"].map
        (fun k => "Record\\" ++ p ++ "\\" ++ toString n ++ "\\" ++ k) ++
      ["DynKey\\" ++ p ++ "\\" ++ toString n ++ "\\rank"]

/-- The function `get_product_name` (bnet.c:3764-3806). -/
def get_product_name (K : BnetConsts) (product : Nat) : String :=
  if product = K.BNET_PRODUCT_STAR ∨ product = K.BNET_GAME_TYPE_STAR then "Starcraft"
  else if product = K.BNET_PRODUCT_SEXP ∨ product = K.BNET_GAME_TYPE_SEXP then
    "Starcraft Broodwar"
  else if product = K.BNET_PRODUCT_W2BN ∨ product = K.BNET_GAME_TYPE_W2BN then "Warcraft II"
  else if product = K.BNET_PRODUCT_D2DV ∨ product = K.BNET_GAME_TYPE_D2DV then "Diablo II"
  else if product = K.BNET_PRODUCT_D2XP ∨ product = K.BNET_GAME_TYPE_D2XP then
    "Diablo II Lord of Destruction"
  else if product = K.BNET_PRODUCT_WAR3 ∨ product = K.BNET_GAME_TYPE_WAR3 then "Warcraft III"
  else if product = K.BNET_PRODUCT_W3XP ∨ product = K.BNET_GAME_TYPE_W3XP then
    "Warcraft III The Frozen Throne"
  else if product = K.BNET_PRODUCT_DRTL ∨ product = K.BNET_GAME_TYPE_DRTL then "Diablo"
  else if product = K.BNET_PRODUCT_DSHR ∨ product = K.BNET_GAME_TYPE_DSHR then
    "Diablo Shareware"
  else if product = K.BNET_PRODUCT_SSHR ∨ product = K.BNET_GAME_TYPE_SSHR then
    "Starcraft Shareware"
  else if product = K.BNET_PRODUCT_JSTR ∨ product = K.BNET_GAME_TYPE_JSTR then
    "Starcraft Japanese"
  else if product = K.BNET_PRODUCT_CHAT then "Telnet Chat"
  else "Unknown"

/-- The function `get_product_id_str` (bnet.c:3808-3836): the four bytes of the product
identifier, the most significant first, as far as they are not 0. -/
def get_product_id_str (K : BnetConsts) (product : Nat) : String :=
  let product :=
    if product = K.BNET_GAME_TYPE_STAR then K.BNET_PRODUCT_STAR
    else if product = K.BNET_GAME_TYPE_SEXP then K.BNET_PRODUCT_SEXP
    else if product = K.BNET_GAME_TYPE_W2BN then K.BNET_PRODUCT_W2BN
    else if product = K.BNET_GAME_TYPE_D2DV then K.BNET_PRODUCT_D2DV
    else if product = K.BNET_GAME_TYPE_D2XP then K.BNET_PRODUCT_D2XP
    else if product = K.BNET_GAME_TYPE_WAR3 then K.BNET_PRODUCT_WAR3
    else if product = K.BNET_GAME_TYPE_W3XP then K.BNET_PRODUCT_W3XP
    else if product = K.BNET_GAME_TYPE_DRTL then K.BNET_PRODUCT_DRTL
    else if product = K.BNET_GAME_TYPE_DSHR then K.BNET_PRODUCT_DSHR
    else if product = K.BNET_GAME_TYPE_SSHR then K.BNET_PRODUCT_SSHR
    else if product = K.BNET_GAME_TYPE_JSTR then K.BNET_PRODUCT_JSTR
    else product
  let ret := [Char.ofNat (product / 16777216 % 256), Char.ofNat (product / 65536 % 256),
    Char.ofNat (product / 256 % 256), Char.ofNat (product % 256)]
  ⟨ret.take (strlen ret)⟩

/-- The function `bnet_send_READUSERDATA` (bnet.c:667-686). -/
def bnet_send_READUSERDATA (request_cookie : Nat) (username : String) (keys : List String) :
    List Effect :=
  [.packet_send .sbnet .BNET_SID_READUSERDATA
    ([.dword 1, .dword keys.length, .dword request_cookie, .cstring username] ++
      keys.map (fun k => .cstring k))]

/-- The value of `recordbits` after the `switch (bnet->game)` of `bnet_profiledata_user`
(bnet.c:2936-2960). -/
def profiledata_recordbits (K : BnetConsts) (U : UserDataConsts) (game : Nat) : Nat :=
  if game = K.BNET_GAME_TYPE_SSHR then U.BNET_RECORD_NORMAL
  else if game = K.BNET_GAME_TYPE_W2BN then
    Nat.lor (Nat.lor U.BNET_RECORD_NORMAL U.BNET_RECORD_LADDER) U.BNET_RECORD_IRONMAN
  else if game = K.BNET_GAME_TYPE_STAR ∨ game = K.BNET_GAME_TYPE_SEXP ∨
      game = K.BNET_GAME_TYPE_JSTR then
    Nat.lor U.BNET_RECORD_NORMAL U.BNET_RECORD_LADDER
  else if game = K.BNET_GAME_TYPE_DRTL ∨ game = K.BNET_GAME_TYPE_DSHR ∨
      game = K.BNET_GAME_TYPE_D2DV ∨ game = K.BNET_GAME_TYPE_D2XP ∨
      game = K.BNET_GAME_TYPE_WAR3 ∨ game = K.BNET_GAME_TYPE_W3XP then
    U.BNET_RECORD_NONE
  else 0

/-- The request `bnet_profiledata_user` builds (bnet.c:2918-3015) for the normalized name
`norm`, of which `acct_norm` is the text `bnet_account_normalize` returns.  The request text is
handled as the list of its lines, which is what `g_strsplit` makes of it. -/
def profiledata_request (K : BnetConsts) (U : UserDataConsts) (str_hash : String → Nat)
    (bnet : BnetConnectionData) (norm acct_norm : String) : BnetUserDataRequest :=
  let request_cookie := str_hash norm
  let uu_norm := bnet_normalize bnet.unique_username
  let is_self := decide (uu_norm = acct_norm)
  let final_request :=
    if is_self then
      U.BNET_USERDATA_PROFILE_REQUEST ++ U.BNET_USERDATA_SYSTEM_REQUEST
    else U.BNET_USERDATA_PROFILE_REQUEST
  let recordbits := profiledata_recordbits K U bnet.game
  let product_id := get_product_id_str K bnet.product_id
  let final_request :=
    if Nat.land recordbits U.BNET_RECORD_NORMAL ≠ 0 then
      final_request ++ U.BNET_USERDATA_RECORD_REQUEST product_id 0
    else final_request
  let final_request :=
    if Nat.land recordbits U.BNET_RECORD_LADDER ≠ 0 then
      final_request ++ U.BNET_USERDATA_RECORD_LADDER_REQUEST product_id 1
    else final_request
  let final_request :=
    if Nat.land recordbits U.BNET_RECORD_IRONMAN ≠ 0 then
      final_request ++ U.BNET_USERDATA_RECORD_LADDER_REQUEST product_id 3
    else final_request
  let keys := final_request
  let request_type :=
    Nat.lor
      (Nat.lor U.BNET_READUSERDATA_REQUEST_PROFILE
        (if is_self then U.BNET_READUSERDATA_REQUEST_SYSTEM else 0))
      (if recordbits = U.BNET_RECORD_NONE then 0 else U.BNET_READUSERDATA_REQUEST_RECORD)
  { cookie := request_cookie, request_type := request_type, username := acct_norm,
    userdata_keys := keys, product := bnet.product_id }

/-- The function `bnet_profiledata_user` (bnet.c:2914-3019); `str_hash` is `g_str_hash`.  The
result is `none` when `bnet_account_normalize` is. -/
def bnet_profiledata_user (K : BnetConsts) (U : UserDataConsts) (str_hash : String → Nat)
    (bnet : BnetConnectionData) (who : String) : Option (BnetConnectionData × List Effect) :=
  let norm := bnet_normalize who
  match bnet_account_normalize norm with
  | none => none
  | some acct_norm =>
    let req := profiledata_request K U str_hash bnet norm acct_norm
    some ({ bnet with userdata_requests := bnet.userdata_requests ++ [req] },
      bnet_send_READUSERDATA req.cookie acct_norm req.userdata_keys)

/-- The hash table `userdata` of `bnet_recv_READUSERDATA`: the keys with their values, `none`
for the `NULL` that stands for an absent value. -/
abbrev UserData := List (String × Option String)

/-- The call `g_hash_table_insert(userdata, key, value)`: the value of a key that is in the
table is replaced. -/
def UserData.insert (t : UserData) (key : String) (value : Option String) : UserData :=
  if t.any (fun e => e.1 = key) then t.map (fun e => if e.1 = key then (e.1, value) else e)
  else t ++ [(key, value)]

/-- The call `g_hash_table_lookup(userdata, key)`. -/
def UserData.lookup (t : UserData) (key : String) : Option String :=
  match t.find? (fun e => e.1 = key) with
  | some e => e.2
  | none => none

/-- The state of one call of `bnet_recv_READUSERDATA`: the session, the host calls made so
far, and the number of strings read from the packet after the three numbers. -/
structure ReadUserData where
  bnet : BnetConnectionData
  effects : List Effect
  strings_read : Nat
deriving DecidableEq

/-- The loop that fills the hash table (bnet.c:1754-1757) for `j` from `j` on, with `count`
iterations to go.  Modelled from the spec: the packet reader is not among the sources; a string
read beyond the last one of the packet gives `NULL`.  The result is `none` when the request
has no key number `j`. -/
def read_userdata (keys : List String) (values : List String) :
    Nat → Nat → Nat → UserData → Option UserData
  | 0, _, _, t => some t
  | count + 1, j, pos, t =>
    match keys.get? j with
    | some key => read_userdata keys values count (j + 1) (pos + 1) (t.insert key (values.get? pos))
    | none => none

/-- A pair is added for a value that is present and not empty (bnet.c:1775-1780 and the three
blocks after it); the result is the lookup result and the section count. -/
def add_profile_pair (userdata : UserData) (key label : String)
    (acc : List UserInfoEntry × Nat) : List UserInfoEntry × Nat :=
  match userdata.lookup key with
  | some pstr => if pstr.length > 0 then (acc.1 ++ [.pair label pstr], acc.2 + 1) else acc
  | none => acc

/-- The profile part of a response (bnet.c:1759-1814); the last component is
`showing_lookup_dialog`. -/
def userdata_profile (U : UserDataConsts) (userdata : UserData) (req : BnetUserDataRequest)
    (st : ReadUserData) : ReadUserData × Bool :=
  if Nat.land req.request_type U.BNET_READUSERDATA_REQUEST_PROFILE ≠ 0 then
    if st.bnet.writing_profile then
      ({ st with effects := st.effects ++
          [.profile_show_write_dialog (userdata.lookup "profile\\sex")
            (userdata.lookup "profile\\age") (userdata.lookup "profile\\location")
            (userdata.lookup "profile\\description")] }, false)
    else if st.bnet.lookup_user.isSome then
      let info := lookup_info_section st.bnet.lookup_info
      let acc := add_profile_pair userdata "profile\\sex" "Profile sex" (info, 0)
      let acc := add_profile_pair userdata "profile\\age" "Profile age" acc
      let acc := add_profile_pair userdata "profile\\location" "Profile location" acc
      let acc := add_profile_pair userdata "profile\\description" "Profile description" acc
      let info :=
        if acc.2 = 0 then
          acc.1 ++ [.pair "Profile" "No information is stored in this user's profile."]
        else acc.1
      ({ st with bnet := { st.bnet with lookup_info := some info } }, true)
    else (st, false)
  else (st, false)

/-- A pair with a formatted value is added, after a section break when it is the first of its
part, for a value that is present and not empty (bnet.c:1826-1835 and the three blocks after
it); the second component is `is_section`. -/
def add_system_pair (userdata : UserData) (key label : String) (format : String → String)
    (acc : List UserInfoEntry × Bool) : List UserInfoEntry × Bool :=
  match userdata.lookup key with
  | some pstr =>
    if pstr.length > 0 then
      ((if acc.2 then acc.1 else acc.1 ++ [.section_break]) ++ [.pair label (format pstr)], true)
    else acc
  | none => acc

/-- The system part of a response (bnet.c:1816-1874).  The texts `bnet_format_strftime` and
`bnet_format_strsec` return are the parameters `format_strftime` and `format_strsec`: what
the first returns for a text that holds one number only is not determined by the source. -/
def userdata_system (U : UserDataConsts) (format_strftime format_strsec : String → String)
    (userdata : UserData) (req : BnetUserDataRequest) (st : ReadUserData) :
    ReadUserData × Bool :=
  if Nat.land req.request_type U.BNET_READUSERDATA_REQUEST_SYSTEM ≠ 0 then
    if st.bnet.lookup_user.isSome then
      let info := st.bnet.lookup_info.getD []
      let acc := add_system_pair userdata "System\\Account Created" "Account creation time"
        format_strftime (info, false)
      let acc := add_system_pair userdata "System\\Last Logoff" "Last logoff time"
        format_strftime acc
      let acc := add_system_pair userdata "System\\Last Logon" "Last logon time"
        format_strftime acc
      let acc := add_system_pair userdata "System\\Time Logged" "Account time logged"
        format_strsec acc
      ({ st with bnet := { st.bnet with lookup_info := some acc.1 } }, true)
    else (st, false)
  else (st, false)

/-- The value of `header_text` for the ladder number `j` (bnet.c:1894-1898); "(null)" is what
`g_strdup_printf` prints for the `NULL` of number 2. -/
def record_header_text (j : Nat) : String :=
  if j = 0 then "Normal" else if j = 1 then "Ladder" else if j = 3 then "IronMan" else "(null)"

/-- A value, or "0" for the empty value (bnet.c:1927-1929 and 1967-1970). -/
def or_zero (value : String) : String :=
  if value.length = 0 then "0" else value

/-- One iteration of the loop over the ladder numbers (bnet.c:1886-1979). -/
def add_record_pairs (K : BnetConsts) (format_strftime : String → String) (userdata : UserData)
    (req : BnetUserDataRequest) (j : Nat) (acc : List UserInfoEntry × Bool) :
    List UserInfoEntry × Bool :=
  let product_id := get_product_id_str K req.product
  let product := get_product_name K req.product
  let record := fun (what : String) =>
    userdata.lookup ("Record\\" ++ product_id ++ "\\" ++ toString j ++ "\\" ++ what)
  let acc :=
    match record "wins", record "losses", record "disconnects", record "last game",
        record "last game result" with
    | some wins, some losses, some discs, some lgame, some lgameres =>
      let lgame :=
        if lgame.length = 0 then "never" else lgameres ++ " on " ++ format_strftime lgame
      ((if acc.2 then acc.1 else acc.1 ++ [.section_break]) ++
        [.pair (record_header_text j ++ " record for " ++ product)
            (or_zero wins ++ "-" ++ or_zero losses ++ "-" ++ or_zero discs),
          .pair "Last game" lgame], true)
    | _, _, _, _, _ => acc
  match record "rating", record "high rating",
      userdata.lookup ("DynKey\\" ++ product_id ++ "\\" ++ toString j ++ "\\rank"),
      record "high rank" with
  | some rating, some hrating, some rank, some hrank =>
    ((if acc.2 then acc.1 else acc.1 ++ [.section_break]) ++
      [.pair "Rating" (or_zero rating ++ " (high: " ++ or_zero hrating ++ ")"),
        .pair "Rank" (or_zero rank ++ " (high: " ++ or_zero hrank ++ ")")], true)
  | _, _, _, _ => acc

/-- The record part of a response (bnet.c:1876-1981). -/
def userdata_record (K : BnetConsts) (U : UserDataConsts) (format_strftime : String → String)
    (userdata : UserData) (req : BnetUserDataRequest) (st : ReadUserData) :
    ReadUserData × Bool :=
  if Nat.land req.request_type U.BNET_READUSERDATA_REQUEST_RECORD ≠ 0 then
    if st.bnet.lookup_user.isSome then
      let info := st.bnet.lookup_info.getD []
      let acc := add_record_pairs K format_strftime userdata req 0 (info, false)
      let acc := add_record_pairs K format_strftime userdata req 1 acc
      let acc := add_record_pairs K format_strftime userdata req 2 acc
      let acc := add_record_pairs K format_strftime userdata req 3 acc
      ({ st with bnet := { st.bnet with lookup_info := some acc.1 } }, true)
    else (st, false)
  else (st, false)

/-- The body of the loop of `bnet_recv_READUSERDATA` for the request `req` at position `i`,
whose cookie is the one of the response (bnet.c:1751-1990).  The result is `none` when the
response counts more keys than the request has. -/
def userdata_matched (K : BnetConsts) (U : UserDataConsts)
    (format_strftime format_strsec : String → String) (key_count : Nat) (values : List String)
    (i : Nat) (req : BnetUserDataRequest) (st : ReadUserData) : Option ReadUserData :=
  match read_userdata req.userdata_keys values key_count 0 st.strings_read [] with
  | none => none
  | some userdata =>
    let st := { st with strings_read := st.strings_read + key_count }
    let r1 := userdata_profile U userdata req st
    let r2 := userdata_system U format_strftime format_strsec userdata req r1.1
    let r3 := userdata_record K U format_strftime userdata req r2.1
    let st := r3.1
    let showing_lookup_dialog := r1.2 || r2.2 || r3.2
    let shown : List Effect :=
      if showing_lookup_dialog then
        [.notify_userinfo (bnet_d2_normalize K st.bnet (st.bnet.lookup_user.getD ""))
          (st.bnet.lookup_info.getD [])]
      else []
    some { st with
      bnet := { st.bnet with userdata_requests := st.bnet.userdata_requests.eraseIdx i },
      effects := st.effects ++ shown }

/-- The `for` loop of `bnet_recv_READUSERDATA` (bnet.c:1748-1992) from position `i` on.  `none`
means the loop did not finish within the fuel, or the body's result is `none`. -/
def bnet_recv_READUSERDATA_loop (K : BnetConsts) (U : UserDataConsts)
    (format_strftime format_strsec : String → String) (key_count request_cookie : Nat)
    (values : List String) : Nat → Nat → ReadUserData → Option ReadUserData
  | 0, _, _ => none
  | fuel + 1, i, st =>
    if i < st.bnet.userdata_requests.length then
      match st.bnet.userdata_requests.get? i with
      | some req =>
        if req.cookie = request_cookie then
          match userdata_matched K U format_strftime format_strsec key_count values i req st with
          | some st => bnet_recv_READUSERDATA_loop K U format_strftime format_strsec key_count
              request_cookie values fuel (i + 1) st
          | none => none
        else bnet_recv_READUSERDATA_loop K U format_strftime format_strsec key_count
          request_cookie values fuel (i + 1) st
      | none => none
    else some st

/-- The function `bnet_recv_READUSERDATA` (bnet.c:1739-1993) for a packet with the key count
`key_count`, the cookie `request_cookie` and the strings `values` after them.  The loop is
given one iteration more than there are pending requests, which is enough for it to finish. -/
def bnet_recv_READUSERDATA (K : BnetConsts) (U : UserDataConsts)
    (format_strftime format_strsec : String → String) (bnet : BnetConnectionData)
    (key_count request_cookie : Nat) (values : List String) : Option ReadUserData :=
  bnet_recv_READUSERDATA_loop K U format_strftime format_strsec key_count request_cookie values
    (bnet.userdata_requests.length + 1) 0 ⟨bnet, [], 0⟩

/-- What the loop of `bnet_recv_READUSERDATA` leaves of a list of requests for the cookie `c`:
a request with the cookie `c` is taken out, and the request after it is passed over. -/
def userdata_sweep (c : Nat) : List BnetUserDataRequest → List BnetUserDataRequest
  | [] => []
  | [x] => if x.cookie = c then [] else [x]
  | x :: y :: rest =>
    if x.cookie = c then y :: userdata_sweep c rest else x :: userdata_sweep c (y :: rest)

/-- The session `sampleOnline` with a lookup of "Bob" under way, as `bnet_get_info` leaves it
before it calls `bnet_profiledata_user`. -/
def sampleLookup : BnetConnectionData :=
  { sampleOnline with lookup_user := some "bob" }

/-- The session `sampleLookup` with one pending request for "bob", whose cookie is 7. -/
def samplePending : BnetConnectionData :=
  { sampleLookup with
    userdata_requests := [⟨7, 1, "bob", ["profile\\sex", "profile\\age"], 0x53544152⟩] }


/-! ## Stream reassembly: lemmas -/

theorem bnet_read_loop_exit (FLAG : Byte) (buf : List Byte) (n s u : Nat)
    (h : ¬ s + 4 ≤ buf.length) : bnet_read_loop FLAG buf (n + 1) s u = some ([], s) := by
  simp [bnet_read_loop, h]

theorem bnet_read_loop_bad_sentinel (FLAG : Byte) (buf : List Byte) (n s u : Nat)
    (h : buf.getD s 0 ≠ FLAG) : bnet_read_loop FLAG buf (n + 1) s u = some ([], s) := by
  simp only [bnet_read_loop, Nat.add_zero, h, if_false, ite_self]

theorem bnet_read_loop_short (FLAG : Byte) (buf : List Byte) (n s u : Nat)
    (h : ¬ (u + read_u16 buf (s + 2)) % 65536 ≤ buf.length) :
    bnet_read_loop FLAG buf (n + 1) s u = some ([], s) := by
  simp [bnet_read_loop, h]

theorem bnet_read_loop_dispatch (FLAG : Byte) (buf : List Byte) (n s u : Nat)
    (h4 : s + 4 ≤ buf.length) (hs : buf.getD s 0 = FLAG)
    (hl : (u + read_u16 buf (s + 2)) % 65536 ≤ buf.length) :
    bnet_read_loop FLAG buf (n + 1) s u =
      match bnet_read_loop FLAG buf n (s + read_u16 buf (s + 2)) ((u + read_u16 buf (s + 2)) % 65536) with
      | some (calls, stop) => some (⟨buf.getD (s + 1) 0, s, read_u16 buf (s + 2)⟩ :: calls, stop)
      | none => none := by
  simp only [bnet_read_loop, Nat.add_zero, h4, hs, hl, if_true]

/-- Reading at offset `k` behind `pre` sees the frame `f` the buffered tail begins with. -/
theorem getD_at_frame (pre tail more f rest : List Byte) (k : Nat)
    (h : tail ++ more = f ++ rest) (hk : k < tail.length) (hf : k < f.length) :
    (pre ++ tail).getD (pre.length + k) 0 = f.getD k 0 := by
  rw [List.getD_append_right _ _ _ _ (Nat.le_add_right _ _), Nat.add_sub_cancel_left,
    ← List.getD_append tail more 0 k hk, h, List.getD_append f rest 0 k hf]

theorem read_u16_at_frame (pre tail more f rest : List Byte) (k : Nat)
    (h : tail ++ more = f ++ rest) (hk : k + 1 < tail.length) (hf : k + 1 < f.length) :
    read_u16 (pre ++ tail) (pre.length + k) = read_u16 f k := by
  unfold read_u16
  rw [getD_at_frame pre tail more f rest k h (by omega) (by omega), Nat.add_assoc,
    getD_at_frame pre tail more f rest (k + 1) h hk hf]

theorem frame_split (tail more f rest : List Byte) (h : tail ++ more = f ++ rest)
    (hl : f.length ≤ tail.length) : ∃ tail', tail = f ++ tail' ∧ tail' ++ more = rest := by
  rcases List.append_eq_append_iff.mp h with ⟨a, ha, hb⟩ | ⟨c, hc, hd⟩
  · -- f = tail ++ a
    have : a = [] := by
      have := congrArg List.length ha
      simp at this
      exact List.length_eq_zero.mp (by omega)
    subst this
    exact ⟨[], by simpa using ha.symm, by simpa using hb⟩
  · exact ⟨c, hc, hd.symm⟩

theorem bnet_read_loop_frames (FLAG : Byte) :
    ∀ (fs : List (List Byte)), (∀ f ∈ fs, WellFormedFrame FLAG f) →
    ∀ (pre tail more : List Byte) (fuel : Nat), tail ++ more = fs.flatten →
      pre.length + fs.flatten.length < 65536 → tail.length < fuel →
      ∃ done todo rest, fs = done ++ todo ∧ tail = done.flatten ++ rest ∧
        (∀ f ∈ todo.head?, rest.length < f.length) ∧ (todo = [] → rest = []) ∧
        bnet_read_loop FLAG (pre ++ tail) fuel pre.length pre.length =
          some (frame_calls pre.length done, pre.length + done.flatten.length) := by
  intro fs
  induction fs with
  | nil =>
    intro _ pre tail more fuel h _ hfuel
    have ht : tail = [] := by
      simp at h; exact h.1
    subst ht
    obtain ⟨n, rfl⟩ : ∃ n, fuel = n + 1 := ⟨fuel - 1, by omega⟩
    refine ⟨[], [], [], rfl, rfl, by simp, fun _ => rfl, ?_⟩
    rw [bnet_read_loop_exit _ _ _ _ _ (by simp)]
    simp [frame_calls]
  | cons f fs ih =>
    intro hwf pre tail more fuel h hbound hfuel
    obtain ⟨n, rfl⟩ : ∃ n, fuel = n + 1 := ⟨fuel - 1, by omega⟩
    obtain ⟨hf4, hfs, hfl⟩ := hwf f (List.mem_cons_self _ _)
    rw [List.flatten_cons] at h hbound
    rw [List.length_append] at hbound
    by_cases h4 : 4 ≤ tail.length
    · have hs : (pre ++ tail).getD pre.length 0 = FLAG := by
        have := getD_at_frame pre tail more f fs.flatten 0 h (by omega) (by omega)
        rw [Nat.add_zero] at this
        rw [this, hfs]
      have hlen : read_u16 (pre ++ tail) (pre.length + 2) = f.length := by
        rw [read_u16_at_frame pre tail more f fs.flatten 2 h (by omega) (by omega), hfl]
      have hid : (pre ++ tail).getD (pre.length + 1) 0 = f.getD 1 0 :=
        getD_at_frame pre tail more f fs.flatten 1 h (by omega) (by omega)
      have hmod : (pre.length + f.length) % 65536 = pre.length + f.length :=
        Nat.mod_eq_of_lt (by omega)
      by_cases hc : f.length ≤ tail.length
      · obtain ⟨tail', rfl, hrest⟩ := frame_split tail more f fs.flatten h hc
        have hlt : tail'.length < n := by
          simp only [List.length_append] at hfuel; omega
        obtain ⟨done, todo, rest, hfs', htail', hhead, hnil, hloop⟩ :=
          ih (fun g hg => hwf g (List.mem_cons_of_mem _ hg)) (pre ++ f) tail' more n hrest
            (by simp only [List.length_append]; omega) hlt
        refine ⟨f :: done, todo, rest, by rw [hfs']; rfl, by rw [htail']; simp, hhead, hnil, ?_⟩
        rw [bnet_read_loop_dispatch _ _ _ _ _ (by simp only [List.length_append] at *; omega) hs
          (by rw [hlen, hmod]; simp only [List.length_append]; omega)]
        rw [hlen, hmod, hid]
        have hbuf : pre ++ (f ++ tail') = (pre ++ f) ++ tail' := by simp
        rw [hbuf, ← List.length_append pre f, hloop]
        simp [frame_calls, Nat.add_assoc]
      · refine ⟨[], f :: fs, tail, rfl, rfl, ?_, by simp, ?_⟩
        · intro g hg
          simp at hg; subst hg; omega
        · rw [bnet_read_loop_short _ _ _ _ _ (by rw [hlen, hmod]; simp only [List.length_append]; omega)]
          simp [frame_calls]
    · refine ⟨[], f :: fs, tail, rfl, rfl, ?_, by simp, ?_⟩
      · intro g hg
        simp at hg; subst hg; omega
      · rw [bnet_read_loop_exit _ _ _ _ _ (by simp only [List.length_append]; omega)]
        simp [frame_calls]

theorem frame_calls_bytes : ∀ (done : List (List Byte)) (pre rest : List Byte),
    (frame_calls pre.length done).map
        (fun c => (c.packet_id, c.bytes (pre ++ (done.flatten ++ rest)))) =
      done.map (fun f => (f.getD 1 0, f)) := by
  intro done
  induction done with
  | nil => intro pre rest; rfl
  | cons f ds ih =>
    intro pre rest
    simp only [frame_calls, List.map_cons, List.flatten_cons]
    congr 1
    · simp [ParseCall.bytes]
    · have h := ih (pre ++ f) rest
      simp only [List.length_append, List.append_assoc] at h ⊢
      exact h

theorem bnet_read_input_frames (FLAG : Byte) (fs : List (List Byte))
    (hwf : ∀ f ∈ fs, WellFormedFrame FLAG f) (inbuf chunk more : List Byte) (fuel : Nat)
    (h : (inbuf ++ chunk) ++ more = fs.flatten) (hbound : fs.flatten.length < 65536)
    (hfuel : (inbuf ++ chunk).length < fuel) :
    ∃ done todo rest, fs = done ++ todo ∧ inbuf ++ chunk = done.flatten ++ rest ∧
      (∀ f ∈ todo.head?, rest.length < f.length) ∧ (todo = [] → rest = []) ∧
      bnet_read_input FLAG fuel inbuf chunk = some (.returned (frame_calls 0 done) rest) := by
  obtain ⟨done, todo, rest, h1, h2, h3, h4, h5⟩ :=
    bnet_read_loop_frames FLAG fs hwf [] (inbuf ++ chunk) more fuel h (by simpa using hbound) hfuel
  refine ⟨done, todo, rest, h1, h2, h3, h4, ?_⟩
  simp only [List.nil_append, List.length_nil, Nat.zero_add] at h5
  simp only [bnet_read_input, h5, compact]
  have hlen : (inbuf ++ chunk).length = done.flatten.length + rest.length := by
    rw [h2, List.length_append]
  by_cases hr : rest = []
  · subst hr
    rw [if_neg (by simp [hlen])]
  · have : 0 < rest.length := List.length_pos.mpr hr
    rw [if_pos (by omega), if_pos (by omega), h2, List.drop_left]


theorem flatten_length_le_of_append (done todo : List (List Byte)) :
    todo.flatten.length ≤ (done ++ todo).flatten.length := by
  rw [List.flatten_append, List.length_append]; omega

theorem bnet_read_chunks_frames (FLAG : Byte) (fuel : Nat) :
    ∀ (chunks : List (List Byte)) (inbuf : List Byte) (fs : List (List Byte)),
      (∀ f ∈ fs, WellFormedFrame FLAG f) → inbuf ++ chunks.flatten = fs.flatten →
      (∀ f ∈ fs.head?, inbuf.length < f.length) →
      fs.flatten.length < 65536 → fs.flatten.length < fuel →
      bnet_read_chunks FLAG fuel inbuf chunks = some (fs.map (fun f => (f.getD 1 0, f)), []) := by
  intro chunks
  induction chunks with
  | nil =>
    intro inbuf fs _ h hhead _ _
    simp only [List.flatten_nil, List.append_nil] at h
    cases fs with
    | nil => subst h; rfl
    | cons f fs =>
      have := hhead f (by simp)
      rw [h, List.flatten_cons, List.length_append] at this
      omega
  | cons chunk chunks ih =>
    intro inbuf fs hwf h hhead hbound hfuel
    rw [List.flatten_cons, ← List.append_assoc] at h
    have hlen := congrArg List.length h
    rw [List.length_append] at hlen
    obtain ⟨done, todo, rest, h1, h2, h3, _, h5⟩ :=
      bnet_read_input_frames FLAG fs hwf inbuf chunk chunks.flatten fuel h hbound (by omega)
    subst h1
    have hrest : rest ++ chunks.flatten = todo.flatten := by
      rw [h2, List.flatten_append, List.append_assoc] at h
      exact List.append_cancel_left h
    have hle := flatten_length_le_of_append done todo
    have hrec := ih rest todo (fun g hg => hwf g (List.mem_append_right _ hg)) hrest h3
      (by omega) (by omega)
    simp only [bnet_read_chunks, h5, hrec]
    have hb := frame_calls_bytes done [] rest
    simp only [List.length_nil, List.nil_append] at hb
    rw [h2, hb, List.map_append]


/-- The loop dispatches every complete well-formed frame and stops at the first
frame boundary whose byte is not the sentinel. -/
theorem bnet_read_loop_desync (FLAG : Byte) :
    ∀ (fs : List (List Byte)), (∀ f ∈ fs, WellFormedFrame FLAG f) →
    ∀ (pre bad : List Byte) (fuel : Nat), bad.getD 0 0 ≠ FLAG →
      pre.length + fs.flatten.length < 65536 → fs.length < fuel →
      bnet_read_loop FLAG (pre ++ (fs.flatten ++ bad)) fuel pre.length pre.length =
        some (frame_calls pre.length fs, pre.length + fs.flatten.length) := by
  intro fs
  induction fs with
  | nil =>
    intro _ pre bad fuel hbad _ hfuel
    obtain ⟨n, rfl⟩ : ∃ n, fuel = n + 1 := ⟨fuel - 1, by simp at hfuel; omega⟩
    rw [bnet_read_loop_bad_sentinel]
    · simp [frame_calls]
    · rw [List.getD_append_right _ _ _ _ (Nat.le_refl _)]
      simpa using hbad
  | cons f fs ih =>
    intro hwf pre bad fuel hbad hbound hfuel
    obtain ⟨n, rfl⟩ : ∃ n, fuel = n + 1 := ⟨fuel - 1, by simp at hfuel; omega⟩
    obtain ⟨hf4, hfs, hfl⟩ := hwf f (List.mem_cons_self _ _)
    rw [List.flatten_cons, List.length_append] at hbound
    have htail : (f ++ fs.flatten ++ bad) ++ [] = f ++ (fs.flatten ++ bad) := by simp
    have hbuf : pre ++ ((f :: fs).flatten ++ bad) = pre ++ (f ++ fs.flatten ++ bad) := by simp
    have hl : 4 ≤ (f ++ fs.flatten ++ bad).length := by simp only [List.length_append]; omega
    have hs : (pre ++ (f ++ fs.flatten ++ bad)).getD pre.length 0 = FLAG := by
      have := getD_at_frame pre _ [] f (fs.flatten ++ bad) 0 htail (by omega) (by omega)
      rw [Nat.add_zero] at this
      rw [this, hfs]
    have hlen : read_u16 (pre ++ (f ++ fs.flatten ++ bad)) (pre.length + 2) = f.length := by
      rw [read_u16_at_frame pre _ [] f (fs.flatten ++ bad) 2 htail (by omega) (by omega), hfl]
    have hid : (pre ++ (f ++ fs.flatten ++ bad)).getD (pre.length + 1) 0 = f.getD 1 0 :=
      getD_at_frame pre _ [] f (fs.flatten ++ bad) 1 htail (by omega) (by omega)
    have hmod : (pre.length + f.length) % 65536 = pre.length + f.length :=
      Nat.mod_eq_of_lt (by omega)
    rw [hbuf, bnet_read_loop_dispatch _ _ _ _ _ (by simp only [List.length_append] at *; omega) hs
      (by rw [hlen, hmod]; simp only [List.length_append]; omega)]
    rw [hlen, hmod, hid]
    have hbuf2 : pre ++ (f ++ fs.flatten ++ bad) = (pre ++ f) ++ (fs.flatten ++ bad) := by simp
    have hrec := ih (fun g hg => hwf g (List.mem_cons_of_mem _ hg)) (pre ++ f) bad n hbad
      (by simp only [List.length_append]; omega) (by simp at hfuel; omega)
    rw [List.length_append] at hrec
    rw [hbuf2, hrec]
    simp [frame_calls, Nat.add_assoc]

/-! ## Stream reassembly: the claims -/

/-- C1: chunks whose concatenation is a sequence of well-formed chat frames of fewer than 65536
bytes in total, fed one at a time to `bnet_read_input` starting from an empty buffer, hand
`bnet_parse_packet` exactly those frames, once each and in order, with the id of byte 1 and
the bytes of the whole frame, wherever the chunk boundaries fall; the buffer is empty after
the last chunk.  Any fuel above the stream length is enough for every loop to finish. -/
theorem bnet_read_input_reassembles (FLAG : Byte) (frames chunks : List (List Byte)) (fuel : Nat)
    (hwf : ∀ f ∈ frames, WellFormedFrame FLAG f)
    (hcat : chunks.flatten = frames.flatten)
    (hbound : frames.flatten.length < 65536)
    (hfuel : frames.flatten.length < fuel) :
    bnet_read_chunks FLAG fuel [] chunks = some (frames.map (fun f => (f.getD 1 0, f)), []) := by
  apply bnet_read_chunks_frames FLAG fuel chunks [] frames hwf (by simpa using hcat) _ hbound hfuel
  intro f hf
  have h4 := (hwf f (List.mem_of_mem_head? hf)).1
  simp only [List.length_nil]
  omega

/-- Two frames split inside the first header, inside the first payload and inside the second
header. -/
theorem bnet_read_input_reassembles_witness :
    bnet_read_chunks 255 10 [] [[255, 7, 5], [0, 9, 255], [8, 4, 0]] =
      some ([(7, [255, 7, 5, 0, 9]), (8, [255, 8, 4, 0])], []) :=
  bnet_read_input_reassembles 255 [[255, 7, 5, 0, 9], [255, 8, 4, 0]]
    [[255, 7, 5], [0, 9, 255], [8, 4, 0]] 10 (by decide) (by decide) (by decide) (by decide)

/-- C2 (fails on the code): with the 8 buffered bytes `FLAG 0 4 0 FLAG 0 255 255` the running
total `inbuftouse` is `4`, then `(4 + 65535) % 65536 = 3`, which passes `inbuftouse <= inbufused`:
`bnet_parse_packet` is handed a frame at offset 4 of declared length 65535, far beyond the
8 bytes buffered, and `this_start` leaves the buffer.  The relay loop does the same on
`4 0 1 9 255 255 2`. -/
theorem read_input_dispatches_beyond_buffer (FLAG : Byte) :
    bnet_read_input FLAG 3 [] [FLAG, 0, 4, 0, FLAG, 0, 255, 255] =
        some (.overrun [⟨0, 0, 4⟩, ⟨0, 4, 65535⟩] 65539) ∧
      bnls_read_input 3 [] [4, 0, 1, 9, 255, 255, 2] =
        some (.overrun [⟨1, 0, 4⟩, ⟨2, 4, 65535⟩] 65539) := by
  refine ⟨?_, by decide⟩
  have e1 : read_u16 [FLAG, 0, 4, 0, FLAG, 0, 255, 255] (0 + 2) = 4 := by
    simp [read_u16]; decide
  have e2 : read_u16 [FLAG, 0, 4, 0, FLAG, 0, 255, 255] (4 + 2) = 65535 := by
    simp [read_u16]; decide
  have h1 := bnet_read_loop_dispatch FLAG [FLAG, 0, 4, 0, FLAG, 0, 255, 255] 2 0 0
    (by simp) rfl (by rw [e1]; simp)
  have h2 := bnet_read_loop_dispatch FLAG [FLAG, 0, 4, 0, FLAG, 0, 255, 255] 1 4 4
    (by simp) rfl (by rw [e2]; simp)
  have h3 := bnet_read_loop_exit FLAG [FLAG, 0, 4, 0, FLAG, 0, 255, 255] 0 65539 3
    (by simp)
  rw [e1] at h1
  rw [e2] at h2
  rw [show 4 + 65535 = 65539 from rfl, show (4 + 65535) % 65536 = 3 from rfl, h3] at h2
  rw [show 0 + 4 = 4 from rfl, show (0 + 4) % 65536 = 4 from rfl, h2] at h1
  simp only [bnet_read_input, List.nil_append, h1]
  rfl

/-- C3 (fails on the code): after the relay frames `5 0 1 9 9` and `255 255 2` (declared length
65535) every one of the 8 buffered bytes belongs to a dispatched frame, yet the call does not
end with an empty buffer: `this_start` is at offset 65540, beyond `inbuf + inbufused`, so the
subtraction and the `memmove` of bnet.c:328-329 work on bytes that were never received. -/
theorem bnls_read_input_leftover_overrun :
    bnls_read_input 3 [] [5, 0, 1, 9, 9, 255, 255, 2] =
        some (.overrun [⟨1, 0, 5⟩, ⟨2, 5, 65535⟩] 65540) ∧
      bnls_read_input 3 [] [5, 0, 1, 9, 9, 255, 255, 2] ≠
        some (.returned [⟨1, 0, 5⟩, ⟨2, 5, 65535⟩] []) := by
  decide

/-- C4 (as stated, fails): a chunk whose first byte is not the sentinel (255 here) makes
`bnet_input_cb` make no host call at all, so no connection error is reported and the session
goes on, and the four bytes stay in the read buffer. -/
theorem bnet_input_cb_bad_sentinel_silent :
    bnet_input_cb 255 1 [] (.data [0, 10, 4, 0]) = some ⟨[], some [0, 10, 4, 0]⟩ := by
  decide

/-- C4 (amended): when the buffered bytes are complete well-formed frames followed by a byte `b`
that is not the sentinel, `bnet_input_cb` only dispatches the frames before that boundary: it
reports no error, dispatches nothing from `b` on, and leaves `b` and all bytes after it at the
start of the read buffer. -/
theorem bnet_input_cb_desync_keeps_bytes (FLAG : Byte) (frames : List (List Byte))
    (inbuf chunk : List Byte) (b : Byte) (rest : List Byte) (fuel : Nat)
    (hwf : ∀ f ∈ frames, WellFormedFrame FLAG f)
    (hbuf : inbuf ++ chunk = frames.flatten ++ b :: rest) (hb : b ≠ FLAG)
    (hbound : frames.flatten.length < 65536) (hfuel : frames.length < fuel) :
    bnet_input_cb FLAG fuel inbuf (.data chunk) =
      some ⟨(frame_calls 0 frames).map .parse_packet, some (b :: rest)⟩ := by
  have h := bnet_read_loop_desync FLAG frames hwf [] (b :: rest) fuel (by simpa using hb)
    (by simpa using hbound) hfuel
  simp only [List.nil_append, List.length_nil, Nat.zero_add] at h
  simp only [bnet_input_cb, bnet_read_input, hbuf, h, compact]
  rw [if_pos (by simp), if_pos (by simp), List.drop_left]

/-- One complete frame, then a boundary byte `0`. -/
theorem bnet_input_cb_desync_keeps_bytes_witness :
    bnet_input_cb 255 2 [255, 7] (.data [4, 0, 0, 1, 2]) =
      some ⟨[.parse_packet ⟨7, 0, 4⟩], some [0, 1, 2]⟩ :=
  bnet_input_cb_desync_keeps_bytes 255 [[255, 7, 4, 0]] [255, 7] [4, 0, 0, 1, 2] 0 [1, 2] 2
    (by decide) (by decide) (by decide) (by decide) (by decide)

/-! ## Logon handshake: lemmas -/

theorem string_length_pos_iff (s : String) : 0 < s.length ↔ s ≠ "" := by
  cases s with
  | mk data =>
    cases data with
    | nil => simp [String.length]
    | cons a l =>
      simp [String.length]
      intro h
      have := congrArg String.data h
      simp at this

theorem sent_logged_in (K : BnetConsts) (bnet : BnetConnectionData) :
    sent (logged_in K bnet) =
      [(.sbnet, .BNET_SID_ENTERCHAT), (.sbnet, .BNET_SID_GETCHANNELLIST),
        (.sbnet, .BNET_SID_JOINCHANNEL)] := by
  cases h : bnet.create_if_dne <;>
    simp [logged_in, h, bnet_enter_chat, bnet_send_ENTERCHAT, bnet_send_GETCHANNELLIST,
      bnet_send_JOINCHANNEL, sent]

theorem errors_logged_in (K : BnetConsts) (bnet : BnetConnectionData) :
    errors (logged_in K bnet) = [] := by
  cases h : bnet.create_if_dne <;>
    simp [logged_in, h, bnet_enter_chat, bnet_send_ENTERCHAT, bnet_send_GETCHANNELLIST,
      bnet_send_JOINCHANNEL, errors]

theorem errors_account_logon (xsha1 : Sha1) (bnet : BnetConnectionData) :
    errors (bnet_account_logon xsha1 bnet) = [] := by
  unfold bnet_account_logon
  split <;> simp [bnet_send_LOGONRESPONSE2, bnls_send_CHOOSENLSREVISION, errors]

/-! ## Logon handshake: the claims -/

/-- C5: for every AUTH_CHECK result other than `BNET_SUCCESS` the handler makes exactly one host
call, a connection error of kind AUTHENTICATION_FAILED (so no frame is sent and no account logon
is started); for `BNET_SUCCESS` it reports no error and runs `bnet_account_logon` once, after the
progress update. -/
theorem bnet_recv_AUTH_CHECK_outcome (K : BnetConsts) (xsha1 : Sha1) (bnet : BnetConnectionData)
    (result : Nat) (extra_info : String) :
    (result ≠ K.BNET_SUCCESS →
      ∃ description, bnet_recv_AUTH_CHECK K xsha1 bnet result extra_info =
        [.connection_error .AUTHENTICATION_FAILED description]) ∧
    (result = K.BNET_SUCCESS →
      errors (bnet_recv_AUTH_CHECK K xsha1 bnet result extra_info) = [] ∧
      bnet_recv_AUTH_CHECK K xsha1 bnet result extra_info =
        .update_progress "Authenticating" .BNET_STEP_LOGON :: bnet_account_logon xsha1 bnet) := by
  constructor
  · intro h
    exact ⟨_, by unfold bnet_recv_AUTH_CHECK; rw [if_neg h]⟩
  · intro h
    simp only [bnet_recv_AUTH_CHECK, if_pos h, errors, errors_account_logon, and_self]

/-- A banned-key result and the success result at the documented constants. -/
theorem bnet_recv_AUTH_CHECK_outcome_witness :
    (∃ description, bnet_recv_AUTH_CHECK protocolConsts id sampleSession 0x202 "" =
        [.connection_error .AUTHENTICATION_FAILED description]) ∧
    (errors (bnet_recv_AUTH_CHECK protocolConsts id sampleSession 0 "") = [] ∧
      bnet_recv_AUTH_CHECK protocolConsts id sampleSession 0 "" =
        .update_progress "Authenticating" .BNET_STEP_LOGON :: bnet_account_logon id sampleSession) :=
  ⟨(bnet_recv_AUTH_CHECK_outcome protocolConsts id sampleSession 0x202 "").1 (by decide),
    (bnet_recv_AUTH_CHECK_outcome protocolConsts id sampleSession 0 "").2 rfl⟩

/-- C6: an AUTH_CHECK result with the key-error bit set, the version-error bit clear and the
key-banned sub-code ends in exactly one AUTHENTICATION_FAILED error whose text is
"CD-key is banned", prefixed by "Expansion " exactly when the key-number field is 1, followed by
" (extra info)." when the extra-info string is not empty and by "." otherwise; the text contains
"banned".  (The case labels of the `switch` are distinct constants, and a result with an error
bit is not `BNET_SUCCESS`.) -/
theorem bnet_recv_AUTH_CHECK_banned (K : BnetConsts) (xsha1 : Sha1) (bnet : BnetConnectionData)
    (result : Nat) (extra_info : String)
    (hne : result ≠ K.BNET_SUCCESS)
    (hver : result &&& K.BNET_AUTH_CHECK_VERERROR_MASK = 0)
    (hkey : result &&& K.BNET_AUTH_CHECK_KEYERROR_MASK ≠ 0)
    (hcode : result &&& K.BNET_AUTH_CHECK_ERROR_MASK = K.BNET_AUTH_CHECK_KEYERROR_BANNED)
    (hd1 : K.BNET_AUTH_CHECK_KEYERROR_BANNED ≠ K.BNET_AUTH_CHECK_KEYERROR_INVALID)
    (hd2 : K.BNET_AUTH_CHECK_KEYERROR_BANNED ≠ K.BNET_AUTH_CHECK_KEYERROR_INUSE) :
    ∃ description,
      bnet_recv_AUTH_CHECK K xsha1 bnet result extra_info =
        [.connection_error .AUTHENTICATION_FAILED description] ∧
      description =
        (if (result &&& K.BNET_AUTH_CHECK_KEYNUMBER_MASK) >>> 4 = 1 then "Expansion " else "") ++
          "CD-key is banned" ++ (if extra_info = "" then "." else " (" ++ extra_info ++ ").") ∧
      ∃ before after, description = before ++ "banned" ++ after := by
  have hreason : auth_check_reason K result =
      (if (result &&& K.BNET_AUTH_CHECK_KEYNUMBER_MASK) >>> 4 = 1 then "Expansion " else "") ++
        "CD-key is banned" := by
    simp only [auth_check_reason, hver, hcode, ne_eq, not_true_eq_false, if_false, hkey,
      not_false_eq_true, if_true, hd1, hd2]
  have hsuffix : (if extra_info.length > 0 then " (" ++ extra_info ++ ")." else ".") =
      (if extra_info = "" then "." else " (" ++ extra_info ++ ").") := by
    by_cases he : extra_info = ""
    · subst he; rfl
    · rw [if_pos ((string_length_pos_iff _).mpr he), if_neg he]
  refine ⟨_, by unfold bnet_recv_AUTH_CHECK; rw [if_neg hne], ?_, ?_⟩
  · rw [hreason, hsuffix]
  · rw [hreason]
    refine ⟨(if (result &&& K.BNET_AUTH_CHECK_KEYNUMBER_MASK) >>> 4 = 1 then "Expansion " else "")
      ++ "CD-key is ", if extra_info.length > 0 then " (" ++ extra_info ++ ")." else ".", ?_⟩
    rw [show "CD-key is banned" = "CD-key is " ++ "banned" from by decide]
    simp only [String.append_assoc]

/-- The expansion key (key number 1) banned, with extra info, at the documented constants. -/
theorem bnet_recv_AUTH_CHECK_banned_witness :
    ∃ description,
      bnet_recv_AUTH_CHECK protocolConsts id sampleSession 0x212 "Ribose" =
        [.connection_error .AUTHENTICATION_FAILED description] ∧
      description =
        (if (0x212 &&& protocolConsts.BNET_AUTH_CHECK_KEYNUMBER_MASK) >>> 4 = 1
          then "Expansion " else "") ++
          "CD-key is banned" ++ (if "Ribose" = "" then "." else " (" ++ "Ribose" ++ ").") ∧
      ∃ before after, description = before ++ "banned" ++ after :=
  bnet_recv_AUTH_CHECK_banned protocolConsts id sampleSession 0x212 "Ribose"
    (by decide) (by decide) (by decide) (by decide) (by decide) (by decide)

/-- C7: after AUTH_INFO stored the revision `login_type`, a successful AUTH_CHECK sends exactly
one frame: LOGONRESPONSE2 on the chat socket when the revision is 0, otherwise
CHOOSENLSREVISION, carrying the revision, on the relay socket and nothing on the chat socket. -/
theorem bnet_account_logon_one_frame (K : BnetConsts) (xsha1 : Sha1) (bnet : BnetConnectionData)
    (login_type server_cookie udp_cookie mpq_ft : Nat) (mpq_fn checksum_formula extra_info : String) :
    sent (bnet_recv_AUTH_CHECK K xsha1
        (bnet_recv_AUTH_INFO bnet login_type server_cookie udp_cookie mpq_ft mpq_fn
          checksum_formula).1 K.BNET_SUCCESS extra_info) =
      [if login_type = 0 then (.sbnet, .BNET_SID_LOGONRESPONSE2)
        else (.sbnls, .BNET_BNLS_CHOOSENLSREVISION)] ∧
    bnet_account_logon xsha1
        (bnet_recv_AUTH_INFO bnet login_type server_cookie udp_cookie mpq_ft mpq_fn
          checksum_formula).1 =
      (if login_type = 0 then
        bnet_send_LOGONRESPONSE2 xsha1 { bnet with
          nls_revision := login_type, server_cookie := server_cookie, udp_cookie := udp_cookie }
      else [.packet_send .sbnls .BNET_BNLS_CHOOSENLSREVISION [.dword login_type]]) := by
  by_cases h : login_type = 0 <;>
    simp [bnet_recv_AUTH_CHECK, bnet_recv_AUTH_INFO, bnet_account_logon, h,
      bnet_send_LOGONRESPONSE2, bnls_send_CHOOSENLSREVISION, sent]

/-- C8: on "account does not exist" the legacy handler sends CREATEACCOUNT2 (and reports nothing)
when the session was opened with `create_if_dne`, and otherwise reports the authentication error
"Account does not exist" and sends nothing; the AUTH_ACCOUNTLOGON handler reports that error and
sends nothing whatever `create_if_dne` is.  (The case labels differ from `BNET_SUCCESS`.) -/
theorem account_dne_outcome (K : BnetConsts) (xsha1 : Sha1) (bnet : BnetConnectionData)
    (s_and_B : List Byte)
    (hl : K.BNET_LOGONRESP2_DNE ≠ K.BNET_SUCCESS) (ha : K.BNET_AUTH_ACCOUNT_DNE ≠ K.BNET_SUCCESS) :
    (bnet_recv_LOGONRESPONSE2 K xsha1 bnet K.BNET_LOGONRESP2_DNE =
      if bnet.create_if_dne then
        [.packet_send .sbnet .BNET_SID_CREATEACCOUNT2
          [.blob (xsha1 bnet.password), .cstring bnet.username]]
      else [.connection_error .AUTHENTICATION_FAILED "Account does not exist"]) ∧
    (sent (bnet_recv_LOGONRESPONSE2 K xsha1 bnet K.BNET_LOGONRESP2_DNE) =
      if bnet.create_if_dne then [(.sbnet, .BNET_SID_CREATEACCOUNT2)] else []) ∧
    bnet_recv_AUTH_ACCOUNTLOGON K K.BNET_AUTH_ACCOUNT_DNE s_and_B =
      [.connection_error .AUTHENTICATION_FAILED "Account does not exist"] := by
  refine ⟨?_, ?_, ?_⟩
  · simp only [bnet_recv_LOGONRESPONSE2, if_neg hl, if_true, bnet_send_CREATEACCOUNT2]
  · cases h : bnet.create_if_dne <;>
      simp [bnet_recv_LOGONRESPONSE2, hl, h, bnet_send_CREATEACCOUNT2, sent]
  · simp only [bnet_recv_AUTH_ACCOUNTLOGON, if_neg ha, if_true]

/-- The registration session and the plain session at the documented constants. -/
theorem account_dne_outcome_witness :
    sent (bnet_recv_LOGONRESPONSE2 protocolConsts id
        { sampleSession with create_if_dne := true } 1) = [(.sbnet, .BNET_SID_CREATEACCOUNT2)] ∧
      bnet_recv_LOGONRESPONSE2 protocolConsts id sampleSession 1 =
        [.connection_error .AUTHENTICATION_FAILED "Account does not exist"] ∧
      bnet_recv_AUTH_ACCOUNTLOGON protocolConsts 1 [] =
        [.connection_error .AUTHENTICATION_FAILED "Account does not exist"] :=
  ⟨(account_dne_outcome protocolConsts id { sampleSession with create_if_dne := true } []
      (by decide) (by decide)).2.1,
    (account_dne_outcome protocolConsts id sampleSession [] (by decide) (by decide)).1,
    (account_dne_outcome protocolConsts id sampleSession [] (by decide) (by decide)).2.2⟩

/-- C9: each successful logon answer (LOGONRESPONSE2 success, AUTH_ACCOUNTLOGONPROOF success,
AUTH_ACCOUNTLOGONPROOF requires-email) reports no error and sends exactly three frames, all on
the chat socket: ENTERCHAT, GETCHANNELLIST, JOINCHANNEL, in this order.  (The requires-email
label differs from the two failure labels tested before it.) -/
theorem logon_success_enters_chat (K : BnetConsts) (xsha1 : Sha1) (bnet : BnetConnectionData)
    (h1 : K.BNET_AUTH_ACCOUNT_REQEMAIL ≠ K.BNET_AUTH_ACCOUNT_BADPW)
    (h2 : K.BNET_AUTH_ACCOUNT_REQEMAIL ≠ K.BNET_AUTH_ACCOUNT_CLOSED) :
    ∀ effects ∈ [bnet_recv_LOGONRESPONSE2 K xsha1 bnet K.BNET_SUCCESS,
        bnet_recv_AUTH_ACCOUNTLOGONPROOF K bnet K.BNET_SUCCESS,
        bnet_recv_AUTH_ACCOUNTLOGONPROOF K bnet K.BNET_AUTH_ACCOUNT_REQEMAIL],
      errors effects = [] ∧
      sent effects = [(.sbnet, .BNET_SID_ENTERCHAT), (.sbnet, .BNET_SID_GETCHANNELLIST),
        (.sbnet, .BNET_SID_JOINCHANNEL)] := by
  have hreq : bnet_recv_AUTH_ACCOUNTLOGONPROOF K bnet K.BNET_AUTH_ACCOUNT_REQEMAIL =
      logged_in K bnet := by
    simp only [bnet_recv_AUTH_ACCOUNTLOGONPROOF, if_neg h1, if_neg h2, if_true, ite_self]
  intro effects heff
  simp only [List.mem_cons, List.mem_singleton, List.not_mem_nil, or_false] at heff
  rcases heff with rfl | rfl | rfl
  · simp only [bnet_recv_LOGONRESPONSE2, if_true, errors_logged_in, sent_logged_in, and_self]
  · simp only [bnet_recv_AUTH_ACCOUNTLOGONPROOF, if_true, errors_logged_in, sent_logged_in,
      and_self]
  · simp only [hreq, errors_logged_in, sent_logged_in, and_self]

/-- The requires-email answer at the documented constants. -/
theorem logon_success_enters_chat_witness :
    errors (bnet_recv_AUTH_ACCOUNTLOGONPROOF protocolConsts sampleSession 14) = [] ∧
      sent (bnet_recv_AUTH_ACCOUNTLOGONPROOF protocolConsts sampleSession 14) =
        [(.sbnet, .BNET_SID_ENTERCHAT), (.sbnet, .BNET_SID_GETCHANNELLIST),
          (.sbnet, .BNET_SID_JOINCHANNEL)] :=
  logon_success_enters_chat protocolConsts id sampleSession (by decide) (by decide) _
    (List.mem_cons_of_mem _ (List.mem_cons_of_mem _ (List.mem_singleton_self _)))

/-- C10 (fails on the code): the `switch` of `bnet_recv_AUTH_ACCOUNTLOGONPROOF` has no `default`,
so a result that is none of its five case labels makes no host call at all: no error is
reported and chat is not entered. -/
theorem bnet_recv_AUTH_ACCOUNTLOGONPROOF_unlisted (K : BnetConsts) (bnet : BnetConnectionData)
    (result : Nat)
    (h0 : result ≠ K.BNET_SUCCESS) (h1 : result ≠ K.BNET_AUTH_ACCOUNT_BADPW)
    (h2 : result ≠ K.BNET_AUTH_ACCOUNT_CLOSED) (h3 : result ≠ K.BNET_AUTH_ACCOUNT_REQEMAIL)
    (h4 : result ≠ K.BNET_AUTH_ACCOUNT_ERROR) :
    bnet_recv_AUTH_ACCOUNTLOGONPROOF K bnet result = [] := by
  simp only [bnet_recv_AUTH_ACCOUNTLOGONPROOF, if_neg h0, if_neg h1, if_neg h2, if_neg h3,
    if_neg h4]

/-- The result 1 ("account does not exist" in the sibling handlers) at the documented
constants. -/
theorem bnet_recv_AUTH_ACCOUNTLOGONPROOF_unlisted_witness :
    bnet_recv_AUTH_ACCOUNTLOGONPROOF protocolConsts sampleSession 1 = [] :=
  bnet_recv_AUTH_ACCOUNTLOGONPROOF_unlisted protocolConsts sampleSession 1
    (by decide) (by decide) (by decide) (by decide) (by decide)

/-! ## The relay's version check: lemmas -/

theorem bnet_send_AUTH_CHECK_effects (K : BnetConsts) (key_decode : KeyDecode)
    (settings : AccountSettings) (random : Nat) (bnet : BnetConnectionData)
    (exe_version exe_checksum : Nat) (exe_info : String) :
    (∃ description, (bnet_send_AUTH_CHECK K key_decode settings random bnet exe_version
        exe_checksum exe_info).2 = [.connection_error .INVALID_SETTINGS description]) ∨
    (∃ payload, (bnet_send_AUTH_CHECK K key_decode settings random bnet exe_version
        exe_checksum exe_info).2 = [.packet_send .sbnet .BNET_SID_AUTH_CHECK payload]) := by
  unfold bnet_send_AUTH_CHECK
  simp only []
  split
  · exact Or.inl ⟨_, rfl⟩
  · exact Or.inr ⟨_, rfl⟩

/-! ## The relay's version check: the claims -/

/-- C11 (as stated, fails): a VERSIONCHECKEX2 response whose first dword is 0 makes the handler
report nothing and send nothing, it only sets `crev_complete`; and because it does, the relay
closing its connection afterwards is not reported either (the watcher is removed and the
socket closed). -/
theorem bnls_recv_VERSIONCHECKEX2_failure_silent :
    bnls_recv_VERSIONCHECKEX2 protocolConsts sampleKeyDecode sampleSettings 7 sampleSession
        0 0 0 "" 0 0 = ({ sampleSession with crev_complete := true }, []) ∧
      bnls_input_cb 1 { sampleSession with crev_complete := true } [] .closed =
        some ⟨[.input_remove .sbnls, .close .sbnls], some []⟩ := by
  decide

/-- C11 (amended): a VERSIONCHECKEX2 response that reports failure (first dword not 1) makes the
handler report no error and send nothing, it only marks the version check as complete, so that
the relay closing its connection afterwards is not reported either.  The AUTH_CHECK frame is sent to the chat server exactly when the response reports success and
`bnet_key_decode` accepts the configured CD-keys (for the key count of the product, the fresh
client cookie and the server cookie); in every other case no frame is sent.  With success and
accepted keys the only call is that one frame, with the cookie, the version, the checksum, the
key count, the spawn flag 0, the decoded keys, the executable information and the key owner;
with success and keys that are not accepted the only call is one INVALID_SETTINGS error. -/
theorem bnls_recv_VERSIONCHECKEX2_outcome (K : BnetConsts) (key_decode : KeyDecode)
    (settings : AccountSettings) (random : Nat) (bnet : BnetConnectionData)
    (success exe_version exe_checksum : Nat) (exe_info : String) (cookie version_code : Nat) :
    let out := bnls_recv_VERSIONCHECKEX2 K key_decode settings random bnet success exe_version
      exe_checksum exe_info cookie version_code
    let key_count := auth_check_key_count K bnet.game
    let decoded := key_decode key_count random bnet.server_cookie settings.key1 settings.key2
    let logon := { bnet with
      crev_complete := true, version_code := version_code, client_cookie := random }
    (success ≠ 1 → out = ({ bnet with crev_complete := true }, [])) ∧
    (∀ fuel inbuf, bnls_input_cb fuel out.1 inbuf .closed =
      some ⟨[.input_remove .sbnls, .close .sbnls], some inbuf⟩) ∧
    (sent out.2 = [(.sbnet, .BNET_SID_AUTH_CHECK)] ↔ success = 1 ∧ decoded.1 = true) ∧
    (¬ (success = 1 ∧ decoded.1 = true) → sent out.2 = []) ∧
    (success = 1 → decoded.1 = true →
      out = (logon, [.packet_send .sbnet .BNET_SID_AUTH_CHECK
        ([.dword random, .dword exe_version, .dword exe_checksum, .dword key_count, .dword 0] ++
          ([decoded.2.1, decoded.2.2].take key_count).map (fun k => Field.blob k.bytes) ++
          [.cstring exe_info,
            .cstring (if settings.key_owner.length = 0 then bnet.username
              else settings.key_owner)])])) ∧
    (success = 1 → decoded.1 = false →
      out = (logon, [.connection_error .INVALID_SETTINGS
        ("The provided " ++ (if decoded.2.1.length > 0 then "expansion " else "") ++
          "CD-key could not be decoded.")])) := by
  intro out key_count decoded logon
  by_cases hs : success = 1
  · cases hd : decoded.1
    · have hd' : (key_decode (auth_check_key_count K bnet.game) random bnet.server_cookie
          settings.key1 settings.key2).1 = false := hd
      have hout : out = (logon, [.connection_error .INVALID_SETTINGS
          ("The provided " ++ (if decoded.2.1.length > 0 then "expansion " else "") ++
            "CD-key could not be decoded.")]) := by
        simp only [out, logon, decoded, key_count, bnls_recv_VERSIONCHECKEX2,
          bnet_send_AUTH_CHECK, if_pos hs, hd']
        rfl
      rw [hout]
      simp [sent, hs, bnls_input_cb, logon]
    · have hd' : (key_decode (auth_check_key_count K bnet.game) random bnet.server_cookie
          settings.key1 settings.key2).1 = true := hd
      have hout : out = (logon, [.packet_send .sbnet .BNET_SID_AUTH_CHECK
          ([.dword random, .dword exe_version, .dword exe_checksum, .dword key_count,
              .dword 0] ++
            ([decoded.2.1, decoded.2.2].take key_count).map (fun k => Field.blob k.bytes) ++
            [.cstring exe_info,
              .cstring (if settings.key_owner.length = 0 then bnet.username
                else settings.key_owner)])]) := by
        simp only [out, logon, decoded, key_count, bnls_recv_VERSIONCHECKEX2,
          bnet_send_AUTH_CHECK, if_pos hs, hd']
        rfl
      rw [hout]
      simp [sent, hs, bnls_input_cb, logon]
  · have hout : out = ({ bnet with crev_complete := true }, []) := by
      simp only [out, bnls_recv_VERSIONCHECKEX2, if_neg hs]
    rw [hout]
    simp [sent, hs, bnls_input_cb]

/-- A failure response; a success response with a key the decoder accepts, which sends the
AUTH_CHECK frame; and a success response with a key the decoder does not accept, which reports
the error: at the documented constants, for the product with one key. -/
theorem bnls_recv_VERSIONCHECKEX2_outcome_witness :
    bnls_recv_VERSIONCHECKEX2 protocolConsts sampleKeyDecode sampleSettings 7 sampleSession
        0 0 0 "" 0 0 = ({ sampleSession with crev_complete := true }, []) ∧
      bnls_recv_VERSIONCHECKEX2 protocolConsts acceptingKeyDecode sampleKeySettings 21
          sampleSession 1 3 4 "v" 0 5 =
        ({ sampleSession with crev_complete := true, version_code := 5, client_cookie := 21 },
          [.packet_send .sbnet .BNET_SID_AUTH_CHECK
            [.dword 21, .dword 3, .dword 4, .dword 1, .dword 0,
              .blob [13, 0, 0, 0, 1, 0, 0, 0, 2, 0, 0, 0, 3, 0, 0, 0, 4],
              .cstring "v", .cstring "Owner"]]) ∧
      bnls_recv_VERSIONCHECKEX2 protocolConsts sampleKeyDecode sampleSettings 21
          sampleSession 1 3 4 "v" 0 5 =
        ({ sampleSession with crev_complete := true, version_code := 5, client_cookie := 21 },
          [.connection_error .INVALID_SETTINGS "The provided CD-key could not be decoded."]) :=
  ⟨(bnls_recv_VERSIONCHECKEX2_outcome protocolConsts sampleKeyDecode sampleSettings 7
      sampleSession 0 0 0 "" 0 0).1 (by decide),
    (bnls_recv_VERSIONCHECKEX2_outcome protocolConsts acceptingKeyDecode sampleKeySettings 21
      sampleSession 1 3 4 "v" 0 5).2.2.2.2.1 rfl rfl,
    (bnls_recv_VERSIONCHECKEX2_outcome protocolConsts sampleKeyDecode sampleSettings 21
      sampleSession 1 3 4 "v" 0 5).2.2.2.2.2 rfl rfl⟩


/-! ## Chat events: lemmas -/

theorem bnet_channel_user_compare_eq_zero (bcu : BnetChannelUser) (usr : String) :
    bnet_channel_user_compare bcu usr = 0 ↔ bnet_normalize bcu.username = bnet_normalize usr := by
  unfold bnet_channel_user_compare
  split <;> simp [*]

theorem find_channel_user_none (users : List BnetChannelUser) (who_n : String) :
    find_channel_user users who_n = none ↔
      ∀ m ∈ users, bnet_normalize m.username ≠ bnet_normalize who_n := by
  induction users with
  | nil => simp [find_channel_user]
  | cons bcu rest ih =>
    by_cases h : bnet_channel_user_compare bcu who_n = 0
    · have h' := (bnet_channel_user_compare_eq_zero bcu who_n).mp h
      simp [find_channel_user, h, h']
    · have h' : ¬ bnet_normalize bcu.username = bnet_normalize who_n :=
        fun e => h ((bnet_channel_user_compare_eq_zero bcu who_n).mpr e)
      simp [find_channel_user, h, h', ih]

theorem find_channel_user_some (users : List BnetChannelUser) (who_n : String) (i : Nat)
    (h : find_channel_user users who_n = some i) :
    ∃ bcu, users.get? i = some bcu ∧ bnet_normalize bcu.username = bnet_normalize who_n ∧
      ∀ j < i, ∀ m, users.get? j = some m →
        bnet_normalize m.username ≠ bnet_normalize who_n := by
  induction users generalizing i with
  | nil => simp [find_channel_user] at h
  | cons bcu rest ih =>
    by_cases hc : bnet_channel_user_compare bcu who_n = 0
    · simp only [find_channel_user, if_pos hc, Option.some.injEq] at h
      subst h
      exact ⟨bcu, rfl, (bnet_channel_user_compare_eq_zero bcu who_n).mp hc,
        fun j hj => absurd hj (Nat.not_lt_zero j)⟩
    · simp only [find_channel_user, if_neg hc, Option.map_eq_some'] at h
      obtain ⟨k, hk, rfl⟩ := h
      obtain ⟨m, hm, hmatch, hfirst⟩ := ih k hk
      refine ⟨m, by simpa using hm, hmatch, ?_⟩
      intro j hj x hx
      cases j with
      | zero =>
        simp only [List.get?_cons_zero, Option.some.injEq] at hx
        subst hx
        exact fun e => hc ((bnet_channel_user_compare_eq_zero _ who_n).mpr e)
      | succ j =>
        exact hfirst j (by omega) x (by simpa using hx)

theorem bnet_set_status_keeps (bnet : BnetConnectionData) (status : PurpleStatus) :
    (bnet_set_status bnet status).1.channel_users = bnet.channel_users ∧
    (bnet_set_status bnet status).1.product_id = bnet.product_id ∧
    (bnet_set_status bnet status).1.first_join = bnet.first_join ∧
    (bnet_set_status bnet status).1.is_online = bnet.is_online ∧
    (bnet_set_status bnet status).1.channel_id = bnet.channel_id := by
  unfold bnet_set_status bnet_set_away bnet_set_dnd
  simp only []
  split_ifs <;> simp

theorem chatevent_online_keeps (host : HostView) (bnet : BnetConnectionData) :
    (chatevent_online host bnet).1.channel_users = bnet.channel_users ∧
    (chatevent_online host bnet).1.product_id = bnet.product_id ∧
    (chatevent_online host bnet).1.channel_id = bnet.channel_id ∧
    (chatevent_online host bnet).1.is_online = true ∧
    (chatevent_online host bnet).1.first_join =
      (if bnet.is_online then bnet.first_join else true) := by
  unfold chatevent_online
  cases h : bnet.is_online
  · have hk := bnet_set_status_keeps { bnet with is_online := true, first_join := true }
      host.status
    simp [hk]
  · simp [h]

theorem bnet_d2_normalize_congr (K : BnetConsts) (bnet bnet' : BnetConnectionData) (s : String)
    (h : bnet'.product_id = bnet.product_id) :
    bnet_d2_normalize K bnet' s = bnet_d2_normalize K bnet s := by
  simp only [bnet_d2_normalize, bnet_is_d2, h]

theorem chat_notifications_append (a b : List Effect) :
    chat_notifications (a ++ b) = chat_notifications a ++ chat_notifications b := by
  induction a with
  | nil => rfl
  | cons e rest ih => cases e <;> simp [chat_notifications, ih]

theorem chat_notifications_set_status (bnet : BnetConnectionData) (status : PurpleStatus) :
    chat_notifications (bnet_set_status bnet status).2 = [] := by
  unfold bnet_set_status bnet_set_away bnet_set_dnd
  simp only []
  split_ifs <;> simp [bnet_send_CHATCOMMAND, chat_notifications]

theorem chat_notifications_online (host : HostView) (bnet : BnetConnectionData) :
    chat_notifications (chatevent_online host bnet).2 = [] := by
  unfold chatevent_online
  split
  · simp [chat_notifications_append, chat_notifications, bnet_send_FRIENDSLIST,
      chat_notifications_set_status]
  · rfl

theorem chatevent_CHANNEL_spec (str_hash : String → Nat) (bnet : BnetConnectionData)
    (chat : Bool) (flags : Nat) (what : String) :
    let r := chatevent_CHANNEL str_hash bnet chat flags what
    let norm := bnet_normalize what
    r.1.channel_id = str_hash norm ∧ r.1.first_join = false ∧ r.1.channel_users = [] ∧
    chat_notifications r.2 =
      (if bnet.first_join then []
        else if bnet.channel_id ≠ 0 then [.serv_got_chat_left bnet.channel_id] else []) ++
      (if bnet.first_join = true ∧
          ¬ (norm.length ≥ 6 ∧ norm.data.take 5 = ['c', 'l', 'a', 'n', ' ']) then []
        else [.serv_got_joined_chat (str_hash norm) what]) := by
  intro r norm
  refine ⟨rfl, ?_, rfl, ?_⟩
  · simp only [r, chatevent_CHANNEL]
    cases hf : bnet.first_join <;> simp [hf]
  · simp only [r, norm, chatevent_CHANNEL, chat_notifications_append]
    cases hf : bnet.first_join <;> cases chat <;>
      by_cases hc : bnet.channel_id = 0 <;>
      by_cases hn : (bnet_normalize what).length ≥ 6 ∧
        (bnet_normalize what).data.take 5 = ['c', 'l', 'a', 'n', ' '] <;>
      simp [hf, hc, hn, chat_notifications]

theorem set_same_key {α β : Type} (f : α → β) :
    ∀ (l : List α) (i : Nat) (x y : α), l.get? i = some y → f x = f y →
      (l.set i x).map f = l.map f := by
  intro l
  induction l with
  | nil => intro i x y h; simp at h
  | cons a rest ih =>
    intro i x y h hf
    cases i with
    | zero =>
      simp only [List.get?_cons_zero, Option.some.injEq] at h
      subst h
      simp [hf]
    | succ i =>
      simp only [List.get?_cons_succ] at h
      simp [ih i x y h hf]

theorem unique_members_set (users : List BnetChannelUser) (i : Nat) (bcu : BnetChannelUser)
    (flags ping : Nat) (what : String) (h : users.get? i = some bcu)
    (hu : unique_members users) :
    unique_members (users.set i (update_channel_user bcu flags ping what)) := by
  unfold unique_members at *
  have hk := set_same_key (fun m : BnetChannelUser => bnet_normalize m.username) users i
    (update_channel_user bcu flags ping what) bcu h rfl
  rw [hk]
  exact hu

theorem unique_members_append (users : List BnetChannelUser) (who_n what : String)
    (flags ping : Nat) (h : find_channel_user users who_n = none) (hu : unique_members users) :
    unique_members (users ++ [new_channel_user who_n what flags ping]) := by
  unfold unique_members at *
  rw [List.map_append, List.nodup_append]
  refine ⟨hu, by simp, ?_⟩
  intro x hx hx'
  simp only [List.map_cons, List.map_nil, List.mem_singleton, new_channel_user] at hx'
  obtain ⟨m, hm, rfl⟩ := List.mem_map.mp hx
  exact (find_channel_user_none users who_n).mp h m hm hx'

theorem unique_members_eraseIdx (users : List BnetChannelUser) (i : Nat)
    (hu : unique_members users) : unique_members (users.eraseIdx i) := by
  unfold unique_members at *
  exact hu.sublist ((List.eraseIdx_sublist users i).map _)

theorem chatevent_SHOWUSER_users (bnet : BnetConnectionData) (chat : Bool) (who_n : String)
    (flags ping : Nat) (what : String) :
    (chatevent_SHOWUSER bnet chat who_n flags ping what).1.channel_users =
      match find_channel_user bnet.channel_users who_n with
      | some li =>
        match bnet.channel_users.get? li with
        | some bcu => bnet.channel_users.set li (update_channel_user bcu flags ping what)
        | none => bnet.channel_users
      | none => bnet.channel_users ++ [new_channel_user who_n what flags ping] := by
  unfold chatevent_SHOWUSER
  split
  · split <;> rfl
  · rfl

theorem chatevent_USERFLAGS_users (bnet : BnetConnectionData) (chat : Bool) (who_n : String)
    (flags ping : Nat) (what : String) :
    (chatevent_USERFLAGS bnet chat who_n flags ping what).1.channel_users =
      if chat then
        match find_channel_user bnet.channel_users who_n with
        | some li =>
          match bnet.channel_users.get? li with
          | some bcu => bnet.channel_users.set li (update_channel_user bcu flags ping what)
          | none => bnet.channel_users
        | none => bnet.channel_users
      else bnet.channel_users := by
  unfold chatevent_USERFLAGS
  cases chat
  · rfl
  · simp only [if_true]
    split
    · split <;> rfl
    · rfl

theorem chatevent_LEAVE_users (bnet : BnetConnectionData) (chat : Bool) (who_n : String) :
    (chatevent_LEAVE bnet chat who_n).1.channel_users =
      if chat then
        match find_channel_user bnet.channel_users who_n with
        | some li => bnet.channel_users.eraseIdx li
        | none => bnet.channel_users
      else bnet.channel_users := by
  unfold chatevent_LEAVE
  cases chat
  · rfl
  · simp only [if_true]
    split <;> rfl

/-- The membership list after one event of the five membership kinds, in terms of the list
before it, whether `chat` is not `NULL`, and the normalized actor name. -/
theorem roster_event_users (K : BnetConsts) (str_hash : String → Nat) (host : HostView)
    (bnet : BnetConnectionData) (ev : ChatEvent) :
    let chat := chatevent_chat host (chatevent_online host bnet).1
    let who_n := bnet_d2_normalize K bnet ev.who
    let users' := (bnet_recv_CHATEVENT K str_hash host bnet ev).1.channel_users
    (ev.id = .BNET_EID_SHOWUSER →
      users' = (chatevent_SHOWUSER bnet chat who_n ev.flags ev.ping ev.what).1.channel_users) ∧
    (ev.id = .BNET_EID_JOIN →
      users' = bnet.channel_users ++ [new_channel_user who_n ev.what ev.flags ev.ping]) ∧
    (ev.id = .BNET_EID_LEAVE → users' = (chatevent_LEAVE bnet chat who_n).1.channel_users) ∧
    (ev.id = .BNET_EID_USERFLAGS →
      users' = (chatevent_USERFLAGS bnet chat who_n ev.flags ev.ping ev.what).1.channel_users) ∧
    (ev.id = .BNET_EID_CHANNEL → users' = []) := by
  intro chat who_n users'
  obtain ⟨hu, hp, -, -, -⟩ := chatevent_online_keeps host bnet
  have hn : bnet_d2_normalize K (chatevent_online host bnet).1 ev.who = who_n :=
    bnet_d2_normalize_congr K bnet _ ev.who hp
  refine ⟨?_, ?_, ?_, ?_, ?_⟩ <;> intro hid
  · simp only [users', bnet_recv_CHATEVENT, hid, hn, chatevent_SHOWUSER_users, hu]
  · simp only [users', bnet_recv_CHATEVENT, hid, hn, chatevent_JOIN, hu]
  · simp only [users', bnet_recv_CHATEVENT, hid, hn, chatevent_LEAVE_users, hu]
  · simp only [users', bnet_recv_CHATEVENT, hid, hn, chatevent_USERFLAGS_users, hu]
  · simp only [users', bnet_recv_CHATEVENT, hid]
    exact (chatevent_CHANNEL_spec str_hash _ _ ev.flags ev.what).2.2.1

theorem roster_event_unique (K : BnetConsts) (str_hash : String → Nat) (host : HostView)
    (bnet : BnetConnectionData) (ev : ChatEvent) (hid : roster_event ev.id)
    (hj : ev.id = .BNET_EID_JOIN →
      find_channel_user bnet.channel_users (bnet_d2_normalize K bnet ev.who) = none)
    (hu : unique_members bnet.channel_users) :
    unique_members (bnet_recv_CHATEVENT K str_hash host bnet ev).1.channel_users := by
  obtain ⟨h1, h2, h3, h4, h5⟩ := roster_event_users K str_hash host bnet ev
  rcases hid with hid | hid | hid | hid | hid
  · rw [h1 hid, chatevent_SHOWUSER_users]
    split
    · split
      · exact unique_members_set _ _ _ _ _ _ ‹_› hu
      · exact hu
    · exact unique_members_append _ _ _ _ _ ‹_› hu
  · rw [h2 hid]
    exact unique_members_append _ _ _ _ _ (hj hid) hu
  · rw [h3 hid, chatevent_LEAVE_users]
    split
    · split
      · exact unique_members_eraseIdx _ _ hu
      · exact hu
    · exact hu
  · rw [h4 hid, chatevent_USERFLAGS_users]
    split
    · split
      · split
        · exact unique_members_set _ _ _ _ _ _ ‹_› hu
        · exact hu
      · exact hu
    · exact hu
  · rw [h5 hid]
    exact List.nodup_nil

/-! ## Chat events: the claims -/

/-- C12 (as stated, fails): in a session whose first channel is named "glidpk", a name whose
normalized form `g_str_hash` maps to 0, the second channel-changed event produces the "joined"
notification for the new channel but no "left" notification for the previous one: the code
takes the identity 0 for "no channel". -/
theorem channel_changed_without_left :
    g_str_hash (bnet_normalize "glidpk") = 0 ∧
    chat_notifications (bnet_recv_CHATEVENTs protocolConsts g_str_hash sampleSession
        [(sampleHost false, ⟨.BNET_EID_CHANNEL, 0, 0, "", "glidpk"⟩),
          (sampleHost false, ⟨.BNET_EID_CHANNEL, 0, 0, "", "Other"⟩)]).2 =
      [.serv_got_joined_chat (g_str_hash "other") "Other"] := by
  decide

/-- C12 (amended): a channel-changed event sets the channel identity to the hash of the normalized
channel name.  The first one of a session (the session is not online yet, or `first_join` is
still set) produces no "left" notification, and a "joined" notification exactly when the
normalized name is at least 6 characters long and begins with "clan ".  Every later one
produces the "joined" notification for the new identity, preceded by the "left" notification
for the previous identity when that identity is not 0. -/
theorem channel_changed_notifications (K : BnetConsts) (str_hash : String → Nat)
    (host : HostView) (bnet : BnetConnectionData) (flags ping : Nat) (who what : String) :
    let r := bnet_recv_CHATEVENT K str_hash host bnet ⟨.BNET_EID_CHANNEL, flags, ping, who, what⟩
    let norm := bnet_normalize what
    (r.1.channel_id = str_hash norm ∧ r.1.first_join = false) ∧
    (bnet.is_online = false ∨ bnet.first_join = true →
      chat_notifications r.2 =
        if norm.length ≥ 6 ∧ norm.data.take 5 = ['c', 'l', 'a', 'n', ' '] then
          [.serv_got_joined_chat (str_hash norm) what]
        else []) ∧
    (bnet.is_online = true → bnet.first_join = false →
      chat_notifications r.2 =
        (if bnet.channel_id ≠ 0 then [.serv_got_chat_left bnet.channel_id] else []) ++
          [.serv_got_joined_chat (str_hash norm) what]) := by
  intro r norm
  obtain ⟨-, -, hc, -, hf⟩ := chatevent_online_keeps host bnet
  obtain ⟨s1, s2, -, s4⟩ := chatevent_CHANNEL_spec str_hash (chatevent_online host bnet).1
    (chatevent_chat host (chatevent_online host bnet).1) flags what
  have hr : chat_notifications r.2 = chat_notifications (chatevent_CHANNEL str_hash
      (chatevent_online host bnet).1 (chatevent_chat host (chatevent_online host bnet).1)
      flags what).2 := by
    simp only [r, bnet_recv_CHATEVENT, chat_notifications_append, chat_notifications_online,
      List.nil_append]
  refine ⟨⟨s1, s2⟩, ?_, ?_⟩
  · intro h
    have hfj : (chatevent_online host bnet).1.first_join = true := by
      rw [hf]
      rcases h with h | h <;> simp [h]
    rw [hr, s4, hfj]
    by_cases hn : (bnet_normalize what).length ≥ 6 ∧
        (bnet_normalize what).data.take 5 = ['c', 'l', 'a', 'n', ' ']
    · simp [norm, hn]
    · simp [norm, hn]
  · intro ho hj
    have hfj : (chatevent_online host bnet).1.first_join = false := by
      rw [hf, ho, hj]; rfl
    rw [hr, s4, hfj, hc]
    simp

/-- The first and the second channel-changed event of a session. -/
theorem channel_changed_notifications_witness :
    chat_notifications (bnet_recv_CHATEVENT protocolConsts g_str_hash (sampleHost false)
        sampleSession ⟨.BNET_EID_CHANNEL, 0, 0, "", "Pidgin"⟩).2 = [] ∧
    chat_notifications (bnet_recv_CHATEVENT protocolConsts g_str_hash (sampleHost true)
        { sampleSession with is_online := true, channel_id := 77 }
        ⟨.BNET_EID_CHANNEL, 0, 0, "", "Clan ABC"⟩).2 =
      [.serv_got_chat_left 77, .serv_got_joined_chat (g_str_hash "clan abc") "Clan ABC"] :=
  ⟨((channel_changed_notifications protocolConsts g_str_hash (sampleHost false) sampleSession
      0 0 "" "Pidgin").2.1 (Or.inl rfl)).trans (by decide),
    ((channel_changed_notifications protocolConsts g_str_hash (sampleHost true)
      { sampleSession with is_online := true, channel_id := 77 } 0 0 "" "Clan ABC").2.2
        rfl rfl).trans (by decide)⟩

/-- C13 (fails on the code): in the first channel of a session, whose "joined" notification was
suppressed so that the host has no conversation for it, a join event for "Bob" followed by a
leave event for "bob" leaves "Bob" in the membership list: the removal is inside
`if (chat != NULL)`. -/
theorem leave_without_chat_keeps_member :
    (bnet_recv_CHATEVENTs protocolConsts g_str_hash sampleSession
        [(sampleHost false, ⟨.BNET_EID_CHANNEL, 0, 0, "", "Pidgin"⟩),
          (sampleHost false, ⟨.BNET_EID_JOIN, 0, 20, "Bob", ""⟩),
          (sampleHost false, ⟨.BNET_EID_LEAVE, 0, 20, "bob", ""⟩)]).1.channel_users =
      [⟨"Bob", "", 0, 20, false⟩] := by
  decide

/-- With the channel's conversation open, a join followed by a leave of the same name in any
letter case gives back the list as it was, and a leave that matches no member changes nothing
(the behaviour C13 asks for). -/
theorem join_leave_with_chat (bnet : BnetConnectionData) (who1 who2 : String)
    (flags ping : Nat) (what : String)
    (hsame : bnet_normalize who1 = bnet_normalize who2) :
    (chatevent_LEAVE (chatevent_JOIN { bnet with channel_users := [] } true who1 flags ping
        what).1 true who2).1.channel_users = [] ∧
    (find_channel_user bnet.channel_users who2 = none →
      (chatevent_LEAVE bnet true who2).1.channel_users = bnet.channel_users) := by
  constructor
  · simp [chatevent_LEAVE_users, chatevent_JOIN, new_channel_user, find_channel_user,
      bnet_channel_user_compare, hsame]
  · intro h
    simp [chatevent_LEAVE_users, h]

/-- C14: a show-existing-user event whose normalized actor name matches a member, compared
after ASCII lower-casing, updates the first such member in place: its flags and ping become the
event's, its stats blob becomes the event text unless that is empty, and the list keeps its
length and every other entry; when no member matches, one member with the event's name,
stats, flags and ping is appended at the end. -/
theorem show_user_upsert (K : BnetConsts) (str_hash : String → Nat) (host : HostView)
    (bnet : BnetConnectionData) (flags ping : Nat) (who what who_n : String)
    (users' : List BnetChannelUser)
    (hn : who_n = bnet_d2_normalize K bnet who)
    (hu : users' = (bnet_recv_CHATEVENT K str_hash host bnet
      ⟨.BNET_EID_SHOWUSER, flags, ping, who, what⟩).1.channel_users) :
    ((∃ m ∈ bnet.channel_users, bnet_normalize m.username = bnet_normalize who_n) →
      ∃ i bcu, bnet.channel_users.get? i = some bcu ∧
        bnet_normalize bcu.username = bnet_normalize who_n ∧
        (∀ j < i, ∀ m, bnet.channel_users.get? j = some m →
          bnet_normalize m.username ≠ bnet_normalize who_n) ∧
        users' = bnet.channel_users.set i ⟨bcu.username,
          if what = "" then bcu.stats_data else what, flags, ping, bcu.hidden⟩ ∧
        users'.length = bnet.channel_users.length ∧
        ∀ j, j ≠ i → users'.get? j = bnet.channel_users.get? j) ∧
    ((∀ m ∈ bnet.channel_users, bnet_normalize m.username ≠ bnet_normalize who_n) →
      users' = bnet.channel_users ++ [⟨who_n, what, flags, ping, false⟩]) := by
  subst hn
  have hu2 : users' = (chatevent_SHOWUSER bnet
      (chatevent_chat host (chatevent_online host bnet).1) (bnet_d2_normalize K bnet who)
      flags ping what).1.channel_users :=
    hu.trans ((roster_event_users K str_hash host bnet
      ⟨.BNET_EID_SHOWUSER, flags, ping, who, what⟩).1 rfl)
  rw [chatevent_SHOWUSER_users] at hu2
  constructor
  · intro hex
    cases hfind : find_channel_user bnet.channel_users (bnet_d2_normalize K bnet who) with
    | none =>
      obtain ⟨m, hm, hmatch⟩ := hex
      exact absurd hmatch ((find_channel_user_none _ _).mp hfind m hm)
    | some i =>
      obtain ⟨bcu, hget, hmatch, hfirst⟩ := find_channel_user_some _ _ _ hfind
      have hupd : update_channel_user bcu flags ping what =
          ⟨bcu.username, if what = "" then bcu.stats_data else what, flags, ping,
            bcu.hidden⟩ := by
        unfold update_channel_user
        by_cases hw : what = ""
        · subst hw; rfl
        · simp [hw, (string_length_pos_iff what).mpr hw]
      rw [hfind] at hu2
      simp only [hget, hupd] at hu2
      refine ⟨i, bcu, hget, hmatch, hfirst, hu2, ?_, ?_⟩
      · rw [hu2, List.length_set]
      · intro j hj
        rw [hu2]
        simp only [List.get?_eq_getElem?, List.getElem?_set]
        rw [if_neg (Ne.symm hj)]
  · intro hall
    rw [(find_channel_user_none _ _).mpr hall] at hu2
    exact hu2

/-- A member "Bob" is updated in place by a show-user event for "BOB". -/
theorem show_user_upsert_witness :
    ∃ i bcu, [(⟨"Bob", "old", 0, 5, false⟩ : BnetChannelUser)].get? i = some bcu ∧
      bnet_normalize bcu.username = bnet_normalize "BOB" ∧
      (∀ j < i, ∀ m, [(⟨"Bob", "old", 0, 5, false⟩ : BnetChannelUser)].get? j = some m →
        bnet_normalize m.username ≠ bnet_normalize "BOB") ∧
      [(⟨"Bob", "old", 2, 30, false⟩ : BnetChannelUser)] =
        [(⟨"Bob", "old", 0, 5, false⟩ : BnetChannelUser)].set i ⟨bcu.username,
          if "" = "" then bcu.stats_data else "", 2, 30, bcu.hidden⟩ ∧
      [(⟨"Bob", "old", 2, 30, false⟩ : BnetChannelUser)].length = 1 ∧
      ∀ j, j ≠ i → [(⟨"Bob", "old", 2, 30, false⟩ : BnetChannelUser)].get? j =
        [(⟨"Bob", "old", 0, 5, false⟩ : BnetChannelUser)].get? j :=
  (show_user_upsert protocolConsts g_str_hash (sampleHost false)
    { sampleSession with channel_users := [⟨"Bob", "old", 0, 5, false⟩] } 2 30 "BOB" "" "BOB"
    [⟨"Bob", "old", 2, 30, false⟩] (by decide) (by decide)).1
    ⟨⟨"Bob", "old", 0, 5, false⟩, by decide, by decide⟩

/-- C15 (as stated, fails): two join events for "bob" and "Bob" leave two members with the same
normalized username, because a join event appends without looking for the name. -/
theorem join_twice_duplicates :
    (bnet_recv_CHATEVENTs protocolConsts g_str_hash sampleSession
        [(sampleHost true, ⟨.BNET_EID_JOIN, 0, 20, "bob", ""⟩),
          (sampleHost true, ⟨.BNET_EID_JOIN, 0, 25, "Bob", ""⟩)]).1.channel_users =
      [⟨"bob", "", 0, 20, false⟩, ⟨"Bob", "", 0, 25, false⟩] ∧
    bnet_normalize "bob" = bnet_normalize "Bob" ∧
    ¬ unique_members [⟨"bob", "", 0, 20, false⟩, ⟨"Bob", "", 0, 25, false⟩] := by
  refine ⟨by decide, by decide, ?_⟩
  unfold unique_members
  decide

/-- C15 (amended): starting from a membership list without two members of the same normalized
username (the empty list for one), every sequence of show-existing-user, join, leave,
user-flags-changed and channel-changed events in which no join event names a user who matches
a member at that time leaves a list without two members of the same normalized username. -/
theorem unique_members_invariant (K : BnetConsts) (str_hash : String → Nat) :
    ∀ (events : List (HostView × ChatEvent)) (bnet : BnetConnectionData),
      unique_members bnet.channel_users → joins_fresh K str_hash bnet events →
      unique_members (bnet_recv_CHATEVENTs K str_hash bnet events).1.channel_users := by
  intro events
  induction events with
  | nil => intro bnet hu _; exact hu
  | cons e rest ih =>
    intro bnet hu hfresh
    obtain ⟨host, ev⟩ := e
    obtain ⟨hid, hj, hrest⟩ := hfresh
    exact ih _ (roster_event_unique K str_hash host bnet ev hid hj hu) hrest

/-- A session in which "Bob" is shown, joins again after leaving, and changes flags. -/
theorem unique_members_invariant_witness :
    unique_members (bnet_recv_CHATEVENTs protocolConsts g_str_hash
      { sampleSession with is_online := true, channel_id := 77 }
      [(sampleHost true, ⟨.BNET_EID_SHOWUSER, 0, 20, "Bob", ""⟩),
        (sampleHost true, ⟨.BNET_EID_LEAVE, 0, 20, "bob", ""⟩),
        (sampleHost true, ⟨.BNET_EID_JOIN, 0, 20, "BOB", ""⟩),
        (sampleHost true, ⟨.BNET_EID_USERFLAGS, 2, 20, "bob", ""⟩)]).1.channel_users :=
  unique_members_invariant protocolConsts g_str_hash _ _ List.nodup_nil (by
    simp only [joins_fresh, roster_event]
    decide)

/-- C16 (fails on the code): in the first channel of a session, for which the host has no
conversation, a user-flags-changed event for the member "Bob" leaves the member's flags and
ping as they were: the update is inside `if (chat != NULL)`. -/
theorem userflags_without_chat_ignored :
    (bnet_recv_CHATEVENTs protocolConsts g_str_hash sampleSession
        [(sampleHost false, ⟨.BNET_EID_CHANNEL, 0, 0, "", "Pidgin"⟩),
          (sampleHost false, ⟨.BNET_EID_SHOWUSER, 0, 20, "Bob", "stats"⟩),
          (sampleHost false, ⟨.BNET_EID_USERFLAGS, 2, 35, "Bob", ""⟩)]).1.channel_users =
      [⟨"Bob", "stats", 0, 20, false⟩] := by
  decide

/-! ## Informational texts: lemmas -/

theorem reply_count_append (a b : List Effect) :
    reply_count (a ++ b) = reply_count a + reply_count b := by
  induction a with
  | nil => simp [reply_count]
  | cons e rest ih =>
    cases e <;> simp [reply_count, ih] <;> omega

theorem replied_once_mono (p q : InfoPass)
    (hc : reply_count q.effects = reply_count p.effects)
    (hh : p.handled = true → q.handled = true) : replied_once p → replied_once q := by
  intro h
  rcases h with h | ⟨h1, h2⟩
  · exact Or.inl (hc.trans h)
  · exact Or.inr ⟨hc.trans h1, hh h2⟩

theorem info_buddy_status_once (p : InfoPass) (user_n : String) (status : BnetStatus)
    (msg : String) : replied_once p → replied_once (info_buddy_status p user_n status msg) := by
  apply replied_once_mono
  · unfold info_buddy_status
    split
    · split <;> simp [reply_count_append, reply_count]
    · rfl
  · intro hh
    unfold info_buddy_status
    split
    · split <;> simp [hh]
    · exact hh

theorem info_lookup_answer_once (K : BnetConsts) (p : InfoPass) (user_n label msg : String) :
    replied_once p → replied_once (info_lookup_answer K p user_n label msg) := by
  intro h
  unfold info_lookup_answer
  split
  · rename_i hc
    rcases h with h | ⟨-, h2⟩
    · right
      simp [reply_count_append, reply_count, h]
    · simp [h2] at hc
  · exact h

theorem info_whois_once (K : BnetConsts) (what : String) (p : InfoPass) :
    replied_once p → replied_once (info_whois K what p) := by
  intro h
  unfold info_whois
  split
  · exact h
  · simp only []
    split
    · rename_i hc
      rcases h with h | ⟨-, h2⟩
      · right
        simp [reply_count_append, reply_count, h]
      · exfalso
        simp only [Bool.and_eq_true, Bool.not_eq_true'] at hc
        have h1 := hc.1
        split at h1
        · split at h1
          · split at h1
            · exact absurd h1 (by simp)
            · rw [h2] at h1; exact absurd h1 (by simp)
          · rw [h2] at h1; exact absurd h1 (by simp)
        · rw [h2] at h1; exact absurd h1 (by simp)
    · refine replied_once_mono p _ rfl ?_ h
      intro hh
      simp only []
      split
      · split
        · split
          · rfl
          · exact hh
        · exact hh
      · exact hh

theorem info_auto_response_once (host : HostView) (p : InfoPass)
    (away_user_n away_msg : String) :
    replied_once p → replied_once (info_auto_response host p away_user_n away_msg) := by
  intro h
  unfold info_auto_response
  cases hh : p.handled
  · have h0 : reply_count p.effects = 0 := by
      rcases h with h | ⟨-, h2⟩
      · exact h
      · rw [hh] at h2; exact absurd h2 (by decide)
    cases hl : p.bnet.last_sent_to with
    | none => simpa [hh, hl] using h
    | some l =>
      cases hc : host.im_conv l
      · left
        simp [hc, h0]
      · right
        simp [hc, h0, reply_count_append, reply_count]
  · simpa [hh] using h

theorem info_auto_response_handled (host : HostView) (p : InfoPass)
    (away_user_n away_msg : String) (hh : p.handled = true) :
    info_auto_response host p away_user_n away_msg = p := by
  unfold info_auto_response
  simp [hh]

theorem info_lookup_answer_handled (K : BnetConsts) (p : InfoPass) (user_n label msg : String)
    (hh : p.handled = true) : info_lookup_answer K p user_n label msg = p := by
  unfold info_lookup_answer
  simp [hh]

theorem info_buddy_status_keeps (p : InfoPass) (user_n : String) (status : BnetStatus)
    (msg : String) :
    reply_count (info_buddy_status p user_n status msg).effects = reply_count p.effects ∧
    (p.handled = true → (info_buddy_status p user_n status msg).handled = true) ∧
    (info_buddy_status p user_n status msg).bnet.awaiting_whisper_confirm =
      p.bnet.awaiting_whisper_confirm ∧
    (info_buddy_status p user_n status msg).bnet.last_sent_to = p.bnet.last_sent_to := by
  unfold info_buddy_status
  split
  · split
    · simp [reply_count_append, reply_count]
      exact fun h => Or.inl h
    · simp [reply_count_append, reply_count]
  · simp

theorem info_whois_handled (K : BnetConsts) (what : String) (p : InfoPass)
    (hh : p.handled = true) :
    reply_count (info_whois K what p).effects = reply_count p.effects := by
  unfold info_whois
  split
  · rfl
  · simp only []
    split
    · rename_i hc
      exfalso
      simp only [Bool.and_eq_true, Bool.not_eq_true'] at hc
      have h1 := hc.1
      split at h1
      · split at h1
        · split at h1
          · exact absurd h1 (by simp)
          · rw [hh] at h1; exact absurd h1 (by simp)
        · rw [hh] at h1; exact absurd h1 (by simp)
      · rw [hh] at h1; exact absurd h1 (by simp)
    · rfl

theorem info_whois_away_handled (K : BnetConsts) (host : HostView) (what : String)
    (p : InfoPass) (hh : p.handled = true) :
    reply_count (info_whois_away K host what p).effects = reply_count p.effects ∧
    (info_whois_away K host what p).bnet.awaiting_whisper_confirm =
      p.bnet.awaiting_whisper_confirm := by
  unfold info_whois_away
  split
  · exact ⟨rfl, rfl⟩
  · rename_i x mi heq
    simp only []
    have hb := info_buddy_status_keeps p
      (bnet_d2_normalize K p.bnet
        (if (match_info_fetch mi 1).length = 0 then p.bnet.unique_username
          else match_info_fetch mi 1))
      .BNET_STATUS_AWAY (match_info_fetch mi 2)
    rw [info_lookup_answer_handled K _ _ _ _ (hb.2.1 hh),
      info_auto_response_handled host _ _ _ (hb.2.1 hh)]
    exact ⟨hb.1, hb.2.2.1⟩

theorem info_whois_dnd_handled (K : BnetConsts) (what : String) (p : InfoPass)
    (hh : p.handled = true) :
    reply_count (info_whois_dnd K what p).effects = reply_count p.effects := by
  unfold info_whois_dnd
  split
  · rfl
  · rename_i x mi heq
    simp only []
    have hb := info_buddy_status_keeps p
      (bnet_d2_normalize K p.bnet
        (if (match_info_fetch mi 1).length = 0 then p.bnet.unique_username
          else match_info_fetch mi 1))
      .BNET_STATUS_DND (match_info_fetch mi 2)
    rw [info_lookup_answer_handled K _ _ _ _ (hb.2.1 hh)]
    exact hb.1

theorem show_unhandled_handled (chat is_error : Bool) (what : String) (p : InfoPass)
    (hh : p.handled = true) : show_unhandled chat is_error what p = p := by
  unfold show_unhandled
  simp [hh]

theorem info_lookup_answer_last_sent_to (K : BnetConsts) (p : InfoPass)
    (user_n label msg : String) :
    (info_lookup_answer K p user_n label msg).bnet.last_sent_to = p.bnet.last_sent_to := by
  unfold info_lookup_answer
  split <;> rfl

theorem info_auto_response_last_sent_to (host : HostView) (p : InfoPass)
    (away_user_n away_msg : String) :
    (info_auto_response host p away_user_n away_msg).bnet.last_sent_to =
      p.bnet.last_sent_to := by
  unfold info_auto_response
  split
  · split
    · split <;> rfl
    · rfl
  · rfl

theorem info_whois_last_sent_to (K : BnetConsts) (what : String) (p : InfoPass) :
    (info_whois K what p).bnet.last_sent_to = p.bnet.last_sent_to := by
  unfold info_whois
  split
  · rfl
  · simp only []
    split <;> rfl

theorem info_whois_away_last_sent_to (K : BnetConsts) (host : HostView) (what : String)
    (p : InfoPass) :
    (info_whois_away K host what p).bnet.last_sent_to = p.bnet.last_sent_to := by
  unfold info_whois_away
  split
  · rfl
  · simp only []
    rw [info_auto_response_last_sent_to, info_lookup_answer_last_sent_to]
    exact (info_buddy_status_keeps _ _ _ _).2.2.2

theorem info_whois_dnd_last_sent_to (K : BnetConsts) (what : String) (p : InfoPass) :
    (info_whois_dnd K what p).bnet.last_sent_to = p.bnet.last_sent_to := by
  unfold info_whois_dnd
  split
  · rfl
  · simp only []
    rw [info_lookup_answer_last_sent_to]
    exact (info_buddy_status_keeps _ _ _ _).2.2.2

theorem info_away_state_last_sent_to (host : HostView) (what : String) (p : InfoPass) :
    (info_away_state host what p).bnet.last_sent_to = p.bnet.last_sent_to := by
  unfold info_away_state
  split
  · rfl
  · simp only []
    split
    · split
      · split <;> rfl
      · rfl
    · split <;> rfl

theorem info_dnd_state_last_sent_to (what : String) (p : InfoPass) :
    (info_dnd_state what p).bnet.last_sent_to = p.bnet.last_sent_to := by
  unfold info_dnd_state
  split
  · rfl
  · simp only []
    split <;> rfl

theorem info_unavailable_bounce (host : HostView) (what : String) (p : InfoPass)
    (mi : List (Option String)) (l : String)
    (h : regex_unavailable.search what.data = some mi) (hl : p.bnet.last_sent_to = some l) :
    info_unavailable host what p = whisper_failed host p l "Do not disturb" what := by
  unfold info_unavailable
  rw [h]
  simp only [hl]

theorem info_whois_away_once (K : BnetConsts) (host : HostView) (what : String) (p : InfoPass) :
    replied_once p → replied_once (info_whois_away K host what p) := by
  intro h
  unfold info_whois_away
  split
  · exact h
  · exact info_auto_response_once _ _ _ _
      (info_lookup_answer_once K _ _ _ _ (info_buddy_status_once p _ _ _ h))

theorem info_whois_dnd_once (K : BnetConsts) (what : String) (p : InfoPass) :
    replied_once p → replied_once (info_whois_dnd K what p) := by
  intro h
  unfold info_whois_dnd
  split
  · exact h
  · exact info_lookup_answer_once K _ _ _ _ (info_buddy_status_once p _ _ _ h)

theorem info_away_state_once (host : HostView) (what : String) (p : InfoPass) :
    replied_once p → replied_once (info_away_state host what p) := by
  apply replied_once_mono
  · unfold info_away_state
    split
    · rfl
    · simp only []
      split
      · split
        · split <;> simp [reply_count_append, reply_count]
        · rfl
      · split <;> rfl
  · intro hh
    unfold info_away_state
    split
    · exact hh
    · simp only []
      split
      · split
        · split <;> simp [hh]
        · exact hh
      · split <;> simp [hh]

theorem info_dnd_state_once (what : String) (p : InfoPass) :
    replied_once p → replied_once (info_dnd_state what p) := by
  apply replied_once_mono
  · unfold info_dnd_state
    split
    · rfl
    · simp only []
      split <;> rfl
  · intro hh
    unfold info_dnd_state
    split
    · exact hh
    · simp only []
      split <;> simp [hh]

theorem info_unavailable_once (host : HostView) (what : String) (p : InfoPass) :
    replied_once p → replied_once (info_unavailable host what p) := by
  apply replied_once_mono
  · unfold info_unavailable
    split
    · rfl
    · split
      · unfold whisper_failed
        simp only [reply_count_append, reply_count]
        split <;> simp [reply_count]
      · rfl
  · intro hh
    unfold info_unavailable
    split
    · exact hh
    · split
      · rfl
      · exact hh

theorem show_unhandled_count (chat is_error : Bool) (what : String) (p : InfoPass) :
    reply_count (show_unhandled chat is_error what p).effects = reply_count p.effects := by
  unfold show_unhandled
  simp only []
  split
  · split
    · split
      · simp [reply_count_append, reply_count]
      · split <;> simp [reply_count_append, reply_count]
    · split
      · simp [reply_count_append, reply_count]
      · split <;> simp [reply_count_append, reply_count]
  · rfl

theorem info_classify_once (K : BnetConsts) (host : HostView) (what : String) (p : InfoPass) :
    replied_once p → replied_once (info_classify K host what p) := by
  intro h
  unfold info_classify
  exact info_unavailable_once _ _ _ (info_dnd_state_once _ _ (info_away_state_once _ _ _
    (info_whois_dnd_once _ _ _ (info_whois_away_once _ _ _ _ (info_whois_once _ _ _ h)))))

theorem info_unavailable_state (host : HostView) (what : String) (p : InfoPass) :
    (info_unavailable host what p).bnet.is_dnd = p.bnet.is_dnd ∧
    (info_unavailable host what p).bnet.is_away = p.bnet.is_away := by
  unfold info_unavailable
  split
  · exact ⟨rfl, rfl⟩
  · split
    · exact ⟨rfl, rfl⟩
    · exact ⟨rfl, rfl⟩

theorem show_unhandled_state (chat is_error : Bool) (what : String) (p : InfoPass) :
    (show_unhandled chat is_error what p).bnet.is_dnd = p.bnet.is_dnd ∧
    (show_unhandled chat is_error what p).bnet.is_away = p.bnet.is_away := by
  unfold show_unhandled
  simp only []
  split
  · split
    · split
      · exact ⟨rfl, rfl⟩
      · split <;> exact ⟨rfl, rfl⟩
    · split
      · exact ⟨rfl, rfl⟩
      · split <;> exact ⟨rfl, rfl⟩
  · exact ⟨rfl, rfl⟩

theorem info_dnd_state_sets (what : String) (p : InfoPass) (mi : List (Option String))
    (h : regex_dnd_state.search what.data = some mi) :
    (info_dnd_state what p).bnet.is_dnd = decide (match_info_fetch mi 1 = "engaged") := by
  unfold info_dnd_state
  rw [h]
  simp only []
  split <;> rfl

theorem info_dnd_state_keeps_away (what : String) (p : InfoPass) :
    (info_dnd_state what p).bnet.is_away = p.bnet.is_away := by
  unfold info_dnd_state
  split
  · rfl
  · simp only []
    split <;> rfl

theorem info_away_state_sets (host : HostView) (what : String) (p : InfoPass)
    (mi : List (Option String)) (h : regex_away_state.search what.data = some mi)
    (hs : match_info_fetch mi 1 ≠ "still") :
    (info_away_state host what p).bnet.is_away = decide (match_info_fetch mi 1 = "now") := by
  unfold info_away_state
  rw [h]
  simp only [if_neg hs]
  split <;> rfl

/-! ## Informational texts: the claim -/

/-- C17 (as stated, fails): the text "Bob is away (Do Not Disturb mode engaged.)", received
after a whisper to "Bob" whose IM conversation is open, matches the away-with-reason pattern
and the DND-state pattern; the away classifier emits the automatic response, and the later
DND-state classifier still sets `is_dnd`. -/
theorem info_later_classifier_acts :
    (regex_whois_away.search "Bob is away (Do Not Disturb mode engaged.)".data).isSome = true ∧
    (info_whois_away protocolConsts { sampleHost true with im_conv := fun _ => true }
        "Bob is away (Do Not Disturb mode engaged.)"
        ⟨{ sampleSession with last_sent_to := some "Bob" }, false, []⟩).effects =
      [.serv_got_im "Bob" "Away (Do Not Disturb mode engaged.)" .PURPLE_MESSAGE_AUTO_RESP] ∧
    sampleSession.is_dnd = false ∧
    (chatevent_INFO protocolConsts { sampleHost true with im_conv := fun _ => true }
        { sampleSession with last_sent_to := some "Bob" } true
        "Bob is away (Do Not Disturb mode engaged.)").1.is_dnd = true ∧
    (chatevent_INFO protocolConsts { sampleHost true with im_conv := fun _ => true }
        { sampleSession with last_sent_to := some "Bob" } true
        "Bob is away (Do Not Disturb mode engaged.)").2 =
      [.serv_got_im "Bob" "Away (Do Not Disturb mode engaged.)" .PURPLE_MESSAGE_AUTO_RESP] := by
  decide

/-- C17 (amended): for a non-empty informational text the six classifiers are tried one after
the other in the fixed order, and a later one still acts on a text an earlier one matched.
Whatever the earlier classifiers did: a text in which the DND-state pattern matches sets
`is_dnd` from the match; a text in which the away-state pattern matches with "now" or
"no longer" sets `is_away` from the match; and for a text in which the unavailable pattern
matches while `last_sent_to` is set, the calls end with the whisper error for that recipient
(`purple_conv_present_error`, and `purple_notify_error` if that fails) and
`awaiting_whisper_confirm` is cleared.  What `handled` makes exclusive are the replies: the
calls of `purple_notify_userinfo` (answer to a lookup) and `serv_got_im` (automatic response)
are at most one in total for one text; a classifier entered with `handled` set makes neither
call, the away classifier then leaves `awaiting_whisper_confirm` as it is, and the final step
displays nothing; and after a reply the final step does not display the text as unhandled. -/
theorem info_classifiers_all_run (K : BnetConsts) (host : HostView) (bnet : BnetConnectionData)
    (chat : Bool) (what : String) (hlen : what.length > 0) :
    (∀ mi, regex_dnd_state.search what.data = some mi →
      (chatevent_INFO K host bnet chat what).1.is_dnd =
        decide (match_info_fetch mi 1 = "engaged")) ∧
    (∀ mi, regex_away_state.search what.data = some mi → match_info_fetch mi 1 ≠ "still" →
      (chatevent_INFO K host bnet chat what).1.is_away =
        decide (match_info_fetch mi 1 = "now")) ∧
    (∀ mi l, regex_unavailable.search what.data = some mi → bnet.last_sent_to = some l →
      (chatevent_INFO K host bnet chat what).1.awaiting_whisper_confirm = false ∧
      ∃ before, (chatevent_INFO K host bnet chat what).2 =
        before ++ [.conv_present_error l what] ++
          if !host.present_error l then
            [.notify_error "Do not disturb" what (some (l ++ " did not receive your whisper."))]
          else []) ∧
    reply_count (chatevent_INFO K host bnet chat what).2 ≤ 1 ∧
    (∀ p : InfoPass, p.handled = true →
      reply_count (info_whois K what p).effects = reply_count p.effects ∧
      reply_count (info_whois_away K host what p).effects = reply_count p.effects ∧
      (info_whois_away K host what p).bnet.awaiting_whisper_confirm =
        p.bnet.awaiting_whisper_confirm ∧
      reply_count (info_whois_dnd K what p).effects = reply_count p.effects ∧
      show_unhandled chat false what p = p) ∧
    (reply_count (chatevent_INFO K host bnet chat what).2 = 1 →
      chatevent_INFO K host bnet chat what =
        ((info_classify K host what ⟨bnet, false, []⟩).bnet,
          (info_classify K host what ⟨bnet, false, []⟩).effects)) := by
  have hev : chatevent_INFO K host bnet chat what =
      ((show_unhandled chat false what (info_classify K host what ⟨bnet, false, []⟩)).bnet,
        (show_unhandled chat false what (info_classify K host what ⟨bnet, false, []⟩)).effects) := by
    unfold chatevent_INFO
    rw [if_pos hlen]
  have honce := info_classify_once K host what ⟨bnet, false, []⟩ (Or.inl rfl)
  refine ⟨?_, ?_, ?_, ?_, ?_, ?_⟩
  · intro mi hmi
    rw [hev]
    simp only []
    rw [(show_unhandled_state _ _ _ _).1]
    unfold info_classify
    rw [(info_unavailable_state _ _ _).1]
    exact info_dnd_state_sets _ _ mi hmi
  · intro mi hmi hs
    rw [hev]
    simp only []
    rw [(show_unhandled_state _ _ _ _).2]
    unfold info_classify
    rw [(info_unavailable_state _ _ _).2, info_dnd_state_keeps_away]
    exact info_away_state_sets _ _ _ mi hmi hs
  · intro mi l hmi hl
    have hl5 : (info_dnd_state what (info_away_state host what (info_whois_dnd K what
        (info_whois_away K host what (info_whois K what ⟨bnet, false, []⟩))))).bnet.last_sent_to
        = some l := by
      rw [info_dnd_state_last_sent_to, info_away_state_last_sent_to,
        info_whois_dnd_last_sent_to, info_whois_away_last_sent_to, info_whois_last_sent_to]
      exact hl
    have hc : info_classify K host what ⟨bnet, false, []⟩ =
        whisper_failed host (info_dnd_state what (info_away_state host what
          (info_whois_dnd K what (info_whois_away K host what
            (info_whois K what ⟨bnet, false, []⟩))))) l "Do not disturb" what := by
      unfold info_classify
      exact info_unavailable_bounce host what _ mi l hmi hl5
    rw [hev, hc, show_unhandled_handled _ _ _ _ rfl]
    exact ⟨rfl, _, rfl⟩
  · rw [hev]
    simp only []
    rw [show_unhandled_count]
    rcases honce with h | ⟨h, -⟩ <;> omega
  · intro p hh
    exact ⟨info_whois_handled K what p hh, (info_whois_away_handled K host what p hh).1,
      (info_whois_away_handled K host what p hh).2, info_whois_dnd_handled K what p hh,
      show_unhandled_handled chat false what p hh⟩
  · intro h1
    rw [hev] at h1 ⊢
    simp only [] at h1
    rw [show_unhandled_count] at h1
    have hh : (info_classify K host what ⟨bnet, false, []⟩).handled = true := by
      rcases honce with h | ⟨-, h⟩
      · omega
      · exact h
    rw [show_unhandled_handled _ _ _ _ hh]

/-- The text "Bob is away (Do Not Disturb mode engaged.)" after a whisper to "Bob", whose
conversation is open: the automatic response is the one reply, `is_dnd` is set, and the text is
not displayed; and the text "Bob is unavailable (Do Not Disturb mode engaged.)" after that
whisper: `is_dnd` is set and the whisper error is presented. -/
theorem info_classifiers_all_run_witness :
    "Bob is away (Do Not Disturb mode engaged.)".length > 0 ∧
    regex_dnd_state.search "Bob is away (Do Not Disturb mode engaged.)".data =
      some [some "engaged"] ∧
    (chatevent_INFO protocolConsts { sampleHost true with im_conv := fun _ => true }
        { sampleSession with last_sent_to := some "Bob" } true
        "Bob is away (Do Not Disturb mode engaged.)").1.is_dnd =
      decide (match_info_fetch [some "engaged"] 1 = "engaged") ∧
    reply_count (chatevent_INFO protocolConsts { sampleHost true with im_conv := fun _ => true }
        { sampleSession with last_sent_to := some "Bob" } true
        "Bob is away (Do Not Disturb mode engaged.)").2 ≤ 1 ∧
    chatevent_INFO protocolConsts { sampleHost true with im_conv := fun _ => true }
        { sampleSession with last_sent_to := some "Bob" } true
        "Bob is away (Do Not Disturb mode engaged.)" =
      ((info_classify protocolConsts { sampleHost true with im_conv := fun _ => true }
          "Bob is away (Do Not Disturb mode engaged.)"
          ⟨{ sampleSession with last_sent_to := some "Bob" }, false, []⟩).bnet,
        (info_classify protocolConsts { sampleHost true with im_conv := fun _ => true }
          "Bob is away (Do Not Disturb mode engaged.)"
          ⟨{ sampleSession with last_sent_to := some "Bob" }, false, []⟩).effects) ∧
    (chatevent_INFO protocolConsts (sampleHost true)
        { sampleSession with last_sent_to := some "Bob", awaiting_whisper_confirm := true } true
        "Bob is unavailable (Do Not Disturb mode engaged.)").1.awaiting_whisper_confirm =
      false :=
  ⟨by decide, by decide,
    (info_classifiers_all_run protocolConsts { sampleHost true with im_conv := fun _ => true }
      { sampleSession with last_sent_to := some "Bob" } true
      "Bob is away (Do Not Disturb mode engaged.)" (by decide)).1 [some "engaged"] (by decide),
    (info_classifiers_all_run protocolConsts { sampleHost true with im_conv := fun _ => true }
      { sampleSession with last_sent_to := some "Bob" } true
      "Bob is away (Do Not Disturb mode engaged.)" (by decide)).2.2.2.1,
    (info_classifiers_all_run protocolConsts { sampleHost true with im_conv := fun _ => true }
      { sampleSession with last_sent_to := some "Bob" } true
      "Bob is away (Do Not Disturb mode engaged.)" (by decide)).2.2.2.2.2 (by decide),
    ((info_classifiers_all_run protocolConsts (sampleHost true)
      { sampleSession with last_sent_to := some "Bob", awaiting_whisper_confirm := true } true
      "Bob is unavailable (Do Not Disturb mode engaged.)" (by decide)).2.2.1
        [some "Bob", some "Do Not Disturb mode engaged."] "Bob" (by decide) rfl).1⟩

/-! ## Friends list: lemmas -/

theorem g_list_remove_nth (list : List Nat) (n : Nat) :
    g_list_remove list (g_list_nth list n) = list := by
  unfold g_list_nth
  split <;> rfl

theorem bnet_friend_update_list (K : BnetConsts) (bnet : BnetConnectionData) (index bfi : Nat)
    (replace : Bool) (info : BnetFriendInfo)
    (h : bnet.friend_heap.get? bfi = some (some info)) :
    ∃ r info', bnet_friend_update K bnet index bfi replace = some r ∧
      r.1.friends_list = g_list_insert bnet.friends_list bfi index ∧
      r.1.friend_heap = bnet.friend_heap.set bfi (some info') := by
  unfold bnet_friend_update
  rw [h]
  simp only []
  refine ⟨_, _, rfl, ?_, rfl⟩
  simp only [g_list_remove_nth, ite_self]

theorem friend_heap_set_other (heap : List (Option BnetFriendInfo)) (a b : Nat)
    (v : Option BnetFriendInfo) (hab : a ≠ b) : (heap.set a v).get? b = heap.get? b := by
  simp only [List.get?_eq_getElem?, List.getElem?_set]
  rw [if_neg hab]

theorem bnet_recv_FRIENDSLIST_loop_list (K : BnetConsts) (base : Nat) :
    ∀ (count idx : Nat) (bnet : BnetConnectionData),
      (∀ j, j < count → ∃ info, bnet.friend_heap.get? (base + idx + j) = some (some info)) →
      idx ≤ bnet.friends_list.length →
      ∃ r, bnet_recv_FRIENDSLIST_loop K base count idx bnet = some r ∧
        r.1.friends_list = bnet.friends_list.take idx ++
          (List.range count).map (fun j => base + idx + j) ++ bnet.friends_list.drop idx := by
  intro count
  induction count with
  | zero =>
    intro idx bnet _ _
    exact ⟨_, rfl, by simp⟩
  | succ count ih =>
    intro idx bnet hheap hidx
    obtain ⟨info, hinfo⟩ := hheap 0 (Nat.succ_pos _)
    obtain ⟨r, info', hr, hlist, hh⟩ :=
      bnet_friend_update_list K bnet idx (base + idx) false info hinfo
    have hheap' : ∀ j, j < count →
        ∃ info, r.1.friend_heap.get? (base + (idx + 1) + j) = some (some info) := by
      intro j hj
      obtain ⟨i2, hi2⟩ := hheap (j + 1) (Nat.succ_lt_succ hj)
      refine ⟨i2, ?_⟩
      rw [hh, friend_heap_set_other _ _ _ _ (by omega)]
      rw [← hi2]
      congr 1
      omega
    have hlen : idx + 1 ≤ r.1.friends_list.length := by
      rw [hlist]
      simp only [g_list_insert, List.length_append, List.length_take, List.length_cons,
        List.length_drop]
      omega
    obtain ⟨rs, hrs, hrl⟩ := ih (idx + 1) r.1 hheap' hlen
    refine ⟨(rs.1, r.2 ++ rs.2), ?_, ?_⟩
    · simp only [bnet_recv_FRIENDSLIST_loop, hr, hrs]
    · simp only [hrl, hlist, g_list_insert]
      have ht : (List.take idx bnet.friends_list ++ (base + idx) ::
            List.drop idx bnet.friends_list).take (idx + 1) =
          List.take idx bnet.friends_list ++ [base + idx] := by
        rw [List.take_append_eq_append_take]
        simp [List.length_take, Nat.min_eq_left hidx]
      have hd : (List.take idx bnet.friends_list ++ (base + idx) ::
            List.drop idx bnet.friends_list).drop (idx + 1) =
          List.drop idx bnet.friends_list := by
        rw [List.drop_append_eq_append_drop]
        simp [List.length_take, Nat.min_eq_left hidx]
      rw [ht, hd, List.range_succ_eq_map]
      simp only [List.map_cons, List.map_map, List.append_assoc, List.singleton_append,
        Nat.add_zero, List.cons_append, List.nil_append]
      congr 3
      apply List.map_congr_left
      intro j _
      simp only [Function.comp, Nat.succ_eq_add_one]
      omega

theorem bnet_recv_FRIENDSLIST_list (K : BnetConsts) (bnet : BnetConnectionData)
    (entries : List FriendFields) :
    ∃ r, bnet_recv_FRIENDSLIST K bnet entries = some r ∧
      r.1.friends_list =
        (List.range entries.length).map (fun j => bnet.friend_heap.length + j) ++
          bnet.friends_list := by
  have h := bnet_recv_FRIENDSLIST_loop_list K bnet.friend_heap.length entries.length 0
    { bnet with friend_heap :=
        bnet.friend_heap ++ entries.map (fun f => some (new_friend_info f)) }
    (by
      intro j hj
      refine ⟨new_friend_info (entries.get ⟨j, hj⟩), ?_⟩
      simp only [Nat.add_zero, List.get?_eq_getElem?]
      rw [List.getElem?_append_right (Nat.le_add_right _ _)]
      simp [hj])
    (Nat.zero_le _)
  obtain ⟨r, hr, hl⟩ := h
  refine ⟨r, hr, ?_⟩
  rw [hl]
  simp

/-! ## Friends list: the claims -/

/-- C18 (fails on the code): `bnet_recv_FRIENDSLIST` returns, and the friends list after it is
the received entries, in wire order, followed by everything the list held before: nothing
empties the list, so after a response with n entries its length is n plus the old length. -/
theorem bnet_recv_FRIENDSLIST_keeps_old (K : BnetConsts) (bnet : BnetConnectionData)
    (entries : List FriendFields) :
    ∃ r, bnet_recv_FRIENDSLIST K bnet entries = some r ∧
      r.1.friends_list =
        (List.range entries.length).map (fun j => bnet.friend_heap.length + j) ++
          bnet.friends_list ∧
      r.1.friends_list.length = entries.length + bnet.friends_list.length := by
  obtain ⟨r, hr, hl⟩ := bnet_recv_FRIENDSLIST_list K bnet entries
  refine ⟨r, hr, hl, ?_⟩
  rw [hl]
  simp

/-- A response with the one entry "Dave" to a session whose list holds three friends: the list
then holds four. -/
theorem bnet_recv_FRIENDSLIST_keeps_old_witness :
    ∃ r, bnet_recv_FRIENDSLIST protocolConsts sampleFriends [⟨"Dave", 0, 1, 0, "chat"⟩] =
        some r ∧
      r.1.friends_list = [3, 0, 1, 2] ∧ r.1.friends_list.length = 1 + 3 :=
  bnet_recv_FRIENDSLIST_keeps_old protocolConsts sampleFriends [⟨"Dave", 0, 1, 0, "chat"⟩]

/-- C19 (fails on the code): a FRIENDSUPDATE for a valid index i returns, and leaves the updated
record twice in the friends list, at i and at i + 1: `g_list_remove` is given the link, which
is the data of no element, so it removes nothing before `g_list_insert` inserts the record
again.  The list is one longer, the entries before i keep their index and every entry from i
on moves up by one. -/
theorem bnet_recv_FRIENDSUPDATE_inserts_again (K : BnetConsts) (bnet : BnetConnectionData)
    (index bfi status location product : Nat) (location_name : String) (info : BnetFriendInfo)
    (hentry : bnet.friends_list.get? index = some bfi)
    (hinfo : bnet.friend_heap.get? bfi = some (some info)) :
    ∃ r, bnet_recv_FRIENDSUPDATE K bnet index status location product location_name = some r ∧
      r.1.friends_list =
        bnet.friends_list.take index ++ bfi :: bnet.friends_list.drop index ∧
      r.1.friends_list.length = bnet.friends_list.length + 1 ∧
      r.1.friends_list.get? index = some bfi ∧
      (∀ j, j < index → r.1.friends_list.get? j = bnet.friends_list.get? j) ∧
      (∀ j, index ≤ j → r.1.friends_list.get? (j + 1) = bnet.friends_list.get? j) := by
  have hlt : index < bnet.friends_list.length := by
    rw [List.get?_eq_getElem?] at hentry
    exact (List.getElem?_eq_some_iff.mp hentry).1
  have hheap : (bnet.friend_heap.set bfi (some { info with
      status := status, location := location, product := product,
      location_name := location_name })).get? bfi = some (some { info with
      status := status, location := location, product := product,
      location_name := location_name }) := by
    rw [List.get?_eq_getElem?] at hinfo ⊢
    have hb := (List.getElem?_eq_some_iff.mp hinfo).1
    simp [List.getElem?_set, hb]
  obtain ⟨r, info', hr, hl, -⟩ := bnet_friend_update_list K
    { bnet with friend_heap := bnet.friend_heap.set bfi (some { info with
        status := status, location := location, product := product,
        location_name := location_name }) } index bfi true _ hheap
  have hl2 : r.1.friends_list =
      bnet.friends_list.take index ++ bfi :: bnet.friends_list.drop index := hl
  have hlen : (bnet.friends_list.take index).length = index := by
    rw [List.length_take]; omega
  refine ⟨r, ?_, hl2, ?_, ?_, ?_, ?_⟩
  · unfold bnet_recv_FRIENDSUPDATE g_list_nth_data
    rw [hentry]
    simp only [hinfo]
    exact hr
  · rw [hl2]
    simp only [List.length_append, List.length_take, List.length_cons, List.length_drop]
    omega
  · rw [hl2, List.get?_eq_getElem?, List.getElem?_append_right (by omega)]
    simp [hlen]
  · intro j hj
    rw [hl2, List.get?_eq_getElem?, List.get?_eq_getElem?,
      List.getElem?_append_left (by omega), List.getElem?_take_of_lt hj]
  · intro j hj
    rw [hl2, List.get?_eq_getElem?, List.get?_eq_getElem?,
      List.getElem?_append_right (by omega), hlen]
    have hk : j + 1 - index = (j - index) + 1 := by omega
    rw [hk, List.getElem?_cons_succ, List.getElem?_drop]
    congr 1
    omega

/-- An update of "Bob", the second of three friends: the list then holds four entries, two of
them "Bob". -/
theorem bnet_recv_FRIENDSUPDATE_inserts_again_witness :
    sampleFriends.friends_list = [0, 1, 2] ∧
    ∃ r, bnet_recv_FRIENDSUPDATE protocolConsts sampleFriends 1 0 1 0 "chat" = some r ∧
      r.1.friends_list = [0, 1, 1, 2] :=
  ⟨rfl, by
    obtain ⟨r, hr, hl, -⟩ := bnet_recv_FRIENDSUPDATE_inserts_again protocolConsts sampleFriends
      1 1 0 1 0 "chat" ⟨"Bob", 0, 0, 0, "", none, false, some 1⟩ (by decide) (by decide)
    exact ⟨r, hr, hl⟩⟩

/-- C20 (fails on the code): a FRIENDSREMOVE for a valid index i returns, and leaves the friends
list as it was, with the same length and the entry at i still in place, although the record
that entry points to has been freed: `g_list_remove` is given the link, which is the data of
no element, so it removes nothing. -/
theorem bnet_recv_FRIENDSREMOVE_removes_nothing (bnet : BnetConnectionData) (index bfi : Nat)
    (info : BnetFriendInfo)
    (hentry : bnet.friends_list.get? index = some bfi)
    (hinfo : bnet.friend_heap.get? bfi = some (some info)) :
    ∃ r, bnet_recv_FRIENDSREMOVE bnet index = some r ∧
      r.friends_list = bnet.friends_list ∧
      r.friends_list.length = bnet.friends_list.length ∧
      r.friends_list.get? index = some bfi ∧
      r.friend_heap.get? bfi = some none := by
  have hev : bnet_recv_FRIENDSREMOVE bnet index = some { bnet with
      blist := (match info.buddy with
        | some buddy => purple_buddy_set_protocol_data bnet.blist buddy none
        | none => bnet.blist),
      friend_heap := bnet.friend_heap.set bfi none,
      friends_list := g_list_remove bnet.friends_list (g_list_nth bnet.friends_list index) } := by
    unfold bnet_recv_FRIENDSREMOVE g_list_nth_data
    rw [hentry]
    simp only [hinfo]
  refine ⟨_, hev, ?_, ?_, ?_, ?_⟩
  · exact g_list_remove_nth _ _
  · simp only [g_list_remove_nth]
  · simp only [g_list_remove_nth]
    exact hentry
  · simp only []
    rw [List.get?_eq_getElem?] at hinfo ⊢
    have hb := (List.getElem?_eq_some_iff.mp hinfo).1
    simp [List.getElem?_set, hb]

/-- A removal of "Bob", the second of three friends: the list still holds three entries. -/
theorem bnet_recv_FRIENDSREMOVE_removes_nothing_witness :
    sampleFriends.friends_list = [0, 1, 2] ∧
    ∃ r, bnet_recv_FRIENDSREMOVE sampleFriends 1 = some r ∧
      r.friends_list = [0, 1, 2] ∧ r.friend_heap.get? 1 = some none :=
  ⟨rfl, by
    obtain ⟨r, hr, hl, -, -, hf⟩ := bnet_recv_FRIENDSREMOVE_removes_nothing sampleFriends 1 1
      ⟨"Bob", 0, 0, 0, "", none, false, some 1⟩ (by decide) (by decide)
    exact ⟨r, hr, hl, hf⟩⟩

/-! ## The keepalive timer: the claim -/

theorem keepalive_ticks_ka_tick (bnet : BnetConnectionData) (h0 : bnet.ka_tick = 0) :
    ∀ n, n < 2 ^ 32 → (keepalive_ticks n bnet).ka_tick = n := by
  intro n
  induction n with
  | zero => intro _; exact h0
  | succ n ih =>
    intro hn
    simp only [keepalive_ticks, bnet_keepalive_timer]
    rw [ih (by omega)]
    exact Nat.mod_eq_of_lt hn

/-- C26: starting from a tick counter of 0, the n-th call of `bnet_keepalive_timer`
(1 ≤ n < 2^31) sends the NULL frame exactly when n is a multiple of 16 and the friends-list
request exactly when n is even, the NULL frame first, sends nothing else, and returns TRUE. -/
theorem bnet_keepalive_timer_nth (bnet : BnetConnectionData) (n : Nat)
    (h0 : bnet.ka_tick = 0) (h1 : 1 ≤ n) (hn : n < 2 ^ 31) :
    (bnet_keepalive_timer (keepalive_ticks (n - 1) bnet)).2.1 =
      (if n % 16 = 0 then [.packet_send .sbnet .BNET_SID_NULL []] else []) ++
        (if n % 2 = 0 then [.packet_send .sbnet .BNET_SID_FRIENDSLIST []] else []) ∧
    (bnet_keepalive_timer (keepalive_ticks (n - 1) bnet)).2.2 = true := by
  have hk := keepalive_ticks_ka_tick bnet h0 (n - 1) (by omega)
  have hm : (n - 1 + 1) % 2 ^ 32 = n := by
    rw [Nat.sub_add_cancel h1]
    exact Nat.mod_eq_of_lt (by omega)
  simp only [bnet_keepalive_timer, hk, hm, bnet_send_NULL, bnet_send_FRIENDSLIST, and_self]

/-- The 16th call sends both frames, the NULL frame first; the 6th only the friends-list
request. -/
theorem bnet_keepalive_timer_nth_witness :
    (bnet_keepalive_timer (keepalive_ticks (16 - 1) sampleSession)).2.1 =
      [.packet_send .sbnet .BNET_SID_NULL [], .packet_send .sbnet .BNET_SID_FRIENDSLIST []] ∧
    (bnet_keepalive_timer (keepalive_ticks (6 - 1) sampleSession)).2.1 =
      [.packet_send .sbnet .BNET_SID_FRIENDSLIST []] :=
  ⟨(bnet_keepalive_timer_nth sampleSession 16 rfl (by decide) (by decide)).1,
    (bnet_keepalive_timer_nth sampleSession 6 rfl (by decide) (by decide)).1⟩

/-! ## Friends list: moving an entry -/

theorem g_list_insert_eq_insertIdx (list : List Nat) (data position : Nat)
    (h : position ≤ list.length) :
    g_list_insert list data position = List.insertIdx position data list := by
  unfold g_list_insert
  induction list generalizing position with
  | nil =>
    have : position = 0 := by simpa using h
    subst this
    rfl
  | cons a rest ih =>
    cases position with
    | zero => rfl
    | succ p =>
      simp only [List.take_succ_cons, List.drop_succ_cons, List.cons_append,
        List.insertIdx_succ_cons]
      rw [ih p (by simpa using h)]

/-- C21: for a friends list of length n, an old index i below n holding the entry x, and a new
index j below n, `bnet_recv_FRIENDSPOSITION` returns, and the list after it is the old list
with the entry at i removed and x inserted at j: its length is n, x is at index j, and
without the entry at j it is the old list without the entry at i, so all other entries keep
their relative order. -/
theorem bnet_recv_FRIENDSPOSITION_moves (bnet : BnetConnectionData) (i j x : Nat)
    (hi : bnet.friends_list.get? i = some x) (hj : j < bnet.friends_list.length) :
    ∃ r, bnet_recv_FRIENDSPOSITION bnet i j = some r ∧
      r.friends_list = List.insertIdx j x (bnet.friends_list.eraseIdx i) ∧
      r.friends_list.length = bnet.friends_list.length ∧
      r.friends_list.get? j = some x ∧
      r.friends_list.eraseIdx j = bnet.friends_list.eraseIdx i := by
  have hlt : i < bnet.friends_list.length := by
    rw [List.get?_eq_getElem?] at hi
    exact (List.getElem?_eq_some_iff.mp hi).1
  have hlen : (bnet.friends_list.eraseIdx i).length = bnet.friends_list.length - 1 :=
    List.length_eraseIdx_of_lt hlt
  have hjle : j ≤ (bnet.friends_list.eraseIdx i).length := by omega
  have hev : bnet_recv_FRIENDSPOSITION bnet i j = some { bnet with
      friends_list := g_list_insert (bnet.friends_list.eraseIdx i) x j } := by
    unfold bnet_recv_FRIENDSPOSITION g_list_nth
    rw [hi, if_pos hlt]
    rfl
  refine ⟨_, hev, g_list_insert_eq_insertIdx _ _ _ hjle, ?_, ?_, ?_⟩
  · simp only [g_list_insert, List.length_append, List.length_take, List.length_cons,
      List.length_drop]
    omega
  · simp only [g_list_insert]
    rw [List.get?_eq_getElem?, List.getElem?_append_right (by simp only [List.length_take]; omega)]
    simp [Nat.min_eq_left hjle]
  · simp only [g_list_insert_eq_insertIdx _ _ _ hjle]
    exact List.eraseIdx_insertIdx _ _

/-- The friends "Alice", "Bob", "Carol": moving index 0 to 2 gives "Bob", "Carol", "Alice", and
moving index 2 to 0 gives "Carol", "Alice", "Bob". -/
theorem bnet_recv_FRIENDSPOSITION_moves_witness :
    sampleFriends.friends_list = [0, 1, 2] ∧
    (∃ r, bnet_recv_FRIENDSPOSITION sampleFriends 0 2 = some r ∧ r.friends_list = [1, 2, 0]) ∧
    (∃ r, bnet_recv_FRIENDSPOSITION sampleFriends 2 0 = some r ∧ r.friends_list = [2, 0, 1]) :=
  ⟨rfl,
    (by
      obtain ⟨r, hr, hl, -⟩ :=
        bnet_recv_FRIENDSPOSITION_moves sampleFriends 0 2 0 (by decide) (by decide)
      exact ⟨r, hr, hl⟩),
    (by
      obtain ⟨r, hr, hl, -⟩ :=
        bnet_recv_FRIENDSPOSITION_moves sampleFriends 2 0 2 (by decide) (by decide)
      exact ⟨r, hr, hl⟩)⟩

/-! ## Friends list: the automatic lookup -/

theorem frames_friend_status_calls (K : BnetConsts) (bfi : BnetFriendInfo) :
    frames (friend_status_calls K bfi).1 = [] := by
  unfold friend_status_calls
  split
  · rfl
  · simp only []
    split <;> split <;> rfl

theorem friend_status_calls_whoising (K : BnetConsts) (bfi : BnetFriendInfo) :
    (friend_status_calls K bfi).2 =
      decide (bfi.location ≠ K.BNET_FRIEND_LOCATION_OFFLINE ∧
        (Nat.land bfi.status K.BNET_FRIEND_STATUS_AWAY ≠ 0 ∨
          Nat.land bfi.status K.BNET_FRIEND_STATUS_DND ≠ 0)) := by
  unfold friend_status_calls
  split
  · rename_i h
    simp [h]
  · rename_i h
    simp [h]

/-- C22 (as stated, fails): "Bob" is online and already marked away (the away bit of his stored
status is set); a FRIENDSUPDATE that repeats the same status issues the WHOIS command for him
again. -/
theorem friend_update_repeats_whois :
    sampleAwayFriends.friend_heap.get? 1 = some (some ⟨"Bob", 4, 1, 0, "chat", some "lunch",
      false, some 1⟩) ∧
    Nat.land 4 protocolConsts.BNET_FRIEND_STATUS_AWAY ≠ 0 ∧
    (bnet_recv_FRIENDSUPDATE protocolConsts sampleAwayFriends 1 4 1 0 "chat").map
        (fun r => r.2) =
      some [.prpl_got_user_status "Bob" .BNET_STATUS_ONLINE none,
        .prpl_got_user_status "Bob" .BNET_STATUS_AWAY none,
        .prpl_got_user_status_deactive "Bob" .BNET_STATUS_DND,
        .packet_send .sbnet .BNET_SID_CHATCOMMAND [.cstring "/whois Bob"]] := by
  decide

/-- C22 (amended): `bnet_friend_update` for a record returns, and it issues the WHOIS command
for the friend, once, exactly when the record's location is not "offline" and its status has
the away or the DND bit, whatever the status stored before was; otherwise it sends nothing.
No update sends more than one frame. -/
theorem bnet_friend_update_whois (K : BnetConsts) (bnet : BnetConnectionData)
    (index bfi : Nat) (replace : Bool) (info : BnetFriendInfo)
    (hinfo : bnet.friend_heap.get? bfi = some (some info)) :
    ∃ r, bnet_friend_update K bnet index bfi replace = some r ∧
      frames r.2 =
        (if info.location ≠ K.BNET_FRIEND_LOCATION_OFFLINE ∧
            (Nat.land info.status K.BNET_FRIEND_STATUS_AWAY ≠ 0 ∨
              Nat.land info.status K.BNET_FRIEND_STATUS_DND ≠ 0) then
          [.packet_send .sbnet .BNET_SID_CHATCOMMAND
            [.cstring ("/whois " ++ bnet.d2_star ++ info.account)]]
        else []) := by
  unfold bnet_friend_update
  rw [hinfo]
  simp only []
  refine ⟨_, rfl, ?_⟩
  simp only [frames, List.filter_append]
  have h1 := frames_friend_status_calls K info
  have h2 := friend_status_calls_whoising K info
  simp only [frames] at h1
  rw [h1, h2]
  by_cases hc : info.location ≠ K.BNET_FRIEND_LOCATION_OFFLINE ∧
      (Nat.land info.status K.BNET_FRIEND_STATUS_AWAY ≠ 0 ∨
        Nat.land info.status K.BNET_FRIEND_STATUS_DND ≠ 0)
  · rw [if_pos hc]
    simp only [hc, decide_True, if_true]
    cases purple_find_buddy bnet.blist info.account <;>
      simp [bnet_whois_user, bnet_send_CHATCOMMAND, is_packet_send, hc.1]
  · rw [if_neg hc]
    simp only [hc, decide_False]
    cases purple_find_buddy bnet.blist info.account <;> simp [is_packet_send]

/-- The update of "Bob", online and away, issues one WHOIS command. -/
theorem bnet_friend_update_whois_witness :
    ∃ r, bnet_friend_update protocolConsts sampleAwayFriends 1 1 true = some r ∧
      frames r.2 = [.packet_send .sbnet .BNET_SID_CHATCOMMAND [.cstring "/whois Bob"]] := by
  obtain ⟨r, hr, hf⟩ := bnet_friend_update_whois protocolConsts sampleAwayFriends 1 1 true
    ⟨"Bob", 4, 1, 0, "chat", some "lunch", false, some 1⟩ (by decide)
  exact ⟨r, hr, hf.trans (by decide)⟩

/-! ## Stream reassembly: termination -/

theorem bnet_read_loop_zero_length (FLAG : Byte) (inbuf : List Byte) (this_start touse : Nat)
    (h1 : this_start + 4 ≤ inbuf.length) (h2 : inbuf.getD (this_start + 0) 0 = FLAG)
    (h3 : read_u16 inbuf (this_start + 2) = 0) (h4 : touse ≤ inbuf.length)
    (h5 : touse < 65536) :
    ∀ fuel, bnet_read_loop FLAG inbuf fuel this_start touse = none := by
  intro fuel
  induction fuel with
  | zero => rfl
  | succ fuel ih =>
    have h6 : touse % 65536 = touse := Nat.mod_eq_of_lt h5
    unfold bnet_read_loop
    simp only [h3, Nat.add_zero, h6] at ih ⊢
    rw [if_pos h1, if_pos (by simpa using h2), if_pos h4, ih]

theorem bnls_read_loop_zero_length (inbuf : List Byte) (this_start touse : Nat)
    (h1 : this_start + 3 ≤ inbuf.length) (h3 : read_u16 inbuf this_start = 0)
    (h4 : touse ≤ inbuf.length) (h5 : touse < 65536) :
    ∀ fuel, bnls_read_loop inbuf fuel this_start touse = none := by
  intro fuel
  induction fuel with
  | zero => rfl
  | succ fuel ih =>
    have h6 : touse % 65536 = touse := Nat.mod_eq_of_lt h5
    unfold bnls_read_loop
    simp only [h3, Nat.add_zero, h6] at ih ⊢
    rw [if_pos h1, if_pos h4, ih]

/-- C28 (fails on the code): on the 4 buffered bytes `FLAG 0 0 0`, a header that declares the
length 0, the loop of `bnet_read_input` does not finish within any number of iterations: every
iteration dispatches a frame of length 0 and leaves `this_start` and `inbuftouse` as they
were.  The loop of `bnls_read_input` does the same on the 3 bytes `0 0 0`. -/
theorem read_input_zero_length_loops (FLAG : Byte) (fuel : Nat) :
    bnet_read_input FLAG fuel [] [FLAG, 0, 0, 0] = none ∧
    bnls_read_input fuel [] [0, 0, 0] = none := by
  constructor
  · have h := bnet_read_loop_zero_length FLAG [FLAG, 0, 0, 0] 0 0 (by simp) rfl
      (by simp [read_u16]) (by simp) (by omega) fuel
    simp only [bnet_read_input, List.nil_append, h]
  · have h := bnls_read_loop_zero_length [0, 0, 0] 0 0 (by simp) (by simp [read_u16])
      (by simp) (by omega) fuel
    simp only [bnls_read_input, List.nil_append, h]

/-! ## Time formatting: lemmas -/

theorem strftime_loop_step (fuel day mo yr : Nat) (hmo : mo < 12)
    (hyr : mo = 0 → yr + 1 < 2 ^ 32) :
    strftime_loop (fuel + 1) day mo yr =
      if day ≤ strftime_month_days mo (if mo = 0 then yr + 1 else yr) then
        some (day, mo, if mo = 0 then yr + 1 else yr)
      else
        strftime_loop fuel (day - strftime_month_days mo (if mo = 0 then yr + 1 else yr))
          (if mo = 11 then 0 else mo + 1) (if mo = 0 then yr + 1 else yr) := by
  have h2 : (mo + 1) % 2 ^ 32 = mo + 1 := Nat.mod_eq_of_lt (by omega)
  have h3 : ((MO_JAN + 2 ^ 32 - 1) % 2 ^ 32 + 1) % 2 ^ 32 = 0 := by decide
  rw [strftime_loop]
  simp only [h2, h3, strftime_month_days, MO_JAN, MO_FEB, MO_MAR, MO_APR, MO_MAY, MO_JUN,
    MO_JUL, MO_AUG, MO_SEP, MO_OCT, MO_NOV, MO_DEC]
  interval_cases mo
  · have h1 : (yr + 1) % 4294967296 = yr + 1 := Nat.mod_eq_of_lt (hyr rfl)
    simp [h1]
  all_goals simp

theorem strftime_month_days_bounds (mo yr : Nat) :
    28 ≤ strftime_month_days mo yr ∧ strftime_month_days mo yr ≤ 31 := by
  unfold strftime_month_days
  split
  · split <;> omega
  · split <;> omega

theorem strftime_loop_ends :
    ∀ (fuel day mo yr : Nat), mo < 12 → 1 ≤ day → day < fuel → yr + fuel < 2 ^ 32 →
      ∃ d m y, strftime_loop fuel day mo yr = some (d, m, y) ∧ m < 12 ∧ 1 ≤ d ∧
        d ≤ strftime_month_days m y := by
  intro fuel
  induction fuel with
  | zero => intro day mo yr _ _ h; omega
  | succ fuel ih =>
    intro day mo yr hmo hday hfuel hyr
    rw [strftime_loop_step fuel day mo yr hmo (fun _ => by omega)]
    have hb := strftime_month_days_bounds mo (if mo = 0 then yr + 1 else yr)
    by_cases hd : day ≤ strftime_month_days mo (if mo = 0 then yr + 1 else yr)
    · rw [if_pos hd]
      exact ⟨_, _, _, rfl, hmo, hday, hd⟩
    · rw [if_neg hd]
      apply ih
      · split <;> omega
      · omega
      · omega
      · split <;> omega

/-- The function `bnet_format_strftime` returns for every text that holds two numbers, and what
it prints has a month between 1 and 12, an hour below 24, a minute and a second below 60, and
a day-of-month between 2 and one more than the number of days the loop gives the month. -/
theorem bnet_format_strftime_returns (strtod : Strtod) (ftime_str : String)
    (h1 : ftime_str.length ≠ 0) (h2 : (strtod ftime_str).2.length ≠ 0) :
    ∃ yr mo day hr min sec,
      bnet_format_strftime strtod ftime_str = some (.printed yr mo day hr min sec) ∧
      1 ≤ mo ∧ mo ≤ 12 ∧ 2 ≤ day ∧ day ≤ strftime_month_days (mo - 1) yr + 1 ∧
      hr < 24 ∧ min < 60 ∧ sec < 60 := by
  unfold bnet_format_strftime
  rw [if_neg h1]
  simp only [if_neg h2]
  generalize hhi : (strtod ftime_str).1 % 2 ^ 32 = hi
  generalize hlo : (strtod ⟨(strtod ftime_str).2.data.drop 1⟩).1 % 2 ^ 32 = lo
  have hhi' : hi < 2 ^ 32 := by rw [← hhi]; exact Nat.mod_lt _ (by decide)
  have hlo' : lo < 2 ^ 32 := by rw [← hlo]; exact Nat.mod_lt _ (by decide)
  have hq : (hi * 2 ^ 32 + lo) / FT_DAY ≤ 21350398 := by
    have : hi * 2 ^ 32 + lo < 2 ^ 64 := by
      have : hi * 2 ^ 32 ≤ (2 ^ 32 - 1) * 2 ^ 32 := Nat.mul_le_mul_right _ (by omega)
      omega
    have h864 : FT_DAY = 864000000000 := by decide
    rw [h864]
    omega
  generalize (hi * 2 ^ 32 + lo) / FT_DAY = q at hq ⊢
  have hday : (q + 2) % 2 ^ 32 = q + 2 := Nat.mod_eq_of_lt (by omega)
  rw [hday]
  obtain ⟨d, m, y, hloop, hm, hd1, hd2⟩ := strftime_loop_ends (q + 2 + 1) (q + 2) MO_JAN 1600
    (by decide) (by omega) (by omega) (by omega)
  rw [hloop]
  refine ⟨_, _, _, _, _, _, rfl, by omega, by omega, by omega, ?_, ?_, ?_, ?_⟩
  · simpa using hd2
  · exact Nat.mod_lt _ (by decide)
  · exact Nat.mod_lt _ (by decide)
  · exact Nat.mod_lt _ (by decide)

theorem strftime_loop_skip (fuel day mo yr mo' yr' md : Nat) (hmo : mo < 12)
    (hyr : mo = 0 → yr + 1 < 2 ^ 32) (h1 : (if mo = 11 then 0 else mo + 1) = mo')
    (h2 : (if mo = 0 then yr + 1 else yr) = yr') (h3 : strftime_month_days mo yr' = md)
    (hd : md < day) :
    strftime_loop (fuel + 1) day mo yr = strftime_loop fuel (day - md) mo' yr' := by
  rw [strftime_loop_step fuel day mo yr hmo hyr, h2, h3, h1, if_neg (by omega)]

theorem strftime_loop_year (fuel day yr : Nat) (hyr : yr + 1 < 2 ^ 32)
    (hd : strftime_year_days (yr + 1) < day) :
    strftime_loop (fuel + 12) day 0 yr =
      strftime_loop fuel (day - strftime_year_days (yr + 1)) 0 (yr + 1) := by
  unfold strftime_year_days at hd ⊢
  generalize hF : strftime_month_days MO_FEB (yr + 1) = F at hd ⊢
  have hn : ∀ m : Nat, m ≠ 0 → m = 0 → yr + 1 + 1 < 2 ^ 32 := fun m h h0 => absurd h0 h
  rw [strftime_loop_skip (fuel + 11) day 0 yr 1 (yr + 1) 31 (by decide) (fun _ => hyr)
      rfl rfl rfl (by omega),
    strftime_loop_skip (fuel + 10) _ 1 (yr + 1) 2 (yr + 1) F (by decide)
      (hn 1 (by decide)) rfl rfl hF (by omega),
    strftime_loop_skip (fuel + 9) _ 2 (yr + 1) 3 (yr + 1) 31 (by decide)
      (hn 2 (by decide)) rfl rfl rfl (by omega),
    strftime_loop_skip (fuel + 8) _ 3 (yr + 1) 4 (yr + 1) 30 (by decide)
      (hn 3 (by decide)) rfl rfl rfl (by omega),
    strftime_loop_skip (fuel + 7) _ 4 (yr + 1) 5 (yr + 1) 31 (by decide)
      (hn 4 (by decide)) rfl rfl rfl (by omega),
    strftime_loop_skip (fuel + 6) _ 5 (yr + 1) 6 (yr + 1) 30 (by decide)
      (hn 5 (by decide)) rfl rfl rfl (by omega),
    strftime_loop_skip (fuel + 5) _ 6 (yr + 1) 7 (yr + 1) 31 (by decide)
      (hn 6 (by decide)) rfl rfl rfl (by omega),
    strftime_loop_skip (fuel + 4) _ 7 (yr + 1) 8 (yr + 1) 31 (by decide)
      (hn 7 (by decide)) rfl rfl rfl (by omega),
    strftime_loop_skip (fuel + 3) _ 8 (yr + 1) 9 (yr + 1) 30 (by decide)
      (hn 8 (by decide)) rfl rfl rfl (by omega),
    strftime_loop_skip (fuel + 2) _ 9 (yr + 1) 10 (yr + 1) 31 (by decide)
      (hn 9 (by decide)) rfl rfl rfl (by omega),
    strftime_loop_skip (fuel + 1) _ 10 (yr + 1) 11 (yr + 1) 30 (by decide)
      (hn 10 (by decide)) rfl rfl rfl (by omega),
    strftime_loop_skip fuel _ 11 (yr + 1) 0 (yr + 1) 31 (by decide)
      (hn 11 (by decide)) rfl rfl rfl (by omega)]
  have key : ∀ a b : Nat, a = b →
      strftime_loop fuel a 0 (yr + 1) = strftime_loop fuel b 0 (yr + 1) :=
    fun a b h => by rw [h]
  apply key
  omega

theorem strftime_loop_years :
    ∀ (k fuel day yr : Nat), yr + k < 2 ^ 32 → strftime_years_days yr k < day →
      strftime_loop (fuel + 12 * k) day 0 yr =
        strftime_loop fuel (day - strftime_years_days yr k) 0 (yr + k) := by
  intro k
  induction k with
  | zero =>
    intro fuel day yr _ _
    simp only [strftime_years_days, Nat.mul_zero, Nat.add_zero, Nat.sub_zero]
  | succ k ih =>
    intro fuel day yr hyr hd
    simp only [strftime_years_days] at hd ⊢
    have e : fuel + 12 * (k + 1) = (fuel + 12 * k) + 12 := by omega
    rw [e, strftime_loop_year _ _ _ (by omega) (by omega), ih _ _ _ (by omega) (by omega)]
    have key : ∀ a b c d : Nat, a = b → c = d →
        strftime_loop fuel a 0 c = strftime_loop fuel b 0 d :=
      fun a b c d h1 h2 => by rw [h1, h2]
    apply key
    · omega
    · omega

theorem bnet_format_strftime_eq (strtod : Strtod) (ftime_str : String) (high low d m y : Nat)
    (h1 : ftime_str.length ≠ 0) (h2 : (strtod ftime_str).2.length ≠ 0)
    (hhigh : (strtod ftime_str).1 % 2 ^ 32 = high)
    (hlow : (strtod ⟨(strtod ftime_str).2.data.drop 1⟩).1 % 2 ^ 32 = low)
    (hloop : strftime_loop (((high * 2 ^ 32 + low) / FT_DAY + 2) % 2 ^ 32 + 1)
      (((high * 2 ^ 32 + low) / FT_DAY + 2) % 2 ^ 32) MO_JAN 1600 = some (d, m, y)) :
    bnet_format_strftime strtod ftime_str =
      some (.printed y (m + 1) (d + 1) ((high * 2 ^ 32 + low) / FT_HOUR % 24)
        ((high * 2 ^ 32 + low) / FT_MINUTE % 60) ((high * 2 ^ 32 + low) / FT_SECOND % 60)) := by
  unfold bnet_format_strftime
  rw [if_neg h1]
  simp only [if_neg h2, hhigh, hlow, hloop]

set_option maxRecDepth 20000 in
theorem strftime_years_days_2011 : strftime_years_days 1600 411 = 150117 := by
  decide

theorem bnet_format_strsec_printed (strtod : Strtod) (secs_str : String) (t : Nat)
    (hs : secs_str.length ≠ 0) (ht : (strtod secs_str).1 = t) (hlt : t < 2 ^ 32)
    (h60 : t % 60 ≠ 0) :
    ∃ d ds h m s, bnet_format_strsec strtod secs_str = .printed d ds h m s ∧
      h < 24 ∧ m < 60 ∧ s < 60 ∧ d * 86400 + h * 3600 + m * 60 + s = t := by
  unfold bnet_format_strsec
  simp only [ht, Nat.mod_eq_of_lt hlt]
  rw [if_neg (by simp [hs, h60])]
  refine ⟨_, _, _, _, _, rfl, ?_, ?_, ?_, ?_⟩
  · exact Nat.mod_lt _ (by decide)
  · exact Nat.mod_lt _ (by decide)
  · exact Nat.mod_lt _ (by decide)
  · omega

/-! ## Time formatting: the claims -/

/-- C29 (fails on the code): for every text that denotes a whole number of minutes,
`bnet_format_strsec` returns the literal "now": it tests the seconds for 0 after it has
reduced them modulo 60. -/
theorem bnet_format_strsec_whole_minutes (strtod : Strtod) (secs_str : String) (t : Nat)
    (ht : (strtod secs_str).1 = t) (hlt : t < 2 ^ 32) (h60 : t % 60 = 0) :
    bnet_format_strsec strtod secs_str = .now := by
  unfold bnet_format_strsec
  simp only [ht, Nat.mod_eq_of_lt hlt]
  rw [if_pos (Or.inr h60)]

/-- The text "3600", one hour, gives "now". -/
theorem bnet_format_strsec_whole_minutes_witness :
    (sampleStrtod "3600").1 = 3600 ∧ bnet_format_strsec sampleStrtod "3600" = .now :=
  ⟨by decide,
    bnet_format_strsec_whole_minutes sampleStrtod "3600" 3600 (by decide) (by decide)
      (by decide)⟩

/-- C30 (fails on the code): for the FILETIME "30204322 812146688", which is noon of
2 February 2012, `bnet_format_strftime` prints the date 2012/01/32, and for
"5833 3455762432", which is 30 January 1601, the date 1601/01/32, although January has 31
days: the loop leaves `day` between 1 and the length of the month and the function prints
`day + 1`. -/
theorem bnet_format_strftime_prints_day_32 :
    bnet_format_strftime sampleStrtod "30204322 812146688" =
      some (.printed 2012 1 32 12 0 0) ∧
    bnet_format_strftime sampleStrtod "5833 3455762432" = some (.printed 1601 1 32 0 0 0) ∧
    days_in_month 1 2012 = 31 ∧ days_in_month 1 1601 = 31 := by
  have hloop : strftime_loop (((30204322 * 2 ^ 32 + 812146688) / FT_DAY + 2) % 2 ^ 32 + 1)
      (((30204322 * 2 ^ 32 + 812146688) / FT_DAY + 2) % 2 ^ 32) MO_JAN 1600 =
      some (31, 0, 2012) := by
    have e1 : ((30204322 * 2 ^ 32 + 812146688) / FT_DAY + 2) % 2 ^ 32 = 150148 := by decide
    rw [e1]
    have e3 := strftime_years_days_2011
    show strftime_loop (145217 + 12 * 411) 150148 0 1600 = _
    rw [strftime_loop_years 411 145217 150148 1600 (by decide) (by rw [e3]; decide), e3]
    decide
  exact ⟨bnet_format_strftime_eq sampleStrtod "30204322 812146688" 30204322 812146688 31 0
    2012 (by decide) (by decide) (by decide) (by decide) hloop, by decide, by decide,
    by decide⟩

/-! ## Account names: lemmas -/

/-- C25 (as stated, fails): a message that holds the control character BEL (7) is not
rejected: `bnet_send_whisper` sends the frame, records the recipient and returns the length,
and `bnet_chat_im` sends the frame and returns the length too.  Only tab, vertical tab,
carriage return and line feed are looked for. -/
theorem message_with_control_char_sent :
    (Char.ofNat 7).toNat < 32 ∧
    bnet_send_whisper sampleMessageConsts id sampleOnline "Bob" ⟨['h', 'i', Char.ofNat 7]⟩ =
      ({ sampleOnline with last_sent_to := some "Bob", awaiting_whisper_confirm := true },
        [.packet_send .sbnet .BNET_SID_CHATCOMMAND
          [.cstring ⟨['/', 'w', ' ', 'B', 'o', 'b', ' ', 'h', 'i', Char.ofNat 7]⟩]], 3) ∧
    (bnet_chat_im sampleMessageConsts id id (sampleHost true) (fun _ => (true, none))
        sampleOnline ⟨['h', 'i', Char.ofNat 7]⟩).2.1.head? =
      some (.packet_send .sbnet .BNET_SID_CHATCOMMAND [.cstring ⟨['h', 'i', Char.ofNat 7]⟩]) ∧
    (bnet_chat_im sampleMessageConsts id id (sampleHost true) (fun _ => (true, none))
        sampleOnline ⟨['h', 'i', Char.ofNat 7]⟩).2.2 = 3 := by
  decide

/-- C25 (amended): `bnet_send_whisper` and `bnet_chat_im` return `-ENOTCONN` when the session is
not online; otherwise `-BNET_EBADCHARS` when the message holds a tab, a vertical tab, a
carriage return or a line feed; otherwise `-E2BIG` when the unescaped message has more bytes
(`strlen`) than `BNET_MSG_MAXSIZE`.  In the three cases no frame is sent, no host call is made,
and the session (with `last_sent_to` and `awaiting_whisper_confirm`) is left as it was. -/
theorem message_rejected (M : MessageConsts) (unescape escape : String → String)
    (host : HostView) (cmd_do_command : String → Bool × Option String)
    (bnet : BnetConnectionData) (who message : String) (code : Int)
    (hcode : code =
      if bnet.is_online = false then -M.ENOTCONN
      else if has_bad_chars message = true then -M.BNET_EBADCHARS
      else -M.E2BIG)
    (hrej : bnet.is_online = false ∨ has_bad_chars message = true ∨
      (unescape message).utf8ByteSize > M.BNET_MSG_MAXSIZE) :
    bnet_send_whisper M unescape bnet who message = (bnet, [], code) ∧
    bnet_chat_im M unescape escape host cmd_do_command bnet message = (bnet, [], code) := by
  subst hcode
  unfold bnet_send_whisper bnet_chat_im
  cases ho : bnet.is_online
  · simp
  · cases hb : has_bad_chars message
    · have hl : (unescape message).utf8ByteSize > M.BNET_MSG_MAXSIZE := by
        rcases hrej with h | h | h
        · rw [ho] at h; exact absurd h (by decide)
        · rw [hb] at h; exact absurd h (by decide)
        · exact h
      simp [hl]
    · simp

/-- A message sent while offline, a message with a line feed, a message of 5 bytes when the
maximum is 4, a message of 3 characters that take 6 bytes (three times U+00E9) when the
maximum is 4, and a message of 113 characters that take 226 bytes when the maximum is 224. -/
theorem message_rejected_witness :
    bnet_send_whisper sampleMessageConsts id sampleSession "Bob" "hi" =
      (sampleSession, [], -107) ∧
    bnet_send_whisper sampleMessageConsts id sampleOnline "Bob" "a\nb" =
      (sampleOnline, [], -255) ∧
    bnet_chat_im { sampleMessageConsts with BNET_MSG_MAXSIZE := 4 } id id (sampleHost true)
        (fun _ => (true, none)) sampleOnline "hello" = (sampleOnline, [], -7) ∧
    bnet_send_whisper { sampleMessageConsts with BNET_MSG_MAXSIZE := 4 } id sampleOnline "Bob"
        ⟨[Char.ofNat 233, Char.ofNat 233, Char.ofNat 233]⟩ = (sampleOnline, [], -7) ∧
    bnet_chat_im { sampleMessageConsts with BNET_MSG_MAXSIZE := 4 } id id (sampleHost true)
        (fun _ => (true, none)) sampleOnline
        ⟨[Char.ofNat 233, Char.ofNat 233, Char.ofNat 233]⟩ = (sampleOnline, [], -7) ∧
    bnet_send_whisper sampleMessageConsts id sampleOnline "Bob"
        ⟨List.replicate 113 (Char.ofNat 233)⟩ = (sampleOnline, [], -7) :=
  ⟨(message_rejected sampleMessageConsts id id (sampleHost true) (fun _ => (true, none))
      sampleSession "Bob" "hi" (-107) (by decide) (Or.inl rfl)).1,
    (message_rejected sampleMessageConsts id id (sampleHost true) (fun _ => (true, none))
      sampleOnline "Bob" "a\nb" (-255) (by decide) (Or.inr (Or.inl (by decide)))).1,
    (message_rejected { sampleMessageConsts with BNET_MSG_MAXSIZE := 4 } id id (sampleHost true)
      (fun _ => (true, none)) sampleOnline "Bob" "hello" (-7) (by decide)
      (Or.inr (Or.inr (by decide)))).2,
    (message_rejected { sampleMessageConsts with BNET_MSG_MAXSIZE := 4 } id id (sampleHost true)
      (fun _ => (true, none)) sampleOnline "Bob"
      ⟨[Char.ofNat 233, Char.ofNat 233, Char.ofNat 233]⟩ (-7) (by decide)
      (Or.inr (Or.inr (by decide)))).1,
    (message_rejected { sampleMessageConsts with BNET_MSG_MAXSIZE := 4 } id id (sampleHost true)
      (fun _ => (true, none)) sampleOnline "Bob"
      ⟨[Char.ofNat 233, Char.ofNat 233, Char.ofNat 233]⟩ (-7) (by decide)
      (Or.inr (Or.inr (by decide)))).2,
    (message_rejected sampleMessageConsts id id (sampleHost true) (fun _ => (true, none))
      sampleOnline "Bob" ⟨List.replicate 113 (Char.ofNat 233)⟩ (-7) (by decide)
      (Or.inr (Or.inr (by decide)))).1⟩

/-! ## User data: lemmas -/

theorem bnet_recv_READUSERDATA_loop_no_match (K : BnetConsts) (U : UserDataConsts)
    (fs fsec : String → String) (key_count c : Nat) (values : List String) :
    ∀ (fuel i : Nat) (st : ReadUserData),
      (∀ req ∈ st.bnet.userdata_requests, req.cookie ≠ c) →
      st.bnet.userdata_requests.length - i < fuel →
      bnet_recv_READUSERDATA_loop K U fs fsec key_count c values fuel i st = some st := by
  intro fuel
  induction fuel with
  | zero => intro i st _ h; omega
  | succ fuel ih =>
    intro i st hno hfuel
    rw [bnet_recv_READUSERDATA_loop]
    by_cases hi : i < st.bnet.userdata_requests.length
    · rw [if_pos hi]
      have hget : st.bnet.userdata_requests.get? i = some (st.bnet.userdata_requests.get ⟨i, hi⟩) :=
        List.get?_eq_get hi
      rw [hget]
      simp only []
      rw [if_neg (hno _ (List.get_mem _ _ _))]
      exact ih (i + 1) st hno (by omega)
    · rw [if_neg hi]

theorem read_userdata_some (keys values : List String) :
    ∀ (count j pos : Nat) (t : UserData), j + count ≤ keys.length →
      ∃ t', read_userdata keys values count j pos t = some t' := by
  intro count
  induction count with
  | zero => intro j pos t _; exact ⟨t, rfl⟩
  | succ count ih =>
    intro j pos t h
    have hj : j < keys.length := by omega
    rw [read_userdata, List.get?_eq_get hj]
    exact ih (j + 1) (pos + 1) _ (by omega)

theorem userdata_profile_frame (U : UserDataConsts) (userdata : UserData)
    (req : BnetUserDataRequest) (st : ReadUserData) :
    (userdata_profile U userdata req st).1.bnet.userdata_requests =
        st.bnet.userdata_requests ∧
      (userdata_profile U userdata req st).1.bnet.lookup_user = st.bnet.lookup_user ∧
      (userdata_profile U userdata req st).1.bnet.product_id = st.bnet.product_id ∧
      (userdata_profile U userdata req st).1.strings_read = st.strings_read ∧
      (st.bnet.writing_profile = false →
        (userdata_profile U userdata req st).1.effects = st.effects) ∧
      (Nat.land req.request_type U.BNET_READUSERDATA_REQUEST_PROFILE ≠ 0 →
        st.bnet.writing_profile = false → st.bnet.lookup_user.isSome = true →
        (userdata_profile U userdata req st).2 = true) := by
  unfold userdata_profile
  split
  · split
    · rename_i hw
      refine ⟨rfl, rfl, rfl, rfl, ?_, ?_⟩
      · intro h; rw [h] at hw; exact absurd hw (by decide)
      · intro _ h; rw [h] at hw; exact absurd hw (by decide)
    · split
      · exact ⟨rfl, rfl, rfl, rfl, fun _ => rfl, fun _ _ _ => rfl⟩
      · rename_i hl
        exact ⟨rfl, rfl, rfl, rfl, fun _ => rfl, fun _ _ h => absurd h hl⟩
  · rename_i hp
    exact ⟨rfl, rfl, rfl, rfl, fun _ => rfl, fun h => absurd h hp⟩

theorem userdata_system_frame (U : UserDataConsts) (fs fsec : String → String)
    (userdata : UserData) (req : BnetUserDataRequest) (st : ReadUserData) :
    (userdata_system U fs fsec userdata req st).1.bnet.userdata_requests =
        st.bnet.userdata_requests ∧
      (userdata_system U fs fsec userdata req st).1.bnet.lookup_user = st.bnet.lookup_user ∧
      (userdata_system U fs fsec userdata req st).1.bnet.product_id = st.bnet.product_id ∧
      (userdata_system U fs fsec userdata req st).1.strings_read = st.strings_read ∧
      (userdata_system U fs fsec userdata req st).1.effects = st.effects := by
  unfold userdata_system
  split
  · split
    · exact ⟨rfl, rfl, rfl, rfl, rfl⟩
    · exact ⟨rfl, rfl, rfl, rfl, rfl⟩
  · exact ⟨rfl, rfl, rfl, rfl, rfl⟩

theorem userdata_record_frame (K : BnetConsts) (U : UserDataConsts) (fs : String → String)
    (userdata : UserData) (req : BnetUserDataRequest) (st : ReadUserData) :
    (userdata_record K U fs userdata req st).1.bnet.userdata_requests =
        st.bnet.userdata_requests ∧
      (userdata_record K U fs userdata req st).1.bnet.lookup_user = st.bnet.lookup_user ∧
      (userdata_record K U fs userdata req st).1.bnet.product_id = st.bnet.product_id ∧
      (userdata_record K U fs userdata req st).1.strings_read = st.strings_read ∧
      (userdata_record K U fs userdata req st).1.effects = st.effects := by
  unfold userdata_record
  split
  · split
    · exact ⟨rfl, rfl, rfl, rfl, rfl⟩
    · exact ⟨rfl, rfl, rfl, rfl, rfl⟩
  · exact ⟨rfl, rfl, rfl, rfl, rfl⟩

theorem land_lor_self (a b c : Nat) : Nat.land (Nat.lor (Nat.lor a b) c) a = a := by
  show ((a ||| b) ||| c) &&& a = a
  apply Nat.eq_of_testBit_eq
  intro i
  simp only [Nat.testBit_land, Nat.testBit_lor]
  cases a.testBit i <;> simp

theorem userdata_matched_spec (K : BnetConsts) (U : UserDataConsts) (fs fsec : String → String)
    (key_count : Nat) (values : List String) (i : Nat) (req : BnetUserDataRequest)
    (st : ReadUserData) (hk : key_count ≤ req.userdata_keys.length) :
    ∃ st', userdata_matched K U fs fsec key_count values i req st = some st' ∧
      st'.bnet.userdata_requests = st.bnet.userdata_requests.eraseIdx i ∧
      st'.strings_read = st.strings_read + key_count ∧
      (Nat.land req.request_type U.BNET_READUSERDATA_REQUEST_PROFILE ≠ 0 →
        st.bnet.writing_profile = false → ∀ u, st.bnet.lookup_user = some u →
        st'.effects = st.effects ++
          [.notify_userinfo (bnet_d2_normalize K st.bnet u) (st'.bnet.lookup_info.getD [])]) := by
  obtain ⟨userdata, hread⟩ := read_userdata_some req.userdata_keys values key_count 0
    st.strings_read [] (by omega)
  obtain ⟨p1, p2, p3, p4, p5, p6⟩ := userdata_profile_frame U userdata req
    { st with strings_read := st.strings_read + key_count }
  obtain ⟨s1, s2, s3, s4, s5⟩ := userdata_system_frame U fs fsec userdata req
    (userdata_profile U userdata req { st with strings_read := st.strings_read + key_count }).1
  obtain ⟨r1, r2, r3, r4, r5⟩ := userdata_record_frame K U fs userdata req
    (userdata_system U fs fsec userdata req (userdata_profile U userdata req
      { st with strings_read := st.strings_read + key_count }).1).1
  unfold userdata_matched
  rw [hread]
  simp only []
  refine ⟨_, rfl, ?_, ?_, ?_⟩
  · simp only [r1, s1, p1]
  · simp only [r4, s4, p4]
  · intro hp hw u hu
    have hshow := p6 hp hw (by simp [hu])
    simp only [hshow, Bool.true_or, if_true, r5, s5, p5 hw, r2, s2, p2, hu, Option.getD_some]
    rw [bnet_d2_normalize_congr K st.bnet _ u (by simp only [r3, s3, p3])]

theorem bnet_recv_READUSERDATA_loop_exit (K : BnetConsts) (U : UserDataConsts)
    (fs fsec : String → String) (key_count c : Nat) (values : List String) (fuel i : Nat)
    (st : ReadUserData) (h : st.bnet.userdata_requests.length ≤ i) :
    bnet_recv_READUSERDATA_loop K U fs fsec key_count c values (fuel + 1) i st = some st := by
  rw [bnet_recv_READUSERDATA_loop, if_neg (by omega)]

theorem userdata_sweep_cons_ne (c : Nat) (x : BnetUserDataRequest)
    (rest : List BnetUserDataRequest) (h : x.cookie ≠ c) :
    userdata_sweep c (x :: rest) = x :: userdata_sweep c rest := by
  cases rest with
  | nil => simp [userdata_sweep, h]
  | cons y rest => simp [userdata_sweep, h]

theorem userdata_sweep_no_match (c : Nat) (l : List BnetUserDataRequest)
    (h : ∀ x ∈ l, x.cookie ≠ c) : userdata_sweep c l = l := by
  induction l with
  | nil => rfl
  | cons x rest ih =>
    rw [userdata_sweep_cons_ne c x rest (h x (List.mem_cons_self _ _)),
      ih (fun y hy => h y (List.mem_cons_of_mem _ hy))]

theorem userdata_sweep_unique (c : Nat) (pre post : List BnetUserDataRequest)
    (req : BnetUserDataRequest) (hpre : ∀ x ∈ pre, x.cookie ≠ c) (hreq : req.cookie = c)
    (hpost : ∀ x ∈ post, x.cookie ≠ c) :
    userdata_sweep c (pre ++ req :: post) = pre ++ post := by
  induction pre with
  | nil =>
    cases post with
    | nil => simp [userdata_sweep, hreq]
    | cons y rest =>
      simp only [List.nil_append, userdata_sweep, hreq, if_true]
      rw [userdata_sweep_no_match c rest (fun z hz => hpost z (List.mem_cons_of_mem _ hz))]
  | cons x rest ih =>
    rw [List.cons_append, userdata_sweep_cons_ne c x _ (hpre x (List.mem_cons_self _ _)),
      ih (fun y hy => hpre y (List.mem_cons_of_mem _ hy)), List.cons_append]

theorem bnet_recv_READUSERDATA_loop_sweep (K : BnetConsts) (U : UserDataConsts)
    (fs fsec : String → String) (key_count c : Nat) (values : List String) :
    ∀ (fuel : Nat) (suf pre : List BnetUserDataRequest) (st : ReadUserData),
      st.bnet.userdata_requests = pre ++ suf →
      (∀ req ∈ suf, req.cookie = c → key_count ≤ req.userdata_keys.length) →
      suf.length < fuel →
      ∃ st', bnet_recv_READUSERDATA_loop K U fs fsec key_count c values fuel pre.length st =
          some st' ∧
        st'.bnet.userdata_requests = pre ++ userdata_sweep c suf := by
  intro fuel
  induction fuel with
  | zero => intro suf pre st _ _ h; omega
  | succ fuel ih =>
    intro suf pre st hlist hkeys hfuel
    cases suf with
    | nil =>
      refine ⟨st, ?_, by simpa [userdata_sweep] using hlist⟩
      exact bnet_recv_READUSERDATA_loop_exit K U fs fsec key_count c values fuel _ st
        (by rw [hlist]; simp)
    | cons x rest =>
      have hi : pre.length < st.bnet.userdata_requests.length := by rw [hlist]; simp
      have hget : st.bnet.userdata_requests.get? pre.length = some x := by
        rw [hlist, List.get?_eq_getElem?, List.getElem?_append_right (Nat.le_refl _)]
        simp
      rw [bnet_recv_READUSERDATA_loop, if_pos hi, hget]
      simp only []
      by_cases hx : x.cookie = c
      · rw [if_pos hx]
        obtain ⟨st1, hm, hl1, -, -⟩ := userdata_matched_spec K U fs fsec key_count values
          pre.length x st (hkeys x (List.mem_cons_self _ _) hx)
        rw [hm]
        simp only []
        have hl1' : st1.bnet.userdata_requests = pre ++ rest := by
          rw [hl1, hlist, List.eraseIdx_append_of_length_le (Nat.le_refl _)]
          simp
        cases rest with
        | nil =>
          cases fuel with
          | zero => simp at hfuel
          | succ fuel =>
            refine ⟨st1, ?_, by simpa [userdata_sweep, hx] using hl1'⟩
            exact bnet_recv_READUSERDATA_loop_exit K U fs fsec key_count c values fuel _ st1
              (by rw [hl1']; simp)
        | cons y rest' =>
          obtain ⟨st', hloop, hl'⟩ := ih rest' (pre ++ [y]) st1 (by rw [hl1']; simp)
            (fun r hr => hkeys r (List.mem_cons_of_mem _ (List.mem_cons_of_mem _ hr)))
            (by simp at hfuel; omega)
          rw [List.length_append, List.length_singleton] at hloop
          refine ⟨st', hloop, ?_⟩
          rw [hl']
          simp [userdata_sweep, hx]
      · rw [if_neg hx]
        obtain ⟨st', hloop, hl'⟩ := ih rest (pre ++ [x]) st (by rw [hlist]; simp)
          (fun r hr => hkeys r (List.mem_cons_of_mem _ hr)) (by simp at hfuel; omega)
        rw [List.length_append, List.length_singleton] at hloop
        refine ⟨st', hloop, ?_⟩
        rw [hl', userdata_sweep_cons_ne c x rest hx]
        simp

theorem profiledata_request_spec (K : BnetConsts) (U : UserDataConsts)
    (str_hash : String → Nat) (bnet : BnetConnectionData) (norm acct_norm : String) :
    (profiledata_request K U str_hash bnet norm acct_norm).cookie = str_hash norm ∧
      Nat.land (profiledata_request K U str_hash bnet norm acct_norm).request_type
        U.BNET_READUSERDATA_REQUEST_PROFILE = U.BNET_READUSERDATA_REQUEST_PROFILE := by
  constructor
  · rfl
  · simp only [profiledata_request]
    exact land_lor_self _ _ _

/-! ## User data: the claims -/

/-- C23: a READUSERDATA response whose cookie is the cookie of no pending request leaves the
session as it was, with the same pending requests in the same order, makes no host call, so
that no result is presented, and reads no string from the packet after the cookie. -/
theorem bnet_recv_READUSERDATA_unknown_cookie (K : BnetConsts) (U : UserDataConsts)
    (format_strftime format_strsec : String → String) (bnet : BnetConnectionData)
    (key_count request_cookie : Nat) (values : List String)
    (h : ∀ req ∈ bnet.userdata_requests, req.cookie ≠ request_cookie) :
    bnet_recv_READUSERDATA K U format_strftime format_strsec bnet key_count request_cookie
      values = some ⟨bnet, [], 0⟩ :=
  bnet_recv_READUSERDATA_loop_no_match K U format_strftime format_strsec key_count
    request_cookie values _ 0 ⟨bnet, [], 0⟩ h (by simp)

/-- A response with the cookie 8 while the one pending request has the cookie 7. -/
theorem bnet_recv_READUSERDATA_unknown_cookie_witness :
    samplePending.userdata_requests.map (fun req => req.cookie) = [7] ∧
    bnet_recv_READUSERDATA protocolConsts sampleUserDataConsts id id samplePending 2 8
      ["male", "30"] = some ⟨samplePending, [], 0⟩ :=
  ⟨rfl, bnet_recv_READUSERDATA_unknown_cookie protocolConsts sampleUserDataConsts id id
    samplePending 2 8 ["male", "30"] (by decide)⟩

/-- C24: a lookup of `who` submitted with `bnet_profiledata_user` while no request is pending
(the lookup target is set and no profile is being edited, as in `bnet_get_info`) leaves one
pending request, whose cookie is the hash of the lower-cased name.  A READUSERDATA response
with another cookie then changes nothing and presents nothing; a response with that cookie
(with no more keys than were requested) makes one `purple_notify_userinfo` call and leaves no
pending request.  In general a response whose cookie is the cookie of one pending request
(with no more keys than that request has) takes that request out and leaves the others in
place and in order. -/
theorem userdata_lookup_correlates (K : BnetConsts) (U : UserDataConsts)
    (format_strftime format_strsec : String → String) (str_hash : String → Nat)
    (bnet : BnetConnectionData) (who u acct_norm : String) (key_count other_cookie : Nat)
    (values values' : List String)
    (hU : U.BNET_READUSERDATA_REQUEST_PROFILE ≠ 0)
    (h0 : bnet.userdata_requests = []) (hl : bnet.lookup_user = some u)
    (hw : bnet.writing_profile = false)
    (hacct : bnet_account_normalize (bnet_normalize who) = some acct_norm)
    (hc : other_cookie ≠ str_hash (bnet_normalize who)) :
    (∃ b1 e1 req, bnet_profiledata_user K U str_hash bnet who = some (b1, e1) ∧
      req = profiledata_request K U str_hash bnet (bnet_normalize who) acct_norm ∧
      b1.userdata_requests = [req] ∧ req.cookie = str_hash (bnet_normalize who) ∧
      bnet_recv_READUSERDATA K U format_strftime format_strsec b1 key_count other_cookie
        values' = some ⟨b1, [], 0⟩ ∧
      (key_count ≤ req.userdata_keys.length →
        ∃ r, bnet_recv_READUSERDATA K U format_strftime format_strsec b1 key_count
            (str_hash (bnet_normalize who)) values = some r ∧
          r.effects = [.notify_userinfo (bnet_d2_normalize K bnet u)
            (r.bnet.lookup_info.getD [])] ∧
          r.bnet.userdata_requests = [] ∧ r.strings_read = key_count)) ∧
    (∀ (b : BnetConnectionData) (pre post : List BnetUserDataRequest)
      (rq : BnetUserDataRequest) (c kc : Nat) (vals : List String),
      b.userdata_requests = pre ++ rq :: post → rq.cookie = c →
      (∀ x ∈ pre, x.cookie ≠ c) → (∀ x ∈ post, x.cookie ≠ c) →
      kc ≤ rq.userdata_keys.length →
      ∃ r, bnet_recv_READUSERDATA K U format_strftime format_strsec b kc c vals = some r ∧
        r.bnet.userdata_requests = pre ++ post) := by
  constructor
  · obtain ⟨hq1, hq2⟩ := profiledata_request_spec K U str_hash bnet (bnet_normalize who)
      acct_norm
    simp only [bnet_profiledata_user, hacct, h0, List.nil_append]
    generalize hreq : profiledata_request K U str_hash bnet (bnet_normalize who) acct_norm = req
      at hq1 hq2 ⊢
    have hb : ({ bnet with userdata_requests := [req] } : BnetConnectionData).userdata_requests =
        [req] ∧
      ({ bnet with userdata_requests := [req] } : BnetConnectionData).lookup_user = some u ∧
      ({ bnet with userdata_requests := [req] } : BnetConnectionData).writing_profile = false ∧
      ({ bnet with userdata_requests := [req] } : BnetConnectionData).product_id =
        bnet.product_id := ⟨rfl, hl, hw, rfl⟩
    generalize ({ bnet with userdata_requests := [req] } : BnetConnectionData) = b1 at hb ⊢
    obtain ⟨hb1, hb2, hb3, hb4⟩ := hb
    refine ⟨b1, _, req, rfl, rfl, hb1, hq1, ?_, ?_⟩
    · exact bnet_recv_READUSERDATA_loop_no_match K U format_strftime format_strsec key_count
        other_cookie values' _ 0 ⟨b1, [], 0⟩ (by
          intro r hr
          rw [hb1, List.mem_singleton] at hr
          rw [hr, hq1]
          exact fun h => hc h.symm) (by rw [hb1]; simp)
    · intro hk
      obtain ⟨st1, hm, hl1, hs1, he1⟩ := userdata_matched_spec K U format_strftime
        format_strsec key_count values 0 req ⟨b1, [], 0⟩ hk
      have he := he1 (by rw [hq2]; exact hU) hb3 u hb2
      have hl1' : st1.bnet.userdata_requests = [] := by
        rw [hl1]
        show b1.userdata_requests.eraseIdx 0 = []
        rw [hb1]
        rfl
      refine ⟨st1, ?_, ?_, hl1', ?_⟩
      · unfold bnet_recv_READUSERDATA
        rw [hb1, List.length_singleton, bnet_recv_READUSERDATA_loop]
        have hlt : 0 < (⟨b1, [], 0⟩ : ReadUserData).bnet.userdata_requests.length := by
          show 0 < b1.userdata_requests.length
          rw [hb1]; simp
        have hget : (⟨b1, [], 0⟩ : ReadUserData).bnet.userdata_requests.get? 0 = some req := by
          show b1.userdata_requests.get? 0 = some req
          rw [hb1]; rfl
        rw [if_pos hlt, hget]
        simp only []
        rw [if_pos hq1, hm]
        exact bnet_recv_READUSERDATA_loop_exit K U format_strftime format_strsec key_count _
          values 0 1 st1 (by rw [hl1']; simp)
      · rw [he]
        show [] ++ [Effect.notify_userinfo (bnet_d2_normalize K b1 u)
          (st1.bnet.lookup_info.getD [])] = _
        rw [bnet_d2_normalize_congr K bnet b1 u hb4]
        rfl
      · rw [hs1]
        show 0 + key_count = key_count
        omega
  · intro b pre post rq c kc vals hlist hrq hpre hpost hkc
    obtain ⟨r, hr, hrl⟩ := bnet_recv_READUSERDATA_loop_sweep K U format_strftime format_strsec
      kc c vals (b.userdata_requests.length + 1) b.userdata_requests [] ⟨b, [], 0⟩ rfl
      (by
        intro req hreq hcookie
        rw [hlist] at hreq
        rcases List.mem_append.mp hreq with h | h
        · exact absurd hcookie (hpre req h)
        · rcases List.mem_cons.mp h with h | h
          · rw [h]; exact hkc
          · exact absurd hcookie (hpost req h))
      (by omega)
    refine ⟨r, hr, ?_⟩
    rw [hrl, hlist, userdata_sweep_unique c pre post rq hpre hrq hpost]
    rfl

/-- A lookup of "Bob": a response with the cookie 1 changes nothing, and a response with the
hash of "bob" is presented and leaves no pending request. -/
theorem userdata_lookup_correlates_witness :
    ∃ b1 e1 req r, bnet_profiledata_user protocolConsts sampleUserDataConsts g_str_hash
        sampleLookup "Bob" = some (b1, e1) ∧
      b1.userdata_requests = [req] ∧ req.cookie = g_str_hash "bob" ∧
      bnet_recv_READUSERDATA protocolConsts sampleUserDataConsts id id b1 4 1
        ["a", "b", "c", "d"] = some ⟨b1, [], 0⟩ ∧
      bnet_recv_READUSERDATA protocolConsts sampleUserDataConsts id id b1 4
        (g_str_hash "bob") ["male", "30", "Azeroth", ""] = some r ∧
      r.effects = [.notify_userinfo "bob" (r.bnet.lookup_info.getD [])] ∧
      r.bnet.userdata_requests = [] ∧ r.strings_read = 4 := by
  obtain ⟨b1, e1, req, h1, hreq, h2, h3, h4, h5⟩ :=
    (userdata_lookup_correlates protocolConsts sampleUserDataConsts id id g_str_hash
      sampleLookup "Bob" "bob" "bob" 4 1 ["male", "30", "Azeroth", ""] ["a", "b", "c", "d"]
      (by decide) rfl rfl rfl (by decide) (by decide)).1
  obtain ⟨r, hr1, hr2, hr3, hr4⟩ := h5 (by rw [hreq]; decide)
  exact ⟨b1, e1, req, r, h1, h2, h3, h4, hr1, hr2, hr3, hr4⟩
end Bnet
